import Mathlib

/-!
# ColorMagic: colour representations and the conversion network

A shallow embedding of `ColorMagic/spaces/color_base.h`, `ColorMagic/spaces/cmyk.cpp` and
`ColorMagic/manipulation/color_converter.cpp`.

Numbers. A C `float` is embedded as `float α`: either a finite number of an ordered field `α`
(with a floor function), carried exactly, or one of the IEEE special values NaN, +inf, -inf.
The arithmetic on finite values is exact (the sign of zero is not modelled); the rounding of
every result to 24 significant bits is `float.round32`, and three functions whose results
depend on it (`rgb_deep_to_cmyk`, `rgb_deep_to_grey_deep` and the hue of `rgb_deep_to_hsv`)
have a second definition, `..._rounded`, that takes the rounding as a parameter and is the
exact definition at `id`. The special values follow IEEE 754 and the C library: `0/0` is NaN,
`x/0` is an infinity for `x ≠ 0`, every ordered comparison with NaN is false, and `fminf`,
`fmaxf` return the other argument when one argument is NaN. Every definition is computable
for a computable `α` such as `ℚ`.

Objects. The class hierarchy below `color_base` adds no data member, so every colour object
is embedded as a `color_base` record; the record also carries the run-time class of the
object, which `dynamic_cast` consults. A function that may throw returns `Except exception`,
a pointer that may be null is an `Option`.
-/

namespace ColorMagic

/-! ## C floats -/

/-- A C `float`: NaN, minus infinity, a finite value, or plus infinity. -/
inductive float (α : Type) where
  | nan : float α
  | ninf : float α
  | fin : α → float α
  | pinf : float α
deriving DecidableEq

namespace float

variable {α : Type} [LinearOrderedField α] [FloorRing α]

/-- Unary minus. -/
def neg : float α → float α
  | nan => nan
  | ninf => pinf
  | fin a => fin (-a)
  | pinf => ninf

/-- Addition: `inf + -inf` is NaN. -/
def add : float α → float α → float α
  | nan, _ => nan
  | _, nan => nan
  | fin a, fin b => fin (a + b)
  | pinf, ninf => nan
  | ninf, pinf => nan
  | pinf, _ => pinf
  | ninf, _ => ninf
  | fin _, pinf => pinf
  | fin _, ninf => ninf

/-- Subtraction. -/
def sub (x y : float α) : float α := add x (neg y)

/-- The infinity that has the sign of `a * s`, where `s` is `1` for `pinf` and `-1` for
`ninf`; NaN when `a` is zero (`0 * inf`). -/
def scale_inf (a : α) (positive : Bool) : float α :=
  if a = 0 then nan
  else if (0 < a) = (positive = true) then pinf else ninf

/-- Multiplication: `0 * inf` is NaN. -/
def mul : float α → float α → float α
  | nan, _ => nan
  | _, nan => nan
  | fin a, fin b => fin (a * b)
  | fin a, pinf => scale_inf a true
  | fin a, ninf => scale_inf a false
  | pinf, fin b => scale_inf b true
  | ninf, fin b => scale_inf b false
  | pinf, pinf => pinf
  | ninf, ninf => pinf
  | pinf, ninf => ninf
  | ninf, pinf => ninf

/-- Division: `0/0` and `inf/inf` are NaN, `x/0` is an infinity for a finite `x ≠ 0`
(the divisor zero is taken as `+0`), and a finite value over an infinity is zero. -/
def div : float α → float α → float α
  | nan, _ => nan
  | _, nan => nan
  | fin a, fin b =>
      if b = 0 then (if a = 0 then nan else if 0 < a then pinf else ninf) else fin (a / b)
  | fin _, pinf => fin 0
  | fin _, ninf => fin 0
  | pinf, fin b => if 0 ≤ b then pinf else ninf
  | ninf, fin b => if 0 ≤ b then ninf else pinf
  | pinf, pinf => nan
  | pinf, ninf => nan
  | ninf, pinf => nan
  | ninf, ninf => nan

instance : Neg (float α) := ⟨neg⟩
instance : Add (float α) := ⟨add⟩
instance : Sub (float α) := ⟨sub⟩
instance : Mul (float α) := ⟨mul⟩
instance : Div (float α) := ⟨div⟩

/-- The C comparison `x < y`; false when an operand is NaN. -/
def lt : float α → float α → Bool
  | nan, _ => false
  | _, nan => false
  | fin a, fin b => decide (a < b)
  | ninf, ninf => false
  | ninf, _ => true
  | pinf, _ => false
  | fin _, pinf => true
  | fin _, ninf => false

/-- The C comparison `x == y`; false when an operand is NaN. -/
def eq : float α → float α → Bool
  | nan, _ => false
  | _, nan => false
  | fin a, fin b => decide (a = b)
  | ninf, ninf => true
  | pinf, pinf => true
  | _, _ => false

/-- The C comparison `x <= y`. -/
def le (x y : float α) : Bool := lt x y || eq x y

/-- The C comparison `x > y`. -/
def gt (x y : float α) : Bool := lt y x

/-- The C comparison `x >= y`. -/
def ge (x y : float α) : Bool := le y x

/-- The C comparison `x != y`; true when an operand is NaN. -/
def ne (x y : float α) : Bool := !(eq x y)

/-- The C library `fminf` (also `std::fmin` on floats): the smaller argument, and the other
argument when one of them is NaN. -/
def fminf : float α → float α → float α
  | nan, y => y
  | x, nan => x
  | x, y => if lt y x then y else x

/-- The C library `fmaxf` (also `std::fmax` on floats): the larger argument, and the other
argument when one of them is NaN. -/
def fmaxf : float α → float α → float α
  | nan, y => y
  | x, nan => x
  | x, y => if lt x y then y else x

/-- The least value of a 32-bit `int`. -/
def INT_MIN : ℤ := -2147483648

/-- The greatest value of a 32-bit `int`. -/
def INT_MAX : ℤ := 2147483647

/-- The conversion `(int)x`: truncation toward zero. The conversion of NaN, of an infinity or
of a value outside the range of `int` is undefined in C; the x86 conversion instruction
returns `INT_MIN` there, and so does the model. -/
def to_int : float α → ℤ
  | fin a =>
      let t : ℤ := if 0 ≤ a then ⌊a⌋ else ⌈a⌉
      if INT_MIN ≤ t ∧ t ≤ INT_MAX then t else INT_MIN
  | _ => INT_MIN

/-- The conversion of an `int` to `float`. -/
def of_int (n : ℤ) : float α := fin (n : α)

/-- The conversion `(unsigned char)x`: the conversion to `int` reduced modulo 256. -/
def to_uchar (x : float α) : ℤ := to_int x % 256

/-- The C library `roundf`: the nearest integer, halfway cases away from zero. -/
def roundf : float α → float α
  | fin a => fin (((if 0 ≤ a then ⌊a + 1 / 2⌋ else ⌈a - 1 / 2⌉ : ℤ) : α))
  | x => x

end float

/-! ## `color_base.h` -/

/-- The colour representations named by the code (`utils/color_type.h`); `UNDEFINED` is the
tag of an object of the base class. -/
inductive color_type where
  | RGB_TRUE | RGB_DEEP | GREY_TRUE | GREY_DEEP | CMYK | HSV | HSL | XYZ | LAB | UNDEFINED
deriving DecidableEq

/-- The C++ class of an object, which `dynamic_cast` consults. -/
inductive color_class where
  | color_base | rgb_truecolor | rgb_deepcolor | grey_truecolor | grey_deepcolor
  | cmyk | hsv | hsl | xyz | lab
deriving DecidableEq

/-- The ways a call fails: the two exceptions the code throws, and the use of a null pointer
(undefined behaviour in C++, no exception). -/
inductive exception where
  | out_of_range
  | invalid_argument
  | null_pointer
deriving DecidableEq

/-- The data members of `color_base`, and the class of the object. The working space is a
pointer that this code never follows; it is kept as an address, `none` for the null pointer.
The members `m_a_max = 1` and `m_a_min = 0` are never assigned and are the constants
`color_base.m_a_max` and `color_base.m_a_min`. -/
structure color_base (α : Type) where
  cls : color_class
  m_component_vector : List (float α)
  m_rgb_color_space : Option ℕ
  m_alpha : float α
  m_max : float α
  m_min : float α
  m_type : color_type
deriving DecidableEq

namespace color_base

variable {α : Type} [LinearOrderedField α] [FloorRing α]

/-- Maximum value (inclusive) alpha can have. -/
def m_a_max : float α := .fin 1

/-- Minimum value (inclusive) alpha can have. -/
def m_a_min : float α := .fin 0

/-- The constructor `color_base(alpha, color_space, component_count, component_max,
component_min)`: alpha is stored as given and every component starts as `-1`. -/
def ctor (alpha : float α) (color_space : Option ℕ) (component_count : ℕ)
    (component_max component_min : float α) : color_base α :=
  { cls := .color_base
    m_component_vector := List.replicate component_count (.fin (-1))
    m_rgb_color_space := color_space
    m_alpha := alpha
    m_max := component_max
    m_min := component_min
    m_type := .UNDEFINED }

/-- The method `clamp(in_value, max, min)`: `fmaxf(fminf(in_value, max), min)`. -/
def clamp (in_value max min : float α) : float α :=
  float.fmaxf (float.fminf in_value max) min

/-- The method `get_color_type()`. -/
def get_color_type (self : color_base α) : color_type := self.m_type

/-- The method `get_component_vector()`. -/
def get_component_vector (self : color_base α) : List (float α) := self.m_component_vector

/-- The unchecked read `m_component_vector[i]`. Reading past the end is undefined in C++; the
model reads NaN there. -/
def at_index (self : color_base α) (i : ℕ) : float α := self.m_component_vector.getD i .nan

/-- The method `get_component(index)`. -/
def get_component (self : color_base α) (index : ℤ) : Except exception (float α) :=
  if index < 0 ∨ index ≥ (self.m_component_vector.length : ℤ) then .error .out_of_range
  else .ok (self.at_index index.toNat)

/-- The method `set_component(new_value, index)`: clamps with the bounds of the object. -/
def set_component (self : color_base α) (new_value : float α) (index : ℤ) :
    Except exception (color_base α) :=
  if index < 0 ∨ index ≥ (self.m_component_vector.length : ℤ) then .error .out_of_range
  else .ok { self with
    m_component_vector :=
      self.m_component_vector.set index.toNat (clamp new_value self.m_max self.m_min) }

/-- The method `set_component(new_value, index, max, min)`: clamps with the given bounds. -/
def set_component4 (self : color_base α) (new_value : float α) (index : ℤ)
    (max min : float α) : Except exception (color_base α) :=
  if index < 0 ∨ index ≥ (self.m_component_vector.length : ℤ) then .error .out_of_range
  else .ok { self with
    m_component_vector := self.m_component_vector.set index.toNat (clamp new_value max min) }

/-- The method `get_component_max()`. -/
def get_component_max (self : color_base α) : float α := self.m_max

/-- The method `get_component_min()`. -/
def get_component_min (self : color_base α) : float α := self.m_min

/-- The method `get_rgb_color_space()`. -/
def get_rgb_color_space (self : color_base α) : Option ℕ := self.m_rgb_color_space

/-- The getter `alpha()`. -/
def alpha (self : color_base α) : float α := self.m_alpha

/-- The setter `alpha(new_alpha)`: clamps into `[m_a_min, m_a_max]`. -/
def alpha_set (self : color_base α) (new_alpha : float α) : color_base α :=
  { self with m_alpha := clamp new_alpha m_a_max m_a_min }

/-- The loop of `operator==`: false at the first index whose components differ under the
C comparison `!=`, true when the loop runs to the end. -/
def components_equal : List (float α) → List (float α) → Bool
  | a :: l, b :: r => if float.ne a b then false else components_equal l r
  | _, _ => true

/-- The operator `lhs == rhs`. -/
def op_eq (lhs rhs : color_base α) : Bool :=
  let precondition : Bool :=
    decide (lhs.get_color_type = rhs.get_color_type)
      && decide (lhs.m_component_vector.length = rhs.m_component_vector.length)
  if !precondition then false
  else components_equal lhs.m_component_vector rhs.m_component_vector

/-- The operator `lhs != rhs`. -/
def op_ne (lhs rhs : color_base α) : Bool := !(op_eq lhs rhs)

/-- The operator `self + rhs`; the result is an object of the base class. -/
def op_add (self rhs : color_base α) : Except exception (color_base α) :=
  let result := ctor self.alpha self.get_rgb_color_space self.m_component_vector.length
    self.get_component_max self.get_component_min
  if self.get_color_type = rhs.get_color_type
      ∧ self.m_component_vector.length = rhs.m_component_vector.length then
    .ok { result with
      m_type := self.m_type
      m_component_vector :=
        List.zipWith (fun a b => clamp (a + b) self.m_max self.m_min)
          self.m_component_vector rhs.m_component_vector }
  else .error .invalid_argument

/-- The method `alpha_multiply()`. -/
def alpha_multiply (self : color_base α) : color_base α :=
  { self with m_component_vector := self.m_component_vector.map (fun c => c * self.m_alpha) }

/-- The method `alpha_divide()`. -/
def alpha_divide (self : color_base α) : color_base α :=
  if float.eq self.m_alpha (.fin 0) then self
  else { self with m_component_vector := self.m_component_vector.map (fun c => c / self.m_alpha) }

end color_base

/-! ## `cmyk.cpp` -/

namespace cmyk

variable {α : Type} [LinearOrderedField α] [FloorRing α]

/-- The getter `cyan()`. -/
def cyan (self : color_base α) : float α := self.at_index 0

/-- The setter `cyan(new_cyan)`. -/
def cyan_set (self : color_base α) (new_cyan : float α) : Except exception (color_base α) :=
  self.set_component new_cyan 0

/-- The getter `magenta()`. -/
def magenta (self : color_base α) : float α := self.at_index 1

/-- The setter `magenta(new_magenta)`. -/
def magenta_set (self : color_base α) (new_magenta : float α) :
    Except exception (color_base α) :=
  self.set_component new_magenta 1

/-- The getter `yellow()`. -/
def yellow (self : color_base α) : float α := self.at_index 2

/-- The setter `yellow(new_yellow)`. -/
def yellow_set (self : color_base α) (new_yellow : float α) :
    Except exception (color_base α) :=
  self.set_component new_yellow 2

/-- The getter `black()`. -/
def black (self : color_base α) : float α := self.at_index 3

/-- The setter `black(new_black)`. -/
def black_set (self : color_base α) (new_black : float α) : Except exception (color_base α) :=
  self.set_component new_black 3

/-- The constructor `cmyk(cyan, magenta, yellow, black, alpha, color_space)`. -/
def ctor (cyan magenta yellow black alpha : float α) (color_space : Option ℕ) :
    Except exception (color_base α) := do
  let self : color_base α :=
    { color_base.ctor alpha color_space 4 (.fin 1) (.fin 0) with
      cls := .cmyk, m_type := .CMYK }
  let self ← cyan_set self cyan
  let self ← magenta_set self magenta
  let self ← yellow_set self yellow
  let self ← black_set self black
  return self

/-- The copy constructor `cmyk(const cmyk& other)`. -/
def copy (other : color_base α) : color_base α :=
  let self : color_base α :=
    { color_base.ctor other.alpha other.get_rgb_color_space 4 other.get_component_max
        other.get_component_min with cls := .cmyk }
  let self := { self with m_type := other.get_color_type }
  let self := { self with m_component_vector := other.get_component_vector }
  self.alpha_set other.alpha

/-- The constructor `cmyk(const color_base& other)`. -/
def of_base (other : color_base α) : Except exception (color_base α) :=
  let self : color_base α :=
    { color_base.ctor other.alpha other.get_rgb_color_space 4 other.get_component_max
        other.get_component_min with cls := .cmyk }
  if other.get_color_type = .CMYK ∧ other.get_component_vector.length = 4 then
    .ok { self with m_type := .CMYK, m_component_vector := other.get_component_vector }
  else .error .invalid_argument

/-- The assignment `operator=(const cmyk& other)`; `same_object` tells whether `other` is
the object assigned to. -/
def assign (self other : color_base α) (same_object : Bool) : color_base α :=
  if same_object then self
  else { self with
    m_type := other.get_color_type
    m_component_vector := other.get_component_vector
    m_max := other.get_component_max
    m_min := other.get_component_min }

end cmyk

/-! ## The colour classes whose `.cpp` files are not among the sources

`color_converter.cpp` constructs and reads objects of eight more classes. Their constructors
and accessors follow the pattern of `cmyk.cpp` (base constructor with the component count and
the bounds, the tag, then one clamping setter per channel; a getter reads its slot), with the
legal ranges the specification gives for each representation. -/

namespace rgb_truecolor

variable {α : Type} [LinearOrderedField α] [FloorRing α]

/-- The getter `red()`. -/
def red (self : color_base α) : float α := self.at_index 0

/-- The getter `green()`. -/
def green (self : color_base α) : float α := self.at_index 1

/-- The getter `blue()`. -/
def blue (self : color_base α) : float α := self.at_index 2

/-- Modelled from the spec: the override `rgb_truecolor::alpha()`, which the converter
divides by 255; the 8-bit classes hold alpha on the 0-255 scale. -/
def alpha (self : color_base α) : float α := self.m_alpha

/-- Modelled from the spec: the constructor `rgb_truecolor(r, g, b, a, color_space)` of the
8-bit RGB representation, 0-255 per channel. -/
def ctor (r g b a : float α) (color_space : Option ℕ) : Except exception (color_base α) := do
  let self : color_base α :=
    { color_base.ctor a color_space 3 (.fin 255) (.fin 0) with
      cls := .rgb_truecolor, m_type := .RGB_TRUE }
  let self ← self.set_component r 0
  let self ← self.set_component g 1
  let self ← self.set_component b 2
  return self

/-- Modelled from the spec: the constructor `rgb_truecolor(value, alpha, color_space)`, the
same value on the three channels. -/
def ctor_uniform (value a : float α) (color_space : Option ℕ) :
    Except exception (color_base α) :=
  ctor value value value a color_space

end rgb_truecolor

namespace rgb_deepcolor

variable {α : Type} [LinearOrderedField α] [FloorRing α]

/-- The getter `red()`. -/
def red (self : color_base α) : float α := self.at_index 0

/-- The setter `red(new_red)`. -/
def red_set (self : color_base α) (new_red : float α) : Except exception (color_base α) :=
  self.set_component new_red 0

/-- The getter `green()`. -/
def green (self : color_base α) : float α := self.at_index 1

/-- The setter `green(new_green)`. -/
def green_set (self : color_base α) (new_green : float α) : Except exception (color_base α) :=
  self.set_component new_green 1

/-- The getter `blue()`. -/
def blue (self : color_base α) : float α := self.at_index 2

/-- The setter `blue(new_blue)`. -/
def blue_set (self : color_base α) (new_blue : float α) : Except exception (color_base α) :=
  self.set_component new_blue 2

/-- Modelled from the spec: the constructor `rgb_deepcolor(r, g, b, a, color_space)` of the
normalized RGB representation, 0-1 per channel. -/
def ctor (r g b a : float α) (color_space : Option ℕ) : Except exception (color_base α) := do
  let self : color_base α :=
    { color_base.ctor a color_space 3 (.fin 1) (.fin 0) with
      cls := .rgb_deepcolor, m_type := .RGB_DEEP }
  let self ← red_set self r
  let self ← green_set self g
  let self ← blue_set self b
  return self

/-- Modelled from the spec: the constructor `rgb_deepcolor(value, alpha, color_space)`, the
same value on the three channels. -/
def ctor_uniform (value a : float α) (color_space : Option ℕ) :
    Except exception (color_base α) :=
  ctor value value value a color_space

end rgb_deepcolor

namespace grey_truecolor

variable {α : Type} [LinearOrderedField α] [FloorRing α]

/-- The getter `grey()`. -/
def grey (self : color_base α) : float α := self.at_index 0

/-- Modelled from the spec: the override `grey_truecolor::alpha()`, which the converter
divides by 255; the 8-bit classes hold alpha on the 0-255 scale. -/
def alpha (self : color_base α) : float α := self.m_alpha

/-- Modelled from the spec: the constructor `grey_truecolor(value, alpha, color_space)` of the
8-bit grey representation, one channel of 0-255. -/
def ctor (value a : float α) (color_space : Option ℕ) : Except exception (color_base α) := do
  let self : color_base α :=
    { color_base.ctor a color_space 1 (.fin 255) (.fin 0) with
      cls := .grey_truecolor, m_type := .GREY_TRUE }
  let self ← self.set_component value 0
  return self

end grey_truecolor

namespace grey_deepcolor

variable {α : Type} [LinearOrderedField α] [FloorRing α]

/-- The getter `grey()`. -/
def grey (self : color_base α) : float α := self.at_index 0

/-- Modelled from the spec: the constructor `grey_deepcolor(value, alpha, color_space)` of the
normalized grey representation, one channel of 0-1. -/
def ctor (value a : float α) (color_space : Option ℕ) : Except exception (color_base α) := do
  let self : color_base α :=
    { color_base.ctor a color_space 1 (.fin 1) (.fin 0) with
      cls := .grey_deepcolor, m_type := .GREY_DEEP }
  let self ← self.set_component value 0
  return self

end grey_deepcolor

namespace hsv

variable {α : Type} [LinearOrderedField α] [FloorRing α]

/-- The getter `hue()`. -/
def hue (self : color_base α) : float α := self.at_index 0

/-- The getter `saturation()`. -/
def saturation (self : color_base α) : float α := self.at_index 1

/-- The getter `value()`. -/
def value (self : color_base α) : float α := self.at_index 2

/-- Modelled from the spec: the constructor `hsv(hue, saturation, value, alpha, color_space)`:
hue is clamped into 0-360, saturation and value into 0-1. -/
def ctor (h s v a : float α) (color_space : Option ℕ) : Except exception (color_base α) := do
  let self : color_base α :=
    { color_base.ctor a color_space 3 (.fin 1) (.fin 0) with cls := .hsv, m_type := .HSV }
  let self ← self.set_component4 h 0 (.fin 360) (.fin 0)
  let self ← self.set_component s 1
  let self ← self.set_component v 2
  return self

end hsv

namespace hsl

variable {α : Type} [LinearOrderedField α] [FloorRing α]

/-- The getter `hue()`. -/
def hue (self : color_base α) : float α := self.at_index 0

/-- The getter `saturation()`. -/
def saturation (self : color_base α) : float α := self.at_index 1

/-- The getter `lightness()`. -/
def lightness (self : color_base α) : float α := self.at_index 2

/-- Modelled from the spec: the constructor `hsl(hue, saturation, lightness, alpha,
color_space)`: hue is clamped into 0-360, saturation and lightness into 0-1. -/
def ctor (h s l a : float α) (color_space : Option ℕ) : Except exception (color_base α) := do
  let self : color_base α :=
    { color_base.ctor a color_space 3 (.fin 1) (.fin 0) with cls := .hsl, m_type := .HSL }
  let self ← self.set_component4 h 0 (.fin 360) (.fin 0)
  let self ← self.set_component s 1
  let self ← self.set_component l 2
  return self

end hsl

namespace xyz

variable {α : Type} [LinearOrderedField α] [FloorRing α]

/-- The getter `x()`. -/
def x (self : color_base α) : float α := self.at_index 0

/-- The getter `y()`. -/
def y (self : color_base α) : float α := self.at_index 1

/-- The getter `z()`. -/
def z (self : color_base α) : float α := self.at_index 2

/-- Modelled from the spec: the constructor `xyz(x, y, z, alpha, color_space)`; the
tristimulus values are unbounded, so the clamping bounds are the two infinities. -/
def ctor (x y z a : float α) (color_space : Option ℕ) : Except exception (color_base α) := do
  let self : color_base α :=
    { color_base.ctor a color_space 3 .pinf .ninf with cls := .xyz, m_type := .XYZ }
  let self ← self.set_component x 0
  let self ← self.set_component y 1
  let self ← self.set_component z 2
  return self

end xyz

namespace lab

variable {α : Type} [LinearOrderedField α] [FloorRing α]

/-- The getter `luminance()`. -/
def luminance (self : color_base α) : float α := self.at_index 0

/-- The getter `a()`. -/
def a (self : color_base α) : float α := self.at_index 1

/-- The getter `b()`. -/
def b (self : color_base α) : float α := self.at_index 2

/-- Modelled from the spec: the constructor `lab(luminance, a, b, alpha, color_space)`: L is
clamped into 0-100, a and b into -128 to 128. -/
def ctor (l a b alpha : float α) (color_space : Option ℕ) :
    Except exception (color_base α) := do
  let self : color_base α :=
    { color_base.ctor alpha color_space 3 (.fin 128) (.fin (-128)) with
      cls := .lab, m_type := .LAB }
  let self ← self.set_component4 l 0 (.fin 100) (.fin 0)
  let self ← self.set_component a 1
  let self ← self.set_component b 2
  return self

end lab

/-! ## `color_converter.cpp` -/

/-- The struct `reference_white`: the tristimulus values of an illuminant. -/
structure reference_white (α : Type) where
  x : float α
  y : float α
  z : float α
deriving DecidableEq

/-- What the converter takes from outside the sources: the C library function `powf`, and the
default arguments `alpha` and `color_space` that the class headers declare for the
constructors (the converter omits both arguments in most calls). -/
structure env (α : Type) where
  powf : float α → float α → float α
  default_alpha : float α
  default_color_space : Option ℕ

namespace reference_white_presets

variable {α : Type} [LinearOrderedField α] [FloorRing α]

/-- The preset `D50_2Degree`. -/
def D50_2Degree : reference_white α := ⟨.fin 96.42, .fin 100, .fin 82.51⟩

/-- The preset `D55_2Degree`. -/
def D55_2Degree : reference_white α := ⟨.fin 95.68, .fin 100, .fin 92.14⟩

/-- The preset `D65_2Degree`. -/
def D65_2Degree : reference_white α := ⟨.fin 95.04, .fin 100, .fin 108.88⟩

/-- The preset `D75_2Degree`. -/
def D75_2Degree : reference_white α := ⟨.fin 94.97, .fin 100, .fin 122.64⟩

/-- The preset `A_2Degree`. -/
def A_2Degree : reference_white α := ⟨.fin 109.85, .fin 100, .fin 35.58⟩

/-- The preset `B_2Degree`. -/
def B_2Degree : reference_white α := ⟨.fin 99.09, .fin 100, .fin 85.31⟩

/-- The preset `C_2Degree`. -/
def C_2Degree : reference_white α := ⟨.fin 98.07, .fin 100, .fin 118.23⟩

/-- The preset `E_2Degree`. -/
def E_2Degree : reference_white α := ⟨.fin 100, .fin 100, .fin 100⟩

/-- The preset `F1_2Degree`. -/
def F1_2Degree : reference_white α := ⟨.fin 92.83, .fin 100, .fin 103.66⟩

/-- The preset `F2_2Degree`. -/
def F2_2Degree : reference_white α := ⟨.fin 99.18, .fin 100, .fin 67.39⟩

/-- The preset `F3_2Degree`. -/
def F3_2Degree : reference_white α := ⟨.fin 103.75, .fin 100, .fin 49.86⟩

/-- The preset `F4_2Degree`. -/
def F4_2Degree : reference_white α := ⟨.fin 109.14, .fin 100, .fin 38.81⟩

/-- The preset `F5_2Degree`. -/
def F5_2Degree : reference_white α := ⟨.fin 90.87, .fin 100, .fin 98.72⟩

/-- The preset `F6_2Degree`. -/
def F6_2Degree : reference_white α := ⟨.fin 97.30, .fin 100, .fin 60.19⟩

/-- The preset `F7_2Degree`. -/
def F7_2Degree : reference_white α := ⟨.fin 95.04, .fin 100, .fin 108.75⟩

/-- The preset `F8_2Degree`. -/
def F8_2Degree : reference_white α := ⟨.fin 96.41, .fin 100, .fin 82.33⟩

/-- The preset `F9_2Degree`. -/
def F9_2Degree : reference_white α := ⟨.fin 100.36, .fin 100, .fin 67.86⟩

/-- The preset `F10_2Degree`. -/
def F10_2Degree : reference_white α := ⟨.fin 96.17, .fin 100, .fin 81.71⟩

/-- The preset `F11_2Degree`. -/
def F11_2Degree : reference_white α := ⟨.fin 100.96, .fin 100, .fin 64.37⟩

/-- The preset `F12_2Degree`. -/
def F12_2Degree : reference_white α := ⟨.fin 108.04, .fin 100, .fin 39.22⟩

/-- The preset `D50_10Degree`. -/
def D50_10Degree : reference_white α := ⟨.fin 96.72, .fin 100, .fin 81.42⟩

/-- The preset `D55_10Degree`. -/
def D55_10Degree : reference_white α := ⟨.fin 95.79, .fin 100, .fin 90.92⟩

/-- The preset `D65_10Degree`. -/
def D65_10Degree : reference_white α := ⟨.fin 94.81, .fin 100, .fin 107.30⟩

/-- The preset `D75_10Degree`. -/
def D75_10Degree : reference_white α := ⟨.fin 94.41, .fin 100, .fin 120.64⟩

/-- The preset `A_10Degree`. -/
def A_10Degree : reference_white α := ⟨.fin 111.14, .fin 100, .fin 35.20⟩

/-- The preset `B_10Degree`. -/
def B_10Degree : reference_white α := ⟨.fin 99.17, .fin 100, .fin 84.349⟩

/-- The preset `C_10Degree`. -/
def C_10Degree : reference_white α := ⟨.fin 97.28, .fin 100, .fin 116.14⟩

/-- The preset `E_10Degree`. -/
def E_10Degree : reference_white α := ⟨.fin 100, .fin 100, .fin 100⟩

/-- The preset `F1_10Degree`. -/
def F1_10Degree : reference_white α := ⟨.fin 94.79, .fin 100, .fin 103.19⟩

/-- The preset `F2_10Degree`. -/
def F2_10Degree : reference_white α := ⟨.fin 103.28, .fin 100, .fin 69.02⟩

/-- The preset `F3_10Degree`. -/
def F3_10Degree : reference_white α := ⟨.fin 108.96, .fin 100, .fin 51.96⟩

/-- The preset `F4_10Degree`. -/
def F4_10Degree : reference_white α := ⟨.fin 114.96, .fin 100, .fin 40.96⟩

/-- The preset `F5_10Degree`. -/
def F5_10Degree : reference_white α := ⟨.fin 93.36, .fin 100, .fin 98.63⟩

/-- The preset `F6_10Degree`. -/
def F6_10Degree : reference_white α := ⟨.fin 102.14, .fin 100, .fin 62.07⟩

/-- The preset `F7_10Degree`. -/
def F7_10Degree : reference_white α := ⟨.fin 95.79, .fin 100, .fin 107.68⟩

/-- The preset `F8_10Degree`. -/
def F8_10Degree : reference_white α := ⟨.fin 97.11, .fin 100, .fin 81.13⟩

/-- The preset `F9_10Degree`. -/
def F9_10Degree : reference_white α := ⟨.fin 102.11, .fin 100, .fin 67.82⟩

/-- The preset `F10_10Degree`. -/
def F10_10Degree : reference_white α := ⟨.fin 99.00, .fin 100, .fin 83.13⟩

/-- The preset `F11_10Degree`. -/
def F11_10Degree : reference_white α := ⟨.fin 103.86, .fin 100, .fin 65.62⟩

/-- The preset `F12_10Degree`. -/
def F12_10Degree : reference_white α := ⟨.fin 111.42, .fin 100, .fin 40.35⟩

end reference_white_presets

namespace color_converter

variable {α : Type} [LinearOrderedField α] [FloorRing α]

open float

/-- Modelled from the spec: the default value of the parameter `reference`, which
`color_converter.h` declares: the preset D65, 2 degrees. -/
def default_reference : reference_white α := reference_white_presets.D65_2Degree

/-- The macro `N_ROOT(x, n)`: `powf(x, 1.f / n)`. -/
def N_ROOT (e : env α) (x n : float α) : float α := e.powf x (fin 1 / n)

/-- The function `rgb_true_to_rgb_deep`. -/
def rgb_true_to_rgb_deep (e : env α) (color : color_base α) :
    Except exception (color_base α) :=
  rgb_deepcolor.ctor (rgb_truecolor.red color / fin 255) (rgb_truecolor.green color / fin 255)
    (rgb_truecolor.blue color / fin 255) (rgb_truecolor.alpha color / fin 255)
    e.default_color_space

/-- The function `rgb_true_to_grey_true`; the divisor `3` is an `int` converted to `float`. -/
def rgb_true_to_grey_true (e : env α) (color : color_base α) :
    Except exception (color_base α) :=
  let avg := (rgb_truecolor.red color + rgb_truecolor.green color + rgb_truecolor.blue color)
    / of_int 3
  grey_truecolor.ctor avg (rgb_truecolor.alpha color) e.default_color_space

/-- The function `rgb_true_to_grey_deep`. -/
def rgb_true_to_grey_deep (e : env α) (color : color_base α) :
    Except exception (color_base α) := do
  let grey_true ← rgb_true_to_grey_true e color
  grey_deepcolor.ctor (grey_truecolor.grey grey_true / fin 255)
    (grey_truecolor.alpha grey_true / fin 255) e.default_color_space

/-- The function `rgb_deep_to_rgb_true`. -/
def rgb_deep_to_rgb_true (e : env α) (color : color_base α) :
    Except exception (color_base α) :=
  rgb_truecolor.ctor
    (of_int (to_uchar (roundf (rgb_deepcolor.red color * of_int 255))))
    (of_int (to_uchar (roundf (rgb_deepcolor.green color * of_int 255))))
    (of_int (to_uchar (roundf (rgb_deepcolor.blue color * of_int 255))))
    (of_int (to_uchar (roundf (color.alpha * of_int 255))))
    e.default_color_space

/-- The function `rgb_deep_to_grey_true`. -/
def rgb_deep_to_grey_true (e : env α) (color : color_base α) :
    Except exception (color_base α) :=
  rgb_deep_to_rgb_true e color >>= rgb_true_to_grey_true e

/-- The function `rgb_deep_to_grey_deep`. -/
def rgb_deep_to_grey_deep (e : env α) (color : color_base α) :
    Except exception (color_base α) :=
  let avg := (rgb_deepcolor.red color + rgb_deepcolor.green color + rgb_deepcolor.blue color)
    / fin 3
  grey_deepcolor.ctor avg color.alpha e.default_color_space

/-- The function `rgb_deep_to_cmyk`. -/
def rgb_deep_to_cmyk (e : env α) (color : color_base α) : Except exception (color_base α) :=
  let k := of_int 1
    - fmaxf (fmaxf (rgb_deepcolor.red color) (rgb_deepcolor.green color))
        (rgb_deepcolor.blue color)
  let c := (of_int 1 - rgb_deepcolor.red color - k) / (fin 1 - k)
  let m := (of_int 1 - rgb_deepcolor.green color - k) / (fin 1 - k)
  let y := (of_int 1 - rgb_deepcolor.blue color - k) / (fin 1 - k)
  cmyk.ctor c m y k e.default_alpha e.default_color_space

/-- The function `rgb_deep_to_hsv`; `hue` is an `int`, and `%` is the C remainder. -/
def rgb_deep_to_hsv (e : env α) (color : color_base α) : Except exception (color_base α) :=
  let min := fminf (fminf (rgb_deepcolor.red color) (rgb_deepcolor.green color))
    (rgb_deepcolor.blue color)
  let max := fmaxf (fmaxf (rgb_deepcolor.red color) (rgb_deepcolor.green color))
    (rgb_deepcolor.blue color)
  if float.eq max min then
    hsv.ctor (fin 0) (fin 0) min e.default_alpha e.default_color_space
  else
    let delta := max - min
    let hue : ℤ :=
      if float.eq max (rgb_deepcolor.red color) then
        60 * ((to_int ((rgb_deepcolor.green color - rgb_deepcolor.blue color) / delta)).tmod 6)
      else if float.eq max (rgb_deepcolor.green color) then
        60 * to_int (((rgb_deepcolor.blue color - rgb_deepcolor.red color) / delta) + of_int 2)
      else
        60 * to_int (((rgb_deepcolor.red color - rgb_deepcolor.green color) / delta) + of_int 4)
    let saturation := delta / max
    let value := max
    hsv.ctor (of_int hue) saturation value e.default_alpha e.default_color_space

/-- The function `rgb_deep_to_linear_srgb_deep`: the sRGB decoding of each channel. -/
def rgb_deep_to_linear_srgb_deep (e : env α) (color : color_base α) :
    Except exception (color_base α) :=
  let step (c : float α) : float α :=
    if float.le c (fin 0.04045) then c / fin 12.92
    else e.powf ((c + fin 0.055) / fin 1.055) (fin 2.4)
  rgb_deepcolor.ctor (step (rgb_deepcolor.red color)) (step (rgb_deepcolor.green color))
    (step (rgb_deepcolor.blue color)) color.alpha e.default_color_space

/-- The function `linear_srgb_deep_to_rgb_deep`: the sRGB encoding of each channel, as the
code writes it. -/
def linear_srgb_deep_to_rgb_deep (e : env α) (color : color_base α) :
    Except exception (color_base α) :=
  let step (c : float α) : float α :=
    if float.le c (fin 0.0031308) then c * fin 12.92
    else N_ROOT e (c * fin 1.055) (fin 2.4) - fin 0.055
  rgb_deepcolor.ctor (step (rgb_deepcolor.red color)) (step (rgb_deepcolor.green color))
    (step (rgb_deepcolor.blue color)) color.alpha e.default_color_space

/-- The function `rgb_deep_to_xyz`. -/
def rgb_deep_to_xyz (e : env α) (color : color_base α) : Except exception (color_base α) := do
  let color ← rgb_deep_to_linear_srgb_deep e color
  let x := rgb_deepcolor.red color * fin 0.4124564 + rgb_deepcolor.green color * fin 0.3575761
    + rgb_deepcolor.blue color * fin 0.1804375
  let y := rgb_deepcolor.red color * fin 0.2126729 + rgb_deepcolor.green color * fin 0.7151522
    + rgb_deepcolor.blue color * fin 0.0721750
  let z := rgb_deepcolor.red color * fin 0.0193339 + rgb_deepcolor.green color * fin 0.1191920
    + rgb_deepcolor.blue color * fin 0.9503041
  xyz.ctor (x * fin 100) (y * fin 100) (z * fin 100) e.default_alpha e.default_color_space

/-- The function `xyz_to_lab_helper`. -/
def xyz_to_lab_helper (e : env α) (color_component : float α) : float α :=
  if float.gt color_component (fin 216 / fin 24389) then N_ROOT e color_component (fin 3)
  else ((fin 24389 / fin 27) * color_component + fin 16) / fin 116

/-- The function `xyz_to_lab`. -/
def xyz_to_lab (e : env α) (color : color_base α) (reference : reference_white α) :
    Except exception (color_base α) :=
  let l := fin 116 * xyz_to_lab_helper e (xyz.y color / reference.y) - fin 16
  let a := fin 500 * (xyz_to_lab_helper e (xyz.x color / reference.x)
    - xyz_to_lab_helper e (xyz.y color / reference.y))
  let b := fin 200 * (xyz_to_lab_helper e (xyz.y color / reference.y)
    - xyz_to_lab_helper e (xyz.z color / reference.z))
  lab.ctor l a b e.default_alpha e.default_color_space

/-- The function `hsv_to_hsl`. -/
def hsv_to_hsl (e : env α) (color : color_base α) : Except exception (color_base α) :=
  let l := (fin 2 - hsv.saturation color) * hsv.value color
  let s := hsv.saturation color * hsv.value color
  let s := s / (if float.le l (fin 1) then l else fin 2 - l)
  let l := l / fin 2
  hsl.ctor (hsv.hue color) s l e.default_alpha e.default_color_space

/-- The function `rgb_deep_to_hsl`. -/
def rgb_deep_to_hsl (e : env α) (color : color_base α) : Except exception (color_base α) :=
  rgb_deep_to_hsv e color >>= hsv_to_hsl e

/-- The function `rgb_deep_to_lab`. -/
def rgb_deep_to_lab (e : env α) (color : color_base α) (reference : reference_white α) :
    Except exception (color_base α) := do
  let c ← rgb_deep_to_xyz e color
  xyz_to_lab e c reference

/-- The function `rgb_true_to_cmyk`. -/
def rgb_true_to_cmyk (e : env α) (color : color_base α) : Except exception (color_base α) :=
  rgb_true_to_rgb_deep e color >>= rgb_deep_to_cmyk e

/-- The function `rgb_true_to_hsv`. -/
def rgb_true_to_hsv (e : env α) (color : color_base α) : Except exception (color_base α) :=
  rgb_true_to_rgb_deep e color >>= rgb_deep_to_hsv e

/-- The function `rgb_true_to_hsl`. -/
def rgb_true_to_hsl (e : env α) (color : color_base α) : Except exception (color_base α) :=
  rgb_true_to_rgb_deep e color >>= rgb_deep_to_hsl e

/-- The function `rgb_true_to_xyz`. -/
def rgb_true_to_xyz (e : env α) (color : color_base α) : Except exception (color_base α) :=
  rgb_true_to_rgb_deep e color >>= rgb_deep_to_xyz e

/-- The function `rgb_true_to_lab`. -/
def rgb_true_to_lab (e : env α) (color : color_base α) (reference : reference_white α) :
    Except exception (color_base α) := do
  let c ← rgb_true_to_rgb_deep e color
  rgb_deep_to_lab e c reference

/-- The function `grey_true_to_rgb_true`. -/
def grey_true_to_rgb_true (e : env α) (color : color_base α) :
    Except exception (color_base α) :=
  rgb_truecolor.ctor_uniform (grey_truecolor.grey color) (grey_truecolor.alpha color)
    e.default_color_space

/-- The function `grey_true_to_rgb_deep`. -/
def grey_true_to_rgb_deep (e : env α) (color : color_base α) :
    Except exception (color_base α) :=
  rgb_deepcolor.ctor_uniform (grey_truecolor.grey color / fin 255)
    (grey_truecolor.alpha color / fin 255) e.default_color_space

/-- The function `grey_true_to_grey_deep`. -/
def grey_true_to_grey_deep (e : env α) (color : color_base α) :
    Except exception (color_base α) :=
  grey_deepcolor.ctor (grey_truecolor.grey color / fin 255)
    (grey_truecolor.alpha color / fin 255) e.default_color_space

/-- The function `grey_true_to_cmyk`. -/
def grey_true_to_cmyk (e : env α) (color : color_base α) : Except exception (color_base α) :=
  grey_true_to_rgb_deep e color >>= rgb_deep_to_cmyk e

/-- The function `grey_true_to_hsv`. -/
def grey_true_to_hsv (e : env α) (color : color_base α) : Except exception (color_base α) :=
  grey_true_to_rgb_deep e color >>= rgb_deep_to_hsv e

/-- The function `grey_true_to_hsl`. -/
def grey_true_to_hsl (e : env α) (color : color_base α) : Except exception (color_base α) :=
  grey_true_to_rgb_deep e color >>= rgb_deep_to_hsl e

/-- The function `grey_true_to_xyz`. -/
def grey_true_to_xyz (e : env α) (color : color_base α) : Except exception (color_base α) :=
  grey_true_to_rgb_deep e color >>= rgb_deep_to_xyz e

/-- The function `grey_true_to_lab`. -/
def grey_true_to_lab (e : env α) (color : color_base α) (reference : reference_white α) :
    Except exception (color_base α) := do
  let c ← grey_true_to_rgb_deep e color
  rgb_deep_to_lab e c reference

/-- The function `grey_deep_to_rgb_true`. -/
def grey_deep_to_rgb_true (e : env α) (color : color_base α) :
    Except exception (color_base α) :=
  rgb_truecolor.ctor_uniform
    (of_int (to_uchar (roundf (grey_deepcolor.grey color * of_int 255))))
    (of_int (to_uchar (roundf (color.alpha * of_int 255))))
    e.default_color_space

/-- The function `grey_deep_to_rgb_deep`. -/
def grey_deep_to_rgb_deep (e : env α) (color : color_base α) :
    Except exception (color_base α) :=
  rgb_deepcolor.ctor_uniform (grey_deepcolor.grey color) color.alpha e.default_color_space

/-- The function `grey_deep_to_grey_true`. -/
def grey_deep_to_grey_true (e : env α) (color : color_base α) :
    Except exception (color_base α) :=
  grey_truecolor.ctor
    (of_int (to_uchar (roundf (grey_deepcolor.grey color * of_int 255))))
    (of_int (to_uchar (roundf (color.alpha * of_int 255))))
    e.default_color_space

/-- The function `grey_deep_to_cmyk`. -/
def grey_deep_to_cmyk (e : env α) (color : color_base α) : Except exception (color_base α) :=
  grey_deep_to_rgb_deep e color >>= rgb_deep_to_cmyk e

/-- The function `grey_deep_to_hsv`. -/
def grey_deep_to_hsv (e : env α) (color : color_base α) : Except exception (color_base α) :=
  grey_deep_to_rgb_deep e color >>= rgb_deep_to_hsv e

/-- The function `grey_deep_to_hsl`. -/
def grey_deep_to_hsl (e : env α) (color : color_base α) : Except exception (color_base α) :=
  grey_deep_to_rgb_deep e color >>= rgb_deep_to_hsl e

/-- The function `grey_deep_to_xyz`. -/
def grey_deep_to_xyz (e : env α) (color : color_base α) : Except exception (color_base α) :=
  grey_deep_to_rgb_deep e color >>= rgb_deep_to_xyz e

/-- The function `grey_deep_to_lab`. -/
def grey_deep_to_lab (e : env α) (color : color_base α) (reference : reference_white α) :
    Except exception (color_base α) := do
  let c ← grey_deep_to_rgb_deep e color
  rgb_deep_to_lab e c reference

/-- The function `cmyk_to_rgb_deep`; the literal `1` is an `int` converted to `float`. -/
def cmyk_to_rgb_deep (e : env α) (color : color_base α) : Except exception (color_base α) :=
  let r := (of_int 1 - cmyk.cyan color) * (of_int 1 - cmyk.black color)
  let g := (of_int 1 - cmyk.magenta color) * (of_int 1 - cmyk.black color)
  let b := (of_int 1 - cmyk.yellow color) * (of_int 1 - cmyk.black color)
  rgb_deepcolor.ctor r g b e.default_alpha e.default_color_space

/-- The function `cmyk_to_rgb_true`. -/
def cmyk_to_rgb_true (e : env α) (color : color_base α) : Except exception (color_base α) :=
  cmyk_to_rgb_deep e color >>= rgb_deep_to_rgb_true e

/-- The function `cmyk_to_grey_true`. -/
def cmyk_to_grey_true (e : env α) (color : color_base α) : Except exception (color_base α) :=
  cmyk_to_rgb_deep e color >>= rgb_deep_to_grey_true e

/-- The function `cmyk_to_grey_deep`. -/
def cmyk_to_grey_deep (e : env α) (color : color_base α) : Except exception (color_base α) :=
  cmyk_to_rgb_deep e color >>= rgb_deep_to_grey_deep e

/-- The function `cmyk_to_hsv`. -/
def cmyk_to_hsv (e : env α) (color : color_base α) : Except exception (color_base α) :=
  cmyk_to_rgb_deep e color >>= rgb_deep_to_hsv e

/-- The function `cmyk_to_hsl`. -/
def cmyk_to_hsl (e : env α) (color : color_base α) : Except exception (color_base α) :=
  cmyk_to_rgb_deep e color >>= rgb_deep_to_hsl e

/-- The function `cmyk_to_xyz`. -/
def cmyk_to_xyz (e : env α) (color : color_base α) : Except exception (color_base α) :=
  cmyk_to_rgb_deep e color >>= rgb_deep_to_xyz e

/-- The function `cmyk_to_lab`. -/
def cmyk_to_lab (e : env α) (color : color_base α) (reference : reference_white α) :
    Except exception (color_base α) := do
  let c ← cmyk_to_rgb_deep e color
  rgb_deep_to_lab e c reference

/-- The function `hsv_to_rgb_deep`; `h_temp` is an `int`, `%` is the C remainder and
`std::abs` is taken on an `int`. -/
def hsv_to_rgb_deep (e : env α) (color : color_base α) : Except exception (color_base α) :=
  let chroma := hsv.value color * hsv.saturation color
  let h_temp : ℤ := to_int (hsv.hue color / fin 60)
  let x := chroma * of_int (1 - |h_temp.tmod 2 - 1|)
  let m := hsv.value color - chroma
  let rgb_temp : float α × float α × float α :=
    if h_temp ≥ 0 ∧ h_temp ≤ 1 then (chroma, x, fin 0)
    else if h_temp > 1 ∧ h_temp ≤ 2 then (x, chroma, fin 0)
    else if h_temp > 2 ∧ h_temp ≤ 3 then (fin 0, chroma, x)
    else if h_temp > 3 ∧ h_temp ≤ 4 then (fin 0, x, chroma)
    else if h_temp > 4 ∧ h_temp ≤ 5 then (x, fin 0, chroma)
    else if h_temp > 5 ∧ h_temp ≤ 6 then (chroma, fin 0, x)
    else (fin 0, fin 0, fin 0)
  rgb_deepcolor.ctor (rgb_temp.1 + m) (rgb_temp.2.1 + m) (rgb_temp.2.2 + m) e.default_alpha
    e.default_color_space

/-- The function `hsv_to_rgb_true`. -/
def hsv_to_rgb_true (e : env α) (color : color_base α) : Except exception (color_base α) :=
  hsv_to_rgb_deep e color >>= rgb_deep_to_rgb_true e

/-- The function `hsv_to_grey_true`. -/
def hsv_to_grey_true (e : env α) (color : color_base α) : Except exception (color_base α) :=
  hsv_to_rgb_deep e color >>= rgb_deep_to_grey_true e

/-- The function `hsv_to_grey_deep`. -/
def hsv_to_grey_deep (e : env α) (color : color_base α) : Except exception (color_base α) :=
  hsv_to_rgb_deep e color >>= rgb_deep_to_grey_deep e

/-- The function `hsv_to_cmyk`. -/
def hsv_to_cmyk (e : env α) (color : color_base α) : Except exception (color_base α) :=
  hsv_to_rgb_deep e color >>= rgb_deep_to_cmyk e

/-- The function `hsv_to_xyz`. -/
def hsv_to_xyz (e : env α) (color : color_base α) : Except exception (color_base α) :=
  hsv_to_rgb_deep e color >>= rgb_deep_to_xyz e

/-- The function `hsv_to_lab`. -/
def hsv_to_lab (e : env α) (color : color_base α) (reference : reference_white α) :
    Except exception (color_base α) := do
  let c ← hsv_to_rgb_deep e color
  rgb_deep_to_lab e c reference

/-- The function `hsl_to_rgb_helper`. -/
def hsl_to_rgb_helper (var1 var2 var3 : float α) : float α :=
  let var3 := if float.lt var3 (fin 0) then var3 + fin 1 else var3
  let var3 := if float.gt var3 (fin 1) then var3 - fin 1 else var3
  if float.lt var3 (fin 1 / fin 6) then var2 + (var1 - var2) * fin 6 * var3
  else if float.lt var3 (fin 0.5) then var1
  else if float.lt var3 (fin 2 / fin 3) then
    var2 + ((var1 - var2) * ((fin 2 / fin 3) - var3) * fin 6)
  else var2

/-- The function `hsl_to_rgb_deep`. -/
def hsl_to_rgb_deep (e : env α) (color : color_base α) : Except exception (color_base α) :=
  if float.eq (hsl.lightness color) (fin 0) then
    rgb_deepcolor.ctor_uniform (fin 0) e.default_alpha e.default_color_space
  else
    let temp_h := hsl.hue color / fin 360
    let var1 :=
      if float.lt (hsl.lightness color) (fin 0.5) then
        hsl.lightness color * (fin 1 + hsl.saturation color)
      else
        hsl.lightness color + hsl.saturation color
          - (hsl.lightness color * hsl.saturation color)
    let var2 := fin 2 * hsl.lightness color - var1
    let r := hsl_to_rgb_helper var1 var2 (temp_h + fin 1 / fin 3)
    let g := hsl_to_rgb_helper var1 var2 temp_h
    let b := hsl_to_rgb_helper var1 var2 (temp_h - fin 1 / fin 3)
    rgb_deepcolor.ctor r g b e.default_alpha e.default_color_space

/-- The function `hsl_to_rgb_true`. -/
def hsl_to_rgb_true (e : env α) (color : color_base α) : Except exception (color_base α) :=
  hsl_to_rgb_deep e color >>= rgb_deep_to_rgb_true e

/-- The function `hsl_to_grey_true`. -/
def hsl_to_grey_true (e : env α) (color : color_base α) : Except exception (color_base α) :=
  hsl_to_rgb_deep e color >>= rgb_deep_to_grey_true e

/-- The function `hsl_to_grey_deep`. -/
def hsl_to_grey_deep (e : env α) (color : color_base α) : Except exception (color_base α) :=
  hsl_to_rgb_deep e color >>= rgb_deep_to_grey_deep e

/-- The function `hsl_to_cmyk`. -/
def hsl_to_cmyk (e : env α) (color : color_base α) : Except exception (color_base α) :=
  hsl_to_rgb_deep e color >>= rgb_deep_to_cmyk e

/-- The function `hsl_to_hsv`. In `saturation * (l_temp <= 1.f) ? l_temp : (2.f - l_temp)` the
product is the condition of `?:`: the comparison yields 1 or 0, the product is converted to
`bool`, and a `float` converts to `true` when it differs from zero. -/
def hsl_to_hsv (e : env α) (color : color_base α) : Except exception (color_base α) :=
  let l_temp := hsl.lightness color * fin 2
  let m_sat :=
    if float.ne (hsl.saturation color * of_int (if float.le l_temp (fin 1) then 1 else 0))
        (fin 0) then l_temp
    else fin 2 - l_temp
  let v := (l_temp + m_sat) / fin 2
  let s := (fin 2 * m_sat) / (l_temp + m_sat)
  hsv.ctor (hsl.hue color) s v e.default_alpha e.default_color_space

/-- The function `hsl_to_xyz`. -/
def hsl_to_xyz (e : env α) (color : color_base α) : Except exception (color_base α) :=
  hsl_to_rgb_deep e color >>= rgb_deep_to_xyz e

/-- The function `hsl_to_lab`. -/
def hsl_to_lab (e : env α) (color : color_base α) (reference : reference_white α) :
    Except exception (color_base α) := do
  let c ← hsl_to_rgb_deep e color
  rgb_deep_to_lab e c reference

/-- The function `round_float_to_n_decimals`; the quotient is an `int` over a `float`. -/
def round_float_to_n_decimals (e : env α) (in_float n : float α) : float α :=
  let factor := e.powf (fin 10) n
  of_int (to_int (in_float * factor + fin 0.5)) / factor

/-- The function `clamp_float(in_float, min, max)`. -/
def clamp_float (in_float min max : float α) : float α := fminf (fmaxf in_float min) max

/-- The function `xyz_to_rgb_deep`. -/
def xyz_to_rgb_deep (e : env α) (color : color_base α) : Except exception (color_base α) := do
  let x_temp := xyz.x color / fin 100
  let y_temp := xyz.y color / fin 100
  let z_temp := xyz.z color / fin 100
  let r := x_temp * fin 3.2404542 + y_temp * fin (-1.5371385) + z_temp * fin 0.4985314
  let g := x_temp * fin (-0.9692660) + y_temp * fin 1.8760108 + z_temp * fin 0.0415560
  let b := x_temp * fin 0.0556434 + y_temp * fin (-0.2040259) + z_temp * fin 1.0572252
  let linear ← rgb_deepcolor.ctor r g b e.default_alpha e.default_color_space
  let rgb_deep ← linear_srgb_deep_to_rgb_deep e linear
  let rgb_deep ← rgb_deepcolor.red_set rgb_deep
    (round_float_to_n_decimals e (clamp_float (rgb_deepcolor.red rgb_deep) (fin 0) (fin 1))
      (of_int 1))
  let rgb_deep ← rgb_deepcolor.green_set rgb_deep
    (round_float_to_n_decimals e (clamp_float (rgb_deepcolor.green rgb_deep) (fin 0) (fin 1))
      (of_int 1))
  let rgb_deep ← rgb_deepcolor.blue_set rgb_deep
    (round_float_to_n_decimals e (clamp_float (rgb_deepcolor.blue rgb_deep) (fin 0) (fin 1))
      (of_int 1))
  return rgb_deep

/-- The function `xyz_to_rgb_true`. -/
def xyz_to_rgb_true (e : env α) (color : color_base α) : Except exception (color_base α) :=
  xyz_to_rgb_deep e color >>= rgb_deep_to_rgb_true e

/-- The function `xyz_to_grey_true`. -/
def xyz_to_grey_true (e : env α) (color : color_base α) : Except exception (color_base α) :=
  xyz_to_rgb_deep e color >>= rgb_deep_to_grey_true e

/-- The function `xyz_to_grey_deep`. -/
def xyz_to_grey_deep (e : env α) (color : color_base α) : Except exception (color_base α) :=
  xyz_to_rgb_deep e color >>= rgb_deep_to_grey_deep e

/-- The function `xyz_to_cmyk`. -/
def xyz_to_cmyk (e : env α) (color : color_base α) : Except exception (color_base α) :=
  xyz_to_rgb_deep e color >>= rgb_deep_to_cmyk e

/-- The function `xyz_to_hsv`. -/
def xyz_to_hsv (e : env α) (color : color_base α) : Except exception (color_base α) :=
  xyz_to_rgb_deep e color >>= rgb_deep_to_hsv e

/-- The function `xyz_to_hsl`. -/
def xyz_to_hsl (e : env α) (color : color_base α) : Except exception (color_base α) :=
  xyz_to_rgb_deep e color >>= rgb_deep_to_hsl e

/-- The function `lab_to_xyz_helper(color_component, out_y_component)`. -/
def lab_to_xyz_helper (e : env α) (color_component : float α) (out_y_component : Bool) :
    float α :=
  let epsilon : float α := fin 216 / fin 24389
  let k : float α := fin 24389 / fin 27
  if out_y_component then
    if float.gt color_component (epsilon * k) then
      e.powf ((color_component + fin 16) / fin 116) (fin 3)
    else color_component / k
  else
    let component := e.powf color_component (fin 3)
    if float.gt component epsilon then component
    else (fin 116 * color_component - fin 16) / k

/-- The function `lab_to_xyz`; the helper is called without its second argument for X and Z,
which is then `false`. -/
def lab_to_xyz (e : env α) (color : color_base α) (reference : reference_white α) :
    Except exception (color_base α) :=
  let f_y := (lab.luminance color + fin 16) / fin 116
  let y_temp := lab_to_xyz_helper e (lab.luminance color) true
  let x_temp := lab_to_xyz_helper e ((lab.a color / fin 500) + f_y) false
  let z_temp := lab_to_xyz_helper e (f_y - (lab.b color / fin 200)) false
  xyz.ctor (x_temp * reference.x) (y_temp * reference.y) (z_temp * reference.z)
    e.default_alpha e.default_color_space

/-- The function `lab_to_rgb_true`. -/
def lab_to_rgb_true (e : env α) (color : color_base α) (reference : reference_white α) :
    Except exception (color_base α) :=
  lab_to_xyz e color reference >>= xyz_to_rgb_true e

/-- The function `lab_to_rgb_deep`. -/
def lab_to_rgb_deep (e : env α) (color : color_base α) (reference : reference_white α) :
    Except exception (color_base α) :=
  lab_to_xyz e color reference >>= xyz_to_rgb_deep e

/-- The function `lab_to_grey_true`. -/
def lab_to_grey_true (e : env α) (color : color_base α) (reference : reference_white α) :
    Except exception (color_base α) :=
  lab_to_xyz e color reference >>= xyz_to_grey_true e

/-- The function `lab_to_grey_deep`. -/
def lab_to_grey_deep (e : env α) (color : color_base α) (reference : reference_white α) :
    Except exception (color_base α) :=
  lab_to_xyz e color reference >>= xyz_to_grey_deep e

/-- The function `lab_to_cmyk`. -/
def lab_to_cmyk (e : env α) (color : color_base α) (reference : reference_white α) :
    Except exception (color_base α) :=
  lab_to_xyz e color reference >>= xyz_to_cmyk e

/-- The function `lab_to_hsv`. -/
def lab_to_hsv (e : env α) (color : color_base α) (reference : reference_white α) :
    Except exception (color_base α) :=
  lab_to_xyz e color reference >>= xyz_to_hsv e

/-- The function `lab_to_hsl`. -/
def lab_to_hsl (e : env α) (color : color_base α) (reference : reference_white α) :
    Except exception (color_base α) :=
  lab_to_xyz e color reference >>= xyz_to_hsl e

/-- The expression `dynamic_cast<K*>(in_color)`: the object when its class is `K`, the null
pointer otherwise. -/
def dynamic_cast (K : color_class) (in_color : color_base α) : Option (color_base α) :=
  if in_color.cls = K then some in_color else none

/-- The call `f(p)` of a conversion function on a pointer: the function reads the object
behind `p`, and the result of `new` is never null. -/
def call (f : color_base α → Except exception (color_base α)) (p : Option (color_base α)) :
    Except exception (Option (color_base α)) :=
  match p with
  | none => .error .null_pointer
  | some c => (f c).map some

/-- The function `from_rgb_true`. The parameter `reference` is not used: the
conversions that take a reference white are called without it and run with the default. -/
def from_rgb_true (e : env α) (in_color : Option (color_base α)) (out_type : color_type)
    (_reference : reference_white α) : Except exception (Option (color_base α)) :=
  match out_type with
  | .RGB_TRUE => .ok in_color
  | .RGB_DEEP => call (rgb_true_to_rgb_deep e) in_color
  | .GREY_TRUE => call (rgb_true_to_grey_true e) in_color
  | .GREY_DEEP => call (rgb_true_to_grey_deep e) in_color
  | .CMYK => call (rgb_true_to_cmyk e) in_color
  | .HSV => call (rgb_true_to_hsv e) in_color
  | .HSL => call (rgb_true_to_hsl e) in_color
  | .XYZ => call (rgb_true_to_xyz e) in_color
  | .LAB => call (fun c => rgb_true_to_lab e c default_reference) in_color
  | .UNDEFINED => .ok none

/-- The function `from_rgb_deep`. The parameter `reference` is not used: the
conversions that take a reference white are called without it and run with the default. -/
def from_rgb_deep (e : env α) (in_color : Option (color_base α)) (out_type : color_type)
    (_reference : reference_white α) : Except exception (Option (color_base α)) :=
  match out_type with
  | .RGB_TRUE => call (rgb_deep_to_rgb_true e) in_color
  | .RGB_DEEP => .ok in_color
  | .GREY_TRUE => call (rgb_deep_to_grey_true e) in_color
  | .GREY_DEEP => call (rgb_deep_to_grey_deep e) in_color
  | .CMYK => call (rgb_deep_to_cmyk e) in_color
  | .HSV => call (rgb_deep_to_hsv e) in_color
  | .HSL => call (rgb_deep_to_hsl e) in_color
  | .XYZ => call (rgb_deep_to_xyz e) in_color
  | .LAB => call (fun c => rgb_deep_to_lab e c default_reference) in_color
  | .UNDEFINED => .ok none

/-- The function `from_grey_true`. The parameter `reference` is not used: the
conversions that take a reference white are called without it and run with the default. -/
def from_grey_true (e : env α) (in_color : Option (color_base α)) (out_type : color_type)
    (_reference : reference_white α) : Except exception (Option (color_base α)) :=
  match out_type with
  | .RGB_TRUE => call (grey_true_to_rgb_true e) in_color
  | .RGB_DEEP => call (grey_true_to_rgb_deep e) in_color
  | .GREY_TRUE => .ok in_color
  | .GREY_DEEP => call (grey_true_to_grey_deep e) in_color
  | .CMYK => call (grey_true_to_cmyk e) in_color
  | .HSV => call (grey_true_to_hsv e) in_color
  | .HSL => call (grey_true_to_hsl e) in_color
  | .XYZ => call (grey_true_to_xyz e) in_color
  | .LAB => call (fun c => grey_true_to_lab e c default_reference) in_color
  | .UNDEFINED => .ok none

/-- The function `from_grey_deep`. The parameter `reference` is not used: the
conversions that take a reference white are called without it and run with the default. -/
def from_grey_deep (e : env α) (in_color : Option (color_base α)) (out_type : color_type)
    (_reference : reference_white α) : Except exception (Option (color_base α)) :=
  match out_type with
  | .RGB_TRUE => call (grey_deep_to_rgb_true e) in_color
  | .RGB_DEEP => call (grey_deep_to_rgb_deep e) in_color
  | .GREY_TRUE => call (grey_deep_to_grey_true e) in_color
  | .GREY_DEEP => .ok in_color
  | .CMYK => call (grey_deep_to_cmyk e) in_color
  | .HSV => call (grey_deep_to_hsv e) in_color
  | .HSL => call (grey_deep_to_hsl e) in_color
  | .XYZ => call (grey_deep_to_xyz e) in_color
  | .LAB => call (fun c => grey_deep_to_lab e c default_reference) in_color
  | .UNDEFINED => .ok none

/-- The function `from_cmyk`. The parameter `reference` is not used: the
conversions that take a reference white are called without it and run with the default. -/
def from_cmyk (e : env α) (in_color : Option (color_base α)) (out_type : color_type)
    (_reference : reference_white α) : Except exception (Option (color_base α)) :=
  match out_type with
  | .RGB_TRUE => call (cmyk_to_rgb_true e) in_color
  | .RGB_DEEP => call (cmyk_to_rgb_deep e) in_color
  | .GREY_TRUE => call (cmyk_to_grey_true e) in_color
  | .GREY_DEEP => call (cmyk_to_grey_deep e) in_color
  | .CMYK => .ok in_color
  | .HSV => call (cmyk_to_hsv e) in_color
  | .HSL => call (cmyk_to_hsl e) in_color
  | .XYZ => call (cmyk_to_xyz e) in_color
  | .LAB => call (fun c => cmyk_to_lab e c default_reference) in_color
  | .UNDEFINED => .ok none

/-- The function `from_hsv`. The parameter `reference` is not used: the
conversions that take a reference white are called without it and run with the default. -/
def from_hsv (e : env α) (in_color : Option (color_base α)) (out_type : color_type)
    (_reference : reference_white α) : Except exception (Option (color_base α)) :=
  match out_type with
  | .RGB_TRUE => call (hsv_to_rgb_true e) in_color
  | .RGB_DEEP => call (hsv_to_rgb_deep e) in_color
  | .GREY_TRUE => call (hsv_to_grey_true e) in_color
  | .GREY_DEEP => call (hsv_to_grey_deep e) in_color
  | .CMYK => call (hsv_to_cmyk e) in_color
  | .HSV => .ok in_color
  | .HSL => call (hsv_to_hsl e) in_color
  | .XYZ => call (hsv_to_xyz e) in_color
  | .LAB => call (fun c => hsv_to_lab e c default_reference) in_color
  | .UNDEFINED => .ok none

/-- The function `from_hsl`. The parameter `reference` is not used: the
conversions that take a reference white are called without it and run with the default. -/
def from_hsl (e : env α) (in_color : Option (color_base α)) (out_type : color_type)
    (_reference : reference_white α) : Except exception (Option (color_base α)) :=
  match out_type with
  | .RGB_TRUE => call (hsl_to_rgb_true e) in_color
  | .RGB_DEEP => call (hsl_to_rgb_deep e) in_color
  | .GREY_TRUE => call (hsl_to_grey_true e) in_color
  | .GREY_DEEP => call (hsl_to_grey_deep e) in_color
  | .CMYK => call (hsl_to_cmyk e) in_color
  | .HSV => call (hsl_to_hsv e) in_color
  | .HSL => .ok in_color
  | .XYZ => call (hsl_to_xyz e) in_color
  | .LAB => call (fun c => hsl_to_lab e c default_reference) in_color
  | .UNDEFINED => .ok none

/-- The function `from_xyz`. The parameter `reference` is not used: the
conversions that take a reference white are called without it and run with the default. -/
def from_xyz (e : env α) (in_color : Option (color_base α)) (out_type : color_type)
    (_reference : reference_white α) : Except exception (Option (color_base α)) :=
  match out_type with
  | .RGB_TRUE => call (xyz_to_rgb_true e) in_color
  | .RGB_DEEP => call (xyz_to_rgb_deep e) in_color
  | .GREY_TRUE => call (xyz_to_grey_true e) in_color
  | .GREY_DEEP => call (xyz_to_grey_deep e) in_color
  | .CMYK => call (xyz_to_cmyk e) in_color
  | .HSV => call (xyz_to_hsv e) in_color
  | .HSL => call (xyz_to_hsl e) in_color
  | .XYZ => .ok in_color
  | .LAB => call (fun c => xyz_to_lab e c default_reference) in_color
  | .UNDEFINED => .ok none

/-- The function `from_lab`. The parameter `reference` is not used: the
conversions that take a reference white are called without it and run with the default. -/
def from_lab (e : env α) (in_color : Option (color_base α)) (out_type : color_type)
    (_reference : reference_white α) : Except exception (Option (color_base α)) :=
  match out_type with
  | .RGB_TRUE => call (fun c => lab_to_rgb_true e c default_reference) in_color
  | .RGB_DEEP => call (fun c => lab_to_rgb_deep e c default_reference) in_color
  | .GREY_TRUE => call (fun c => lab_to_grey_true e c default_reference) in_color
  | .GREY_DEEP => call (fun c => lab_to_grey_deep e c default_reference) in_color
  | .CMYK => call (fun c => lab_to_cmyk e c default_reference) in_color
  | .HSV => call (fun c => lab_to_hsv e c default_reference) in_color
  | .HSL => call (fun c => lab_to_hsl e c default_reference) in_color
  | .XYZ => call (fun c => lab_to_xyz e c default_reference) in_color
  | .LAB => .ok in_color
  | .UNDEFINED => .ok none

/-- The function `to_rgb_true`. -/
def to_rgb_true (e : env α) (in_color : color_base α) (reference : reference_white α) :
    Except exception (Option (color_base α)) :=
  match in_color.get_color_type with
  | .RGB_TRUE => .ok (dynamic_cast .rgb_truecolor in_color)
  | .RGB_DEEP => call (rgb_deep_to_rgb_true e) (dynamic_cast .rgb_deepcolor in_color)
  | .GREY_TRUE => call (grey_true_to_rgb_true e) (dynamic_cast .grey_truecolor in_color)
  | .GREY_DEEP => call (grey_deep_to_rgb_true e) (dynamic_cast .grey_deepcolor in_color)
  | .CMYK => call (cmyk_to_rgb_true e) (dynamic_cast .cmyk in_color)
  | .HSV => call (hsv_to_rgb_true e) (dynamic_cast .hsv in_color)
  | .HSL => call (hsl_to_rgb_true e) (dynamic_cast .hsl in_color)
  | .XYZ => call (xyz_to_rgb_true e) (dynamic_cast .xyz in_color)
  | .LAB => call (fun c => lab_to_rgb_true e c reference) (dynamic_cast .lab in_color)
  | .UNDEFINED => .ok none

/-- The function `to_rgb_deep`. -/
def to_rgb_deep (e : env α) (in_color : color_base α) (reference : reference_white α) :
    Except exception (Option (color_base α)) :=
  match in_color.get_color_type with
  | .RGB_TRUE => call (rgb_true_to_rgb_deep e) (dynamic_cast .rgb_truecolor in_color)
  | .RGB_DEEP => .ok (dynamic_cast .rgb_deepcolor in_color)
  | .GREY_TRUE => call (grey_true_to_rgb_deep e) (dynamic_cast .grey_truecolor in_color)
  | .GREY_DEEP => call (grey_deep_to_rgb_deep e) (dynamic_cast .grey_deepcolor in_color)
  | .CMYK => call (cmyk_to_rgb_deep e) (dynamic_cast .cmyk in_color)
  | .HSV => call (hsv_to_rgb_deep e) (dynamic_cast .hsv in_color)
  | .HSL => call (hsl_to_rgb_deep e) (dynamic_cast .hsl in_color)
  | .XYZ => call (xyz_to_rgb_deep e) (dynamic_cast .xyz in_color)
  | .LAB => call (fun c => lab_to_rgb_deep e c reference) (dynamic_cast .lab in_color)
  | .UNDEFINED => .ok none

/-- The function `to_grey_true`. -/
def to_grey_true (e : env α) (in_color : color_base α) (reference : reference_white α) :
    Except exception (Option (color_base α)) :=
  match in_color.get_color_type with
  | .RGB_TRUE => call (rgb_true_to_grey_true e) (dynamic_cast .rgb_truecolor in_color)
  | .RGB_DEEP => call (rgb_deep_to_grey_true e) (dynamic_cast .rgb_deepcolor in_color)
  | .GREY_TRUE => .ok (dynamic_cast .grey_truecolor in_color)
  | .GREY_DEEP => call (grey_deep_to_grey_true e) (dynamic_cast .grey_deepcolor in_color)
  | .CMYK => call (cmyk_to_grey_true e) (dynamic_cast .cmyk in_color)
  | .HSV => call (hsv_to_grey_true e) (dynamic_cast .hsv in_color)
  | .HSL => call (hsl_to_grey_true e) (dynamic_cast .hsl in_color)
  | .XYZ => call (xyz_to_grey_true e) (dynamic_cast .xyz in_color)
  | .LAB => call (fun c => lab_to_grey_true e c reference) (dynamic_cast .lab in_color)
  | .UNDEFINED => .ok none

/-- The function `to_grey_deep`. -/
def to_grey_deep (e : env α) (in_color : color_base α) (reference : reference_white α) :
    Except exception (Option (color_base α)) :=
  match in_color.get_color_type with
  | .RGB_TRUE => call (rgb_true_to_grey_deep e) (dynamic_cast .rgb_truecolor in_color)
  | .RGB_DEEP => call (rgb_deep_to_grey_deep e) (dynamic_cast .rgb_deepcolor in_color)
  | .GREY_TRUE => call (grey_true_to_grey_deep e) (dynamic_cast .grey_truecolor in_color)
  | .GREY_DEEP => .ok (dynamic_cast .grey_deepcolor in_color)
  | .CMYK => call (cmyk_to_grey_deep e) (dynamic_cast .cmyk in_color)
  | .HSV => call (hsv_to_grey_deep e) (dynamic_cast .hsv in_color)
  | .HSL => call (hsl_to_grey_deep e) (dynamic_cast .hsl in_color)
  | .XYZ => call (xyz_to_grey_deep e) (dynamic_cast .xyz in_color)
  | .LAB => call (fun c => lab_to_grey_deep e c reference) (dynamic_cast .lab in_color)
  | .UNDEFINED => .ok none

/-- The function `to_cmyk`. -/
def to_cmyk (e : env α) (in_color : color_base α) (reference : reference_white α) :
    Except exception (Option (color_base α)) :=
  match in_color.get_color_type with
  | .RGB_TRUE => call (rgb_true_to_cmyk e) (dynamic_cast .rgb_truecolor in_color)
  | .RGB_DEEP => call (rgb_deep_to_cmyk e) (dynamic_cast .rgb_deepcolor in_color)
  | .GREY_TRUE => call (grey_true_to_cmyk e) (dynamic_cast .grey_truecolor in_color)
  | .GREY_DEEP => call (grey_deep_to_cmyk e) (dynamic_cast .grey_deepcolor in_color)
  | .CMYK => .ok (dynamic_cast .cmyk in_color)
  | .HSV => call (hsv_to_cmyk e) (dynamic_cast .hsv in_color)
  | .HSL => call (hsl_to_cmyk e) (dynamic_cast .hsl in_color)
  | .XYZ => call (xyz_to_cmyk e) (dynamic_cast .xyz in_color)
  | .LAB => call (fun c => lab_to_cmyk e c reference) (dynamic_cast .lab in_color)
  | .UNDEFINED => .ok none

/-- The function `to_hsv`. -/
def to_hsv (e : env α) (in_color : color_base α) (reference : reference_white α) :
    Except exception (Option (color_base α)) :=
  match in_color.get_color_type with
  | .RGB_TRUE => call (rgb_true_to_hsv e) (dynamic_cast .rgb_truecolor in_color)
  | .RGB_DEEP => call (rgb_deep_to_hsv e) (dynamic_cast .rgb_deepcolor in_color)
  | .GREY_TRUE => call (grey_true_to_hsv e) (dynamic_cast .grey_truecolor in_color)
  | .GREY_DEEP => call (grey_deep_to_hsv e) (dynamic_cast .grey_deepcolor in_color)
  | .CMYK => call (cmyk_to_hsv e) (dynamic_cast .cmyk in_color)
  | .HSV => .ok (dynamic_cast .hsv in_color)
  | .HSL => call (hsl_to_hsv e) (dynamic_cast .hsl in_color)
  | .XYZ => call (xyz_to_hsv e) (dynamic_cast .xyz in_color)
  | .LAB => call (fun c => lab_to_hsv e c reference) (dynamic_cast .lab in_color)
  | .UNDEFINED => .ok none

/-- The function `to_hsl`. -/
def to_hsl (e : env α) (in_color : color_base α) (reference : reference_white α) :
    Except exception (Option (color_base α)) :=
  match in_color.get_color_type with
  | .RGB_TRUE => call (rgb_true_to_hsl e) (dynamic_cast .rgb_truecolor in_color)
  | .RGB_DEEP => call (rgb_deep_to_hsl e) (dynamic_cast .rgb_deepcolor in_color)
  | .GREY_TRUE => call (grey_true_to_hsl e) (dynamic_cast .grey_truecolor in_color)
  | .GREY_DEEP => call (grey_deep_to_hsl e) (dynamic_cast .grey_deepcolor in_color)
  | .CMYK => call (cmyk_to_hsl e) (dynamic_cast .cmyk in_color)
  | .HSV => call (hsv_to_hsl e) (dynamic_cast .hsv in_color)
  | .HSL => .ok (dynamic_cast .hsl in_color)
  | .XYZ => call (xyz_to_hsl e) (dynamic_cast .xyz in_color)
  | .LAB => call (fun c => lab_to_hsl e c reference) (dynamic_cast .lab in_color)
  | .UNDEFINED => .ok none

/-- The function `to_xyz`. -/
def to_xyz (e : env α) (in_color : color_base α) (reference : reference_white α) :
    Except exception (Option (color_base α)) :=
  match in_color.get_color_type with
  | .RGB_TRUE => call (rgb_true_to_xyz e) (dynamic_cast .rgb_truecolor in_color)
  | .RGB_DEEP => call (rgb_deep_to_xyz e) (dynamic_cast .rgb_deepcolor in_color)
  | .GREY_TRUE => call (grey_true_to_xyz e) (dynamic_cast .grey_truecolor in_color)
  | .GREY_DEEP => call (grey_deep_to_xyz e) (dynamic_cast .grey_deepcolor in_color)
  | .CMYK => call (cmyk_to_xyz e) (dynamic_cast .cmyk in_color)
  | .HSV => call (hsv_to_xyz e) (dynamic_cast .hsv in_color)
  | .HSL => call (hsl_to_xyz e) (dynamic_cast .hsl in_color)
  | .XYZ => .ok (dynamic_cast .xyz in_color)
  | .LAB => call (fun c => lab_to_xyz e c reference) (dynamic_cast .lab in_color)
  | .UNDEFINED => .ok none

/-- The function `to_lab`. -/
def to_lab (e : env α) (in_color : color_base α) (reference : reference_white α) :
    Except exception (Option (color_base α)) :=
  match in_color.get_color_type with
  | .RGB_TRUE => call (fun c => rgb_true_to_lab e c default_reference) (dynamic_cast .rgb_truecolor in_color)
  | .RGB_DEEP => call (fun c => rgb_deep_to_lab e c default_reference) (dynamic_cast .rgb_deepcolor in_color)
  | .GREY_TRUE => call (fun c => grey_true_to_lab e c default_reference) (dynamic_cast .grey_truecolor in_color)
  | .GREY_DEEP => call (fun c => grey_deep_to_lab e c default_reference) (dynamic_cast .grey_deepcolor in_color)
  | .CMYK => call (fun c => cmyk_to_lab e c default_reference) (dynamic_cast .cmyk in_color)
  | .HSV => call (fun c => hsv_to_lab e c default_reference) (dynamic_cast .hsv in_color)
  | .HSL => call (fun c => hsl_to_lab e c default_reference) (dynamic_cast .hsl in_color)
  | .XYZ => call (fun c => xyz_to_lab e c reference) (dynamic_cast .xyz in_color)
  | .LAB => .ok (dynamic_cast .lab in_color)
  | .UNDEFINED => .ok none

/-- The function `convertTo`. -/
def convertTo (e : env α) (in_color : color_base α) (out_color : color_type)
    (reference : reference_white α) : Except exception (Option (color_base α)) :=
  match in_color.get_color_type with
  | .RGB_TRUE => from_rgb_true e (dynamic_cast .rgb_truecolor in_color) out_color reference
  | .RGB_DEEP => from_rgb_deep e (dynamic_cast .rgb_deepcolor in_color) out_color reference
  | .GREY_TRUE => from_grey_true e (dynamic_cast .grey_truecolor in_color) out_color reference
  | .GREY_DEEP => from_grey_deep e (dynamic_cast .grey_deepcolor in_color) out_color reference
  | .CMYK => from_cmyk e (dynamic_cast .cmyk in_color) out_color reference
  | .HSV => from_hsv e (dynamic_cast .hsv in_color) out_color reference
  | .HSL => from_hsl e (dynamic_cast .hsl in_color) out_color reference
  | .XYZ => from_xyz e (dynamic_cast .xyz in_color) out_color reference
  | .LAB => from_lab e (dynamic_cast .lab in_color) out_color reference
  | .UNDEFINED => .ok none

end color_converter

/-! ## Auxiliary definitions for the statements -/

/-- The class that represents a kind: the class whose constructors set this tag. An object of
the base class carries the tag `UNDEFINED`. -/
def class_of : color_type → color_class
  | .RGB_TRUE => .rgb_truecolor
  | .RGB_DEEP => .rgb_deepcolor
  | .GREY_TRUE => .grey_truecolor
  | .GREY_DEEP => .grey_deepcolor
  | .CMYK => .cmyk
  | .HSV => .hsv
  | .HSL => .hsl
  | .XYZ => .xyz
  | .LAB => .lab
  | .UNDEFINED => .color_base

/-- The environment in which `powf` is the given power function on finite arguments (and NaN
on the others), the default alpha is 1 and the default working space is the null pointer. -/
def env_of {α : Type} [LinearOrderedField α] (pw : α → α → α) : env α :=
  { powf := fun x y =>
      match x, y with
      | .fin a, .fin b => .fin (pw a b)
      | _, _ => .nan
    default_alpha := .fin 1
    default_color_space := none }

namespace color_base

variable {α : Type} [LinearOrderedField α]

/-- Whether every component lies within the bounds of the object, under the C comparisons
`m_min <= x` and `x <= m_max` (both false for a NaN component). -/
def components_in_range (self : color_base α) : Bool :=
  self.m_component_vector.all (fun x => float.le self.m_min x && float.le x self.m_max)

end color_base

namespace cmyk

variable {α : Type} [LinearOrderedField α]

/-- A call that changes the components of a CMYK object: one of the four channel setters, or
`set_component(new_value, index)`. -/
inductive mutation (α : Type) where
  | cyan (new_value : float α)
  | magenta (new_value : float α)
  | yellow (new_value : float α)
  | black (new_value : float α)
  | set_component (new_value : float α) (index : ℤ)

/-- The effect of one call on the object. -/
def apply_mutation (self : color_base α) : mutation α → Except exception (color_base α)
  | .cyan v => cyan_set self v
  | .magenta v => magenta_set self v
  | .yellow v => yellow_set self v
  | .black v => black_set self v
  | .set_component v i => self.set_component v i

/-- The object after a sequence of calls; a call that throws leaves the object as it was
(`set_component` throws before it assigns). -/
def apply_mutations (self : color_base α) : List (mutation α) → color_base α
  | [] => self
  | m :: rest =>
      match apply_mutation self m with
      | .ok next => apply_mutations next rest
      | .error _ => apply_mutations self rest

end cmyk

namespace color_converter

variable {α : Type} [LinearOrderedField α] [FloorRing α]

open float

/-- The coefficients of lines 181-183 of `rgb_deep_to_xyz`, row by row: linear RGB to XYZ. -/
def rgb_to_xyz_matrix : Matrix (Fin 3) (Fin 3) α :=
  Matrix.of ![![0.4124564, 0.3575761, 0.1804375],
              ![0.2126729, 0.7151522, 0.0721750],
              ![0.0193339, 0.1191920, 0.9503041]]

/-- The coefficients of lines 481-483 of `xyz_to_rgb_deep`, row by row, with the signs the code
writes: XYZ to linear RGB. -/
def xyz_to_rgb_matrix : Matrix (Fin 3) (Fin 3) α :=
  Matrix.of ![![3.2404542, -1.5371385, 0.4985314],
              ![-0.9692660, 1.8760108, 0.0415560],
              ![0.0556434, -0.2040259, 1.0572252]]

/-- The function `rgb_deep_to_xyz` written over a matrix of coefficients `M`. -/
def rgb_deep_to_xyz_with (M : Matrix (Fin 3) (Fin 3) α) (e : env α) (color : color_base α) :
    Except exception (color_base α) := do
  let color ← rgb_deep_to_linear_srgb_deep e color
  let x := rgb_deepcolor.red color * fin (M 0 0) + rgb_deepcolor.green color * fin (M 0 1)
    + rgb_deepcolor.blue color * fin (M 0 2)
  let y := rgb_deepcolor.red color * fin (M 1 0) + rgb_deepcolor.green color * fin (M 1 1)
    + rgb_deepcolor.blue color * fin (M 1 2)
  let z := rgb_deepcolor.red color * fin (M 2 0) + rgb_deepcolor.green color * fin (M 2 1)
    + rgb_deepcolor.blue color * fin (M 2 2)
  xyz.ctor (x * fin 100) (y * fin 100) (z * fin 100) e.default_alpha e.default_color_space

/-- The function `xyz_to_rgb_deep` written over a matrix of coefficients `M`. -/
def xyz_to_rgb_deep_with (M : Matrix (Fin 3) (Fin 3) α) (e : env α) (color : color_base α) :
    Except exception (color_base α) := do
  let x_temp := xyz.x color / fin 100
  let y_temp := xyz.y color / fin 100
  let z_temp := xyz.z color / fin 100
  let r := x_temp * fin (M 0 0) + y_temp * fin (M 0 1) + z_temp * fin (M 0 2)
  let g := x_temp * fin (M 1 0) + y_temp * fin (M 1 1) + z_temp * fin (M 1 2)
  let b := x_temp * fin (M 2 0) + y_temp * fin (M 2 1) + z_temp * fin (M 2 2)
  let linear ← rgb_deepcolor.ctor r g b e.default_alpha e.default_color_space
  let rgb_deep ← linear_srgb_deep_to_rgb_deep e linear
  let rgb_deep ← rgb_deepcolor.red_set rgb_deep
    (round_float_to_n_decimals e (clamp_float (rgb_deepcolor.red rgb_deep) (fin 0) (fin 1))
      (of_int 1))
  let rgb_deep ← rgb_deepcolor.green_set rgb_deep
    (round_float_to_n_decimals e (clamp_float (rgb_deepcolor.green rgb_deep) (fin 0) (fin 1))
      (of_int 1))
  let rgb_deep ← rgb_deepcolor.blue_set rgb_deep
    (round_float_to_n_decimals e (clamp_float (rgb_deepcolor.blue rgb_deep) (fin 0) (fin 1))
      (of_int 1))
  return rgb_deep

end color_converter

namespace reference_white_presets

variable {α : Type} [LinearOrderedField α]

/-- The forty presets that lines 6-46 of `color_converter.cpp` define, in the order of the
file. -/
def catalogue : List (reference_white α) :=
  [D50_2Degree, D55_2Degree, D65_2Degree, D75_2Degree, A_2Degree, B_2Degree, C_2Degree,
    E_2Degree, F1_2Degree, F2_2Degree, F3_2Degree, F4_2Degree, F5_2Degree, F6_2Degree,
    F7_2Degree, F8_2Degree, F9_2Degree, F10_2Degree, F11_2Degree, F12_2Degree,
    D50_10Degree, D55_10Degree, D65_10Degree, D75_10Degree, A_10Degree, B_10Degree,
    C_10Degree, E_10Degree, F1_10Degree, F2_10Degree, F3_10Degree, F4_10Degree, F5_10Degree,
    F6_10Degree, F7_10Degree, F8_10Degree, F9_10Degree, F10_10Degree, F11_10Degree,
    F12_10Degree]

end reference_white_presets

namespace color_converter

variable {α : Type} [LinearOrderedField α] [FloorRing α]

open float

/-- The body of the loop of `rgb_deep_to_linear_srgb_deep`: what the function does to one
channel. -/
def rgb_deep_to_linear_srgb_deep_channel (e : env α) (c : float α) : float α :=
  if float.le c (fin 0.04045) then c / fin 12.92
  else e.powf ((c + fin 0.055) / fin 1.055) (fin 2.4)

/-- The body of the loop of `linear_srgb_deep_to_rgb_deep`: what the function does to one
channel. -/
def linear_srgb_deep_to_rgb_deep_channel (e : env α) (c : float α) : float α :=
  if float.le c (fin 0.0031308) then c * fin 12.92
  else N_ROOT e (c * fin 1.055) (fin 2.4) - fin 0.055

/-- The value of the local variable `hue` of `rgb_deep_to_hsv`, which the function hands to the
`hsv` constructor: the hue before that constructor clamps it. The branch `max == min` has no
such variable and hands over the literal `0`. -/
def rgb_deep_to_hsv_hue (color : color_base α) : ℤ :=
  let min := fminf (fminf (rgb_deepcolor.red color) (rgb_deepcolor.green color))
    (rgb_deepcolor.blue color)
  let max := fmaxf (fmaxf (rgb_deepcolor.red color) (rgb_deepcolor.green color))
    (rgb_deepcolor.blue color)
  if float.eq max min then 0
  else
    let delta := max - min
    if float.eq max (rgb_deepcolor.red color) then
      60 * ((to_int ((rgb_deepcolor.green color - rgb_deepcolor.blue color) / delta)).tmod 6)
    else if float.eq max (rgb_deepcolor.green color) then
      60 * to_int (((rgb_deepcolor.blue color - rgb_deepcolor.red color) / delta) + of_int 2)
    else
      60 * to_int (((rgb_deepcolor.red color - rgb_deepcolor.green color) / delta) + of_int 4)

end color_converter

namespace float

variable {α : Type} [LinearOrderedField α] [FloorRing α]

/-- The integer nearest to `t`, a halfway case going to the even neighbour: the rounding
direction of IEEE 754 arithmetic. -/
def round_ties_even (t : α) : ℤ :=
  if t - (⌊t⌋ : α) < 1 / 2 then ⌊t⌋
  else if 1 / 2 < t - (⌊t⌋ : α) then ⌊t⌋ + 1
  else if ⌊t⌋ % 2 = 0 then ⌊t⌋ else ⌊t⌋ + 1

/-- The binary32 number nearest to the real number `a`: 24 significant bits, the spacing of
the numbers being `2 ^ (e - 23)` in the binade `2 ^ e ≤ |a| < 2 ^ (e + 1)` and staying
`2 ^ (-149)` below `2 ^ (-126)`; a result of magnitude `2 ^ 128` or more is an infinity. -/
def to_binary32 (a : α) : float α :=
  if a = 0 then fin 0
  else
    let e : ℤ := max (Int.log 2 |a|) (-126)
    let ulp : α := 2 ^ (e - 23)
    let r : α := (round_ties_even (a / ulp) : α) * ulp
    if (2 : α) ^ (128 : ℤ) ≤ |r| then (if 0 < a then pinf else ninf) else fin r

/-- What a `float` operation does to its exact result: a finite result is rounded to the
nearest binary32 number, NaN and the infinities stay. -/
def round32 : float α → float α
  | fin a => to_binary32 a
  | x => x

end float

namespace color_converter

variable {α : Type} [LinearOrderedField α] [FloorRing α]

open float

/-- The function `rgb_deep_to_cmyk` with the result of every arithmetic operation passed
through `rnd`: with `rnd = round32` the binary32 arithmetic of the program, with `rnd = id`
the exact arithmetic of `rgb_deep_to_cmyk`. -/
def rgb_deep_to_cmyk_rounded (rnd : float α → float α) (e : env α) (color : color_base α) :
    Except exception (color_base α) :=
  let k := rnd (of_int 1
    - fmaxf (fmaxf (rgb_deepcolor.red color) (rgb_deepcolor.green color))
        (rgb_deepcolor.blue color))
  let c := rnd (rnd (rnd (of_int 1 - rgb_deepcolor.red color) - k) / rnd (fin 1 - k))
  let m := rnd (rnd (rnd (of_int 1 - rgb_deepcolor.green color) - k) / rnd (fin 1 - k))
  let y := rnd (rnd (rnd (of_int 1 - rgb_deepcolor.blue color) - k) / rnd (fin 1 - k))
  cmyk.ctor c m y k e.default_alpha e.default_color_space

/-- The function `rgb_deep_to_grey_deep` with the result of every arithmetic operation passed
through `rnd`. -/
def rgb_deep_to_grey_deep_rounded (rnd : float α → float α) (e : env α)
    (color : color_base α) : Except exception (color_base α) :=
  let avg := rnd (rnd (rnd (rgb_deepcolor.red color + rgb_deepcolor.green color)
    + rgb_deepcolor.blue color) / fin 3)
  grey_deepcolor.ctor avg color.alpha e.default_color_space

/-- The hue of `rgb_deep_to_hsv` (see `rgb_deep_to_hsv_hue`) with the result of every
arithmetic operation passed through `rnd`. -/
def rgb_deep_to_hsv_hue_rounded (rnd : float α → float α) (color : color_base α) : ℤ :=
  let min := fminf (fminf (rgb_deepcolor.red color) (rgb_deepcolor.green color))
    (rgb_deepcolor.blue color)
  let max := fmaxf (fmaxf (rgb_deepcolor.red color) (rgb_deepcolor.green color))
    (rgb_deepcolor.blue color)
  if float.eq max min then 0
  else
    let delta := rnd (max - min)
    if float.eq max (rgb_deepcolor.red color) then
      60 * ((to_int (rnd (rnd (rgb_deepcolor.green color - rgb_deepcolor.blue color)
        / delta))).tmod 6)
    else if float.eq max (rgb_deepcolor.green color) then
      60 * to_int (rnd (rnd (rnd (rgb_deepcolor.blue color - rgb_deepcolor.red color) / delta)
        + of_int 2))
    else
      60 * to_int (rnd (rnd (rnd (rgb_deepcolor.red color - rgb_deepcolor.green color) / delta)
        + of_int 4))

end color_converter

/-! ## Basic facts about the embedding -/

namespace float

variable {α : Type} [LinearOrderedField α]

@[simp] theorem fin_add_fin (a b : α) : (fin a + fin b : float α) = fin (a + b) := rfl

@[simp] theorem fin_sub_fin (a b : α) : (fin a - fin b : float α) = fin (a - b) := by
  show float.add (fin a) (float.neg (fin b)) = fin (a - b)
  simp [float.add, float.neg, sub_eq_add_neg]

@[simp] theorem fin_mul_fin (a b : α) : (fin a * fin b : float α) = fin (a * b) := rfl

theorem fin_div_fin (a b : α) :
    (fin a / fin b : float α)
      = if b = 0 then (if a = 0 then nan else if 0 < a then pinf else ninf)
        else fin (a / b) := rfl

theorem fin_div_fin_of_ne (a : α) {b : α} (h : b ≠ 0) :
    (fin a / fin b : float α) = fin (a / b) := by
  rw [fin_div_fin, if_neg h]

@[simp] theorem zero_div_zero : (fin 0 / fin 0 : float α) = nan := by
  simp [fin_div_fin]

@[simp] theorem lt_fin (a b : α) : float.lt (fin a) (fin b) = decide (a < b) := rfl

@[simp] theorem eq_fin (a b : α) : float.eq (fin a) (fin b) = decide (a = b) := rfl

@[simp] theorem le_fin (a b : α) : float.le (fin a) (fin b) = decide (a ≤ b) := by
  simp [float.le, le_iff_lt_or_eq]

@[simp] theorem gt_fin (a b : α) : float.gt (fin a) (fin b) = decide (b < a) := rfl

@[simp] theorem fminf_fin (a b : α) : fminf (fin a) (fin b) = fin (min a b) := by
  rcases le_or_lt a b with h | h
  · simp [fminf, min_eq_left h, not_lt.mpr h]
  · simp [fminf, min_eq_right h.le, h]

@[simp] theorem fmaxf_fin (a b : α) : fmaxf (fin a) (fin b) = fin (max a b) := by
  rcases le_or_lt b a with h | h
  · simp [fmaxf, max_eq_left h, not_lt.mpr h]
  · simp [fmaxf, max_eq_right h.le, h]

@[simp] theorem fminf_nan_left (y : float α) : fminf nan y = y := by
  cases y <;> rfl

@[simp] theorem fmaxf_nan_left (y : float α) : fmaxf nan y = y := by
  cases y <;> rfl

@[simp] theorem of_int_eq (n : ℤ) : (of_int n : float α) = fin (n : α) := rfl

end float

namespace color_base

variable {α : Type} [LinearOrderedField α]

@[simp] theorem clamp_fin (v hi lo : α) :
    clamp (float.fin v) (.fin hi) (.fin lo) = .fin (max (min v hi) lo) := by
  simp [clamp]

theorem clamp_fin_of_mem {v hi lo : α} (h1 : lo ≤ v) (h2 : v ≤ hi) :
    clamp (float.fin v) (.fin hi) (.fin lo) = .fin v := by
  simp [clamp, min_eq_left h2, max_eq_left h1]

@[simp] theorem clamp_nan (hi lo : α) :
    clamp (float.nan) (.fin hi) (.fin lo) = .fin (max hi lo) := by
  simp [clamp]

@[simp] theorem clamp_unbounded (v : α) : clamp (float.fin v) .pinf .ninf = .fin v := rfl

end color_base

section constructors

variable {α : Type} [LinearOrderedField α]

open float color_base

theorem rgb_truecolor_ctor_eq (r g b a : float α) (cs : Option ℕ) :
    rgb_truecolor.ctor r g b a cs = .ok
      { cls := .rgb_truecolor
        m_component_vector :=
          [clamp r (fin 255) (fin 0), clamp g (fin 255) (fin 0), clamp b (fin 255) (fin 0)]
        m_rgb_color_space := cs, m_alpha := a, m_max := fin 255, m_min := fin 0
        m_type := .RGB_TRUE } := rfl

theorem rgb_deepcolor_ctor_eq (r g b a : float α) (cs : Option ℕ) :
    rgb_deepcolor.ctor r g b a cs = .ok
      { cls := .rgb_deepcolor
        m_component_vector :=
          [clamp r (fin 1) (fin 0), clamp g (fin 1) (fin 0), clamp b (fin 1) (fin 0)]
        m_rgb_color_space := cs, m_alpha := a, m_max := fin 1, m_min := fin 0
        m_type := .RGB_DEEP } := rfl

theorem cmyk_ctor_eq (c m y k a : float α) (cs : Option ℕ) :
    cmyk.ctor c m y k a cs = .ok
      { cls := .cmyk
        m_component_vector :=
          [clamp c (fin 1) (fin 0), clamp m (fin 1) (fin 0), clamp y (fin 1) (fin 0),
            clamp k (fin 1) (fin 0)]
        m_rgb_color_space := cs, m_alpha := a, m_max := fin 1, m_min := fin 0
        m_type := .CMYK } := rfl

theorem hsv_ctor_eq (h s v a : float α) (cs : Option ℕ) :
    hsv.ctor h s v a cs = .ok
      { cls := .hsv
        m_component_vector :=
          [clamp h (fin 360) (fin 0), clamp s (fin 1) (fin 0), clamp v (fin 1) (fin 0)]
        m_rgb_color_space := cs, m_alpha := a, m_max := fin 1, m_min := fin 0
        m_type := .HSV } := rfl

theorem xyz_ctor_eq (x y z a : float α) (cs : Option ℕ) :
    xyz.ctor x y z a cs = .ok
      { cls := .xyz
        m_component_vector := [clamp x pinf ninf, clamp y pinf ninf, clamp z pinf ninf]
        m_rgb_color_space := cs, m_alpha := a, m_max := pinf, m_min := ninf
        m_type := .XYZ } := rfl

theorem lab_ctor_eq (l a b alpha : float α) (cs : Option ℕ) :
    lab.ctor l a b alpha cs = .ok
      { cls := .lab
        m_component_vector :=
          [clamp l (fin 100) (fin 0), clamp a (fin 128) (fin (-128)),
            clamp b (fin 128) (fin (-128))]
        m_rgb_color_space := cs, m_alpha := alpha, m_max := fin 128, m_min := fin (-128)
        m_type := .LAB } := rfl

@[simp] theorem ok_bind {ε β γ : Type} (a : β) (f : β → Except ε γ) :
    (Except.ok a >>= f) = f a := rfl

end constructors

section quantisation
variable {α : Type} [LinearOrderedField α] [FloorRing α]
open float color_base color_converter

theorem to_int_intCast (n : ℤ) (h0 : INT_MIN ≤ n) (h1 : n ≤ INT_MAX) :
    to_int (fin (n : α)) = n := by
  simp [to_int, h0, h1]

/-- The 8-bit code of a normalized channel value: `(unsigned char)roundf(r * 255)` is the
integer nearest to `255 r`, and it lies in 0..255. -/
theorem to_uchar_roundf (r : α) (h0 : 0 ≤ r) (h1 : r ≤ 1) :
    to_uchar (roundf (fin r * of_int 255)) = ⌊r * 255 + 1 / 2⌋
      ∧ 0 ≤ ⌊r * 255 + 1 / 2⌋ ∧ ⌊r * 255 + 1 / 2⌋ ≤ 255 := by
  have hx : (0 : α) ≤ r * 255 := by positivity
  have hn0 : 0 ≤ ⌊r * 255 + 1 / 2⌋ := Int.floor_nonneg.mpr (by positivity)
  have hn1 : ⌊r * 255 + 1 / 2⌋ < 256 := by
    rw [Int.floor_lt]
    push_cast
    linarith
  refine ⟨?_, hn0, by omega⟩
  have hr : roundf (fin r * of_int 255) = fin ((⌊r * 255 + 1 / 2⌋ : ℤ) : α) := by
    simp [roundf, hx]
  rw [hr, to_uchar, to_int_intCast _ (by simp only [INT_MIN]; omega)
    (by simp only [INT_MAX]; omega)]
  exact Int.emod_eq_of_lt hn0 hn1

theorem quantise_error (r : α) :
    |((⌊r * 255 + 1 / 2⌋ : ℤ) : α) / 255 - r| ≤ 1 / 255 := by
  have h1 := Int.floor_le (r * 255 + 1 / 2)
  have h2 := Int.lt_floor_add_one (r * 255 + 1 / 2)
  rw [abs_le]
  constructor
  · rw [le_sub_iff_add_le, le_div_iff₀ (by norm_num)]
    linarith
  · rw [sub_le_iff_le_add, div_le_iff₀ (by norm_num)]
    linarith

end quantisation

section range_facts
variable {α : Type} [LinearOrderedField α]
open float color_base

theorem eq_of_float_eq {x y : float α} (h : float.eq x y = true) : x = y := by
  cases x <;> cases y <;> simp_all [float.eq]

theorem float_eq_self {x : float α} (h : x ≠ nan) : float.eq x x = true := by
  cases x <;> simp_all [float.eq]

theorem fminf_ne_nan (x : float α) {mx : float α} (h : mx ≠ nan) : fminf x mx ≠ nan := by
  cases x <;> cases mx <;> first
    | exact absurd rfl h
    | (rw [fminf_fin]; exact fun hc => float.noConfusion hc)
    | simp [fminf, float.lt]

theorem fminf_le_right (x : float α) {mx : float α} (h : mx ≠ nan) :
    float.le (fminf x mx) mx = true := by
  cases x <;> cases mx <;> first
    | exact absurd rfl h
    | (simp only [fminf_fin, le_fin, decide_eq_true_eq]; exact min_le_right _ _)
    | simp [fminf, float.le, float.lt, float.eq]

theorem le_fmaxf_right {t mn : float α} (ht : t ≠ nan) (h : mn ≠ nan) :
    float.le mn (fmaxf t mn) = true := by
  cases t <;> cases mn <;> first
    | exact absurd rfl h
    | exact absurd rfl ht
    | (simp only [fmaxf_fin, le_fin, decide_eq_true_eq]; exact le_max_right _ _)
    | simp [fmaxf, float.le, float.lt, float.eq]

theorem fmaxf_le {t mn mx : float α} (h1 : float.le t mx = true) (h2 : float.le mn mx = true) :
    float.le (fmaxf t mn) mx = true := by
  cases t <;> cases mn <;> cases mx <;> first
    | (simp only [fmaxf_fin, le_fin, decide_eq_true_eq] at h1 h2 ⊢; exact max_le h1 h2)
    | (rw [fmaxf_fin]; rfl)
    | (simp [float.le, float.lt, float.eq] at h1; done)
    | (simp [float.le, float.lt, float.eq] at h2; done)
    | simp_all [fmaxf, float.le, float.lt, float.eq]

theorem ne_nan_of_le_left {x y : float α} (h : float.le x y = true) : x ≠ nan := by
  cases x <;> simp_all [float.le, float.lt, float.eq]

theorem ne_nan_of_le_right {x y : float α} (h : float.le x y = true) : y ≠ nan := by
  cases x <;> cases y <;> simp_all [float.le, float.lt, float.eq]

theorem clamp_in_range (x mx mn : float α) (h : float.le mn mx = true) :
    float.le mn (clamp x mx mn) = true ∧ float.le (clamp x mx mn) mx = true := by
  have hmx := ne_nan_of_le_right h
  have hmn := ne_nan_of_le_left h
  exact ⟨le_fmaxf_right (fminf_ne_nan x hmx) hmn, fmaxf_le (fminf_le_right x hmx) h⟩

end range_facts

section invariants
variable {α : Type} [LinearOrderedField α]
open float color_base

theorem set_component_in_range {s t : color_base α} {v : float α} {i : ℤ}
    (hb : float.le s.m_min s.m_max = true) (hs : s.components_in_range = true)
    (h : s.set_component v i = .ok t) :
    t.components_in_range = true ∧ t.m_max = s.m_max ∧ t.m_min = s.m_min := by
  unfold set_component at h
  split_ifs at h with hi
  injection h with h
  subst h
  refine ⟨?_, rfl, rfl⟩
  simp only [components_in_range, List.all_eq_true, Bool.and_eq_true] at hs ⊢
  intro x hx
  rcases List.mem_or_eq_of_mem_set hx with hx | hx
  · exact hs x hx
  · rw [hx]
    exact clamp_in_range v s.m_max s.m_min hb

theorem apply_mutation_in_range {s t : color_base α} (m : cmyk.mutation α)
    (hb : float.le s.m_min s.m_max = true) (hs : s.components_in_range = true)
    (h : cmyk.apply_mutation s m = .ok t) :
    t.components_in_range = true ∧ t.m_max = s.m_max ∧ t.m_min = s.m_min := by
  cases m <;> exact set_component_in_range hb hs h

theorem apply_mutations_in_range (calls : List (cmyk.mutation α)) :
    ∀ s : color_base α, float.le s.m_min s.m_max = true → s.components_in_range = true →
      (cmyk.apply_mutations s calls).components_in_range = true
        ∧ (cmyk.apply_mutations s calls).m_max = s.m_max
        ∧ (cmyk.apply_mutations s calls).m_min = s.m_min := by
  induction calls with
  | nil => intro s _ hs; exact ⟨hs, rfl, rfl⟩
  | cons m rest ih =>
    intro s hb hs
    simp only [cmyk.apply_mutations]
    cases hm : cmyk.apply_mutation s m with
    | error err => exact ih s hb hs
    | ok t =>
      obtain ⟨h1, h2, h3⟩ := apply_mutation_in_range m hb hs hm
      obtain ⟨k1, k2, k3⟩ := ih t (by rw [h2, h3]; exact hb) h1
      exact ⟨k1, by rw [k2, h2], by rw [k3, h3]⟩

theorem getD_zipWith {β γ δ : Type} (f : β → γ → δ) (l : List β) (r : List γ) (i : ℕ)
    (d1 : β) (d2 : γ) (d3 : δ) (h1 : i < l.length) (h2 : i < r.length) :
    (List.zipWith f l r).getD i d3 = f (l.getD i d1) (r.getD i d2) := by
  induction l generalizing r i with
  | nil => simp at h1
  | cons a l ih =>
    cases r with
    | nil => simp at h2
    | cons b r =>
      cases i with
      | zero => simp
      | succ i =>
        simp only [List.zipWith_cons_cons, List.getD_cons_succ]
        exact ih r i (by simpa using h1) (by simpa using h2)

theorem exists_of_mem_zipWith {β γ δ : Type} (f : β → γ → δ) (l : List β) (r : List γ) (x : δ)
    (h : x ∈ List.zipWith f l r) : ∃ p q, x = f p q := by
  induction l generalizing r with
  | nil => simp at h
  | cons a l ih =>
    cases r with
    | nil => simp at h
    | cons b r =>
      simp only [List.zipWith_cons_cons, List.mem_cons] at h
      rcases h with h | h
      · exact ⟨a, b, h⟩
      · exact ih r h

end invariants

section equality_facts
open float color_base color_converter

theorem components_equal_iff {α : Type} [LinearOrderedField α] (l r : List (float α))
    (h : l.length = r.length) :
    components_equal l r = true
      ↔ ∀ i : ℕ, i < l.length → float.eq (l.getD i nan) (r.getD i nan) = true := by
  induction l generalizing r with
  | nil => simp [components_equal]
  | cons a l ih =>
    cases r with
    | nil => simp at h
    | cons b r =>
      have hlen : l.length = r.length := by simpa using h
      simp only [components_equal, float.ne]
      constructor
      · intro hc i hi
        by_cases hab : float.eq a b = true
        · simp only [hab, Bool.not_true, Bool.false_eq_true, if_false] at hc
          cases i with
          | zero => simpa using hab
          | succ i =>
            simp only [List.getD_cons_succ]
            exact (ih r hlen).mp hc i (by simpa using hi)
        · simp [hab] at hc
      · intro hall
        have h0 := hall 0 (by simp)
        simp only [List.getD_cons_zero] at h0
        simp only [h0, Bool.not_true, Bool.false_eq_true, if_false]
        refine (ih r hlen).mpr (fun i hi => ?_)
        have := hall (i + 1) (by simpa using hi)
        simpa using this

theorem components_equal_self {α : Type} [LinearOrderedField α] (l : List (float α))
    (h : ∀ x ∈ l, x ≠ nan) : components_equal l l = true := by
  induction l with
  | nil => simp [components_equal]
  | cons a l ih =>
    have ha : float.eq a a = true := float_eq_self (h a (by simp))
    simp only [components_equal, float.ne, ha, Bool.not_true, Bool.false_eq_true, if_false]
    exact ih (fun x hx => h x (by simp [hx]))

theorem components_equal_eq_iff {α : Type} [LinearOrderedField α] (l r : List (float α))
    (h : ∀ x ∈ l, x ≠ nan) :
    components_equal l r = true ∧ l.length = r.length ↔ l = r := by
  constructor
  · rintro ⟨hc, hlen⟩
    induction l generalizing r with
    | nil =>
      cases r with
      | nil => rfl
      | cons b r => simp at hlen
    | cons a l ih =>
      cases r with
      | nil => simp at hlen
      | cons b r =>
        simp only [components_equal, float.ne] at hc
        by_cases hab : float.eq a b = true
        · simp only [hab, Bool.not_true, Bool.false_eq_true, if_false] at hc
          rw [eq_of_float_eq hab, ih r (fun x hx => h x (by simp [hx])) hc (by simpa using hlen)]
        · simp [hab] at hc
  · rintro rfl
    exact ⟨components_equal_self l h, rfl⟩

theorem op_eq_spec {α : Type} [LinearOrderedField α] (a b : color_base α) :
    (op_eq a b = true
        ↔ a.get_color_type = b.get_color_type
          ∧ a.get_component_vector.length = b.get_component_vector.length
          ∧ ∀ i : ℕ, i < a.get_component_vector.length →
              float.eq (a.at_index i) (b.at_index i) = true)
      ∧ (a.get_color_type ≠ b.get_color_type → op_eq a b = false)
      ∧ ((∀ x ∈ a.get_component_vector, x ≠ nan) →
          (op_eq a b = true
            ↔ a.get_color_type = b.get_color_type
              ∧ a.get_component_vector = b.get_component_vector)) := by
  simp only [get_color_type, get_component_vector, at_index]
  refine ⟨?_, ?_, ?_⟩
  · by_cases hk : a.m_type = b.m_type
    · by_cases hn : a.m_component_vector.length = b.m_component_vector.length
      · simp [op_eq, get_color_type, hk, hn, components_equal_iff _ _ hn]
      · simp [op_eq, get_color_type, hk, hn]
    · simp [op_eq, get_color_type, hk]
  · intro hk
    simp [op_eq, get_color_type, hk]
  · intro hnan
    rw [← components_equal_eq_iff _ _ hnan]
    by_cases hk : a.m_type = b.m_type
    · by_cases hn : a.m_component_vector.length = b.m_component_vector.length
      · simp [op_eq, get_color_type, hk, hn]
      · simp [op_eq, get_color_type, hk, hn]
    · simp [op_eq, get_color_type, hk]

theorem ne_nan_of_in_range {α : Type} [LinearOrderedField α] {s : color_base α}
    (h : s.components_in_range = true) : ∀ x ∈ s.m_component_vector, x ≠ nan := by
  simp only [components_in_range, List.all_eq_true, Bool.and_eq_true] at h
  exact fun x hx => ne_nan_of_le_right (h x hx).1

theorem cmyk_ctor_in_range {α : Type} [LinearOrderedField α] (cy m y k a : float α)
    (cs : Option ℕ) :
    ∃ obj : color_base α,
      cmyk.ctor cy m y k a cs = .ok obj ∧ obj.m_max = fin 1 ∧ obj.m_min = fin 0
        ∧ obj.components_in_range = true := by
  have hb : float.le (fin (0 : α)) (fin 1) = true := by simp
  refine ⟨_, cmyk_ctor_eq _ _ _ _ _ _, rfl, rfl, ?_⟩
  simp [components_in_range, clamp_in_range _ _ _ hb]

end equality_facts

section cube_root
open float color_base color_converter

theorem lt_of_cube_lt {α : Type} [LinearOrderedField α] {r lo : α} (hr : 0 ≤ r)
    (h : lo ^ 3 < r ^ 3) : lo < r := by
  by_contra hc
  have hle : r ≤ lo := not_lt.mp hc
  have := pow_le_pow_left₀ hr hle 3
  exact absurd h (not_lt.mpr this)

theorem xyz_to_lab_helper_cube_root {α : Type} [LinearOrderedField α] (e : env α)
    (hcbrt : ∀ x : α, 0 < x → ∃ r : α, 0 < r ∧ r ^ 3 = x ∧ e.powf (fin x) (fin (1 / 3)) = fin r)
    (x : α) (hx : 216 / 24389 < x) :
    ∃ r : α, 0 < r ∧ r ^ 3 = x ∧ xyz_to_lab_helper e (fin x) = fin r := by
  have h0 : (0 : α) < x := lt_trans (by norm_num) hx
  obtain ⟨r, hr0, hr3, hr⟩ := hcbrt x h0
  refine ⟨r, hr0, hr3, ?_⟩
  have h3 : (3 : α) ≠ 0 := by norm_num
  have hr2 : e.powf (fin x) (fin 3⁻¹) = fin r := by simpa using hr
  simp [xyz_to_lab_helper, N_ROOT, fin_div_fin_of_ne, hx, hr2]

theorem real_cube_root (x : ℝ) (hx : 0 < x) :
    ∃ r : ℝ, 0 < r ∧ r ^ 3 = x ∧ (env_of Real.rpow).powf (fin x) (fin (1 / 3)) = fin r := by
  refine ⟨x ^ (1 / 3 : ℝ), Real.rpow_pos_of_pos hx _, ?_, rfl⟩
  rw [← Real.rpow_natCast, ← Real.rpow_mul hx.le]
  norm_num

end cube_root

section dispatch_facts
open float color_base color_converter

/-- `xyz_to_lab` on XYZ (0.5, 0.5, 0.5) with the D65 2-degree white: every ratio is below the
threshold, so the helper is linear and no power is taken. -/
theorem xyz_to_lab_half_D65 {α : Type} [LinearOrderedField α] (e : env α) (a : float α)
    (cs : Option ℕ) :
    xyz_to_lab e
        { cls := .xyz, m_component_vector := [fin 0.5, fin 0.5, fin 0.5]
          m_rgb_color_space := cs, m_alpha := a, m_max := pinf, m_min := ninf, m_type := .XYZ }
        reference_white_presets.D65_2Degree
      = .ok
        { cls := .lab
          m_component_vector := [fin (24389 / 5400), fin (130355 / 128304), fin (31117 / 48996)]
          m_rgb_color_space := e.default_color_space, m_alpha := e.default_alpha
          m_max := fin 128, m_min := fin (-128), m_type := .LAB } := by
  simp [xyz_to_lab, xyz_to_lab_helper, lab_ctor_eq, xyz.x, xyz.y, xyz.z, at_index,
    reference_white_presets.D65_2Degree, fin_div_fin]
  norm_num [fin_div_fin]

/-- `xyz_to_lab` on XYZ (0.5, 0.5, 0.5) with the equal-energy white E (100, 100, 100): the three
ratios are equal, so a = b = 0. -/
theorem xyz_to_lab_half_E {α : Type} [LinearOrderedField α] (e : env α) (a : float α)
    (cs : Option ℕ) :
    xyz_to_lab e
        { cls := .xyz, m_component_vector := [fin 0.5, fin 0.5, fin 0.5]
          m_rgb_color_space := cs, m_alpha := a, m_max := pinf, m_min := ninf, m_type := .XYZ }
        reference_white_presets.E_2Degree
      = .ok
        { cls := .lab
          m_component_vector := [fin (24389 / 5400), fin 0, fin 0]
          m_rgb_color_space := e.default_color_space, m_alpha := e.default_alpha
          m_max := fin 128, m_min := fin (-128), m_type := .LAB } := by
  simp [xyz_to_lab, xyz_to_lab_helper, lab_ctor_eq, xyz.x, xyz.y, xyz.z, at_index,
    reference_white_presets.E_2Degree, fin_div_fin]
  norm_num [fin_div_fin]

/-- `to_lab` on the XYZ object (0.5, 0.5, 0.5) passes the reference white on to `xyz_to_lab`. -/
theorem to_lab_half_E {α : Type} [LinearOrderedField α] [FloorRing α] (e : env α)
    (a : float α) (cs : Option ℕ) :
    to_lab e
        { cls := .xyz, m_component_vector := [fin 0.5, fin 0.5, fin 0.5]
          m_rgb_color_space := cs, m_alpha := a, m_max := pinf, m_min := ninf, m_type := .XYZ }
        reference_white_presets.E_2Degree
      = .ok (some
          { cls := .lab
            m_component_vector := [fin (24389 / 5400), fin 0, fin 0]
            m_rgb_color_space := e.default_color_space, m_alpha := e.default_alpha
            m_max := fin 128, m_min := fin (-128), m_type := .LAB }) := by
  simp only [to_lab, get_color_type, dynamic_cast, if_true, call]
  rw [xyz_to_lab_half_E e a cs]
  rfl

/-- `convertTo` on the XYZ object (0.5, 0.5, 0.5) with target LAB goes through `from_xyz`, which
calls `xyz_to_lab` with the default reference white whatever white was given. -/
theorem convertTo_half_E {α : Type} [LinearOrderedField α] [FloorRing α] (e : env α)
    (a : float α) (cs : Option ℕ) :
    convertTo e
        { cls := .xyz, m_component_vector := [fin 0.5, fin 0.5, fin 0.5]
          m_rgb_color_space := cs, m_alpha := a, m_max := pinf, m_min := ninf, m_type := .XYZ }
        .LAB reference_white_presets.E_2Degree
      = .ok (some
          { cls := .lab
            m_component_vector :=
              [fin (24389 / 5400), fin (130355 / 128304), fin (31117 / 48996)]
            m_rgb_color_space := e.default_color_space, m_alpha := e.default_alpha
            m_max := fin 128, m_min := fin (-128), m_type := .LAB }) := by
  simp only [convertTo, get_color_type, dynamic_cast, if_true, from_xyz, call,
    default_reference]
  rw [xyz_to_lab_half_D65 e a cs]
  rfl

end dispatch_facts

section conversion_facts
open float color_base color_converter

/-- The cast to `int` of a non-negative finite value whose floor fits in an `int`. -/
theorem to_int_of_floor {α : Type} [LinearOrderedField α] [FloorRing α] (a : α) (n : ℤ)
    (h0 : 0 ≤ a) (hf : ⌊a⌋ = n) (h1 : INT_MIN ≤ n) (h2 : n ≤ INT_MAX) :
    to_int (fin a) = n := by
  simp [to_int, h0, hf, h1, h2]

/-- The `hsl` constructor in closed form. -/
theorem hsl_ctor_eq {α : Type} [LinearOrderedField α] (h s l a : float α) (cs : Option ℕ) :
    hsl.ctor h s l a cs = .ok
      { cls := .hsl
        m_component_vector :=
          [clamp h (fin 360) (fin 0), clamp s (fin 1) (fin 0), clamp l (fin 1) (fin 0)]
        m_rgb_color_space := cs, m_alpha := a, m_max := fin 1, m_min := fin 0
        m_type := .HSL } := rfl

/-- The operator `!=` on finite values. -/
theorem ne_fin {α : Type} [LinearOrderedField α] (a b : α) :
    float.ne (fin a) (fin b) = !decide (a = b) := rfl

end conversion_facts

section rounding_facts
open float color_base color_converter

/-- Clamping into 0..1 always gives a finite value of that interval (a NaN becomes 1). -/
theorem clamp_unit {α : Type} [LinearOrderedField α] (x : float α) :
    ∃ v : α, clamp x (fin 1) (fin 0) = fin v ∧ 0 ≤ v ∧ v ≤ 1 := by
  have h := clamp_in_range x (fin (1 : α)) (fin 0) (by simp)
  cases hc : clamp x (fin (1 : α)) (fin 0) with
  | nan => rw [hc] at h; simp [float.le, float.lt, float.eq] at h
  | ninf => rw [hc] at h; simp [float.le, float.lt, float.eq] at h
  | pinf => rw [hc] at h; simp [float.le, float.lt, float.eq] at h
  | fin v =>
    rw [hc] at h
    simp only [le_fin, decide_eq_true_eq] at h
    exact ⟨v, rfl, h.1, h.2⟩

/-- Rounding a value of 0..1 to one decimal gives a tenth `n / 10` with `n` in 0..10, provided
`powf(10, 1)` is 10; the clamp of the setter leaves it alone. -/
theorem round_unit {α : Type} [LinearOrderedField α] [FloorRing α] (e : env α)
    (hpow : e.powf (fin 10) (fin 1) = fin 10) (v : α) (h0 : 0 ≤ v) (h1 : v ≤ 1) :
    ∃ n : ℤ, 0 ≤ n ∧ n ≤ 10
      ∧ clamp (round_float_to_n_decimals e (clamp_float (fin v) (fin 0) (fin 1)) (of_int 1))
          (fin 1) (fin 0) = fin ((n : α) / 10) := by
  have hn0 : 0 ≤ ⌊v * 10 + 0.5⌋ := Int.floor_nonneg.mpr (by positivity)
  have hn1 : ⌊v * 10 + 0.5⌋ < 11 := by
    rw [Int.floor_lt]
    push_cast
    norm_num
    linarith
  refine ⟨⌊v * 10 + 0.5⌋, hn0, by omega, ?_⟩
  have hcf : clamp_float (fin v) (fin 0) (fin 1) = fin v := by
    simp [clamp_float, max_eq_left h0, min_eq_left h1]
  have hti : to_int (fin (v * 10 + 0.5)) = ⌊v * 10 + 0.5⌋ :=
    to_int_of_floor _ _ (by positivity) rfl (by simp only [INT_MIN]; omega)
      (by simp only [INT_MAX]; omega)
  have h10 : (10 : α) ≠ 0 := by norm_num
  rw [hcf]
  simp only [round_float_to_n_decimals, of_int_eq, Int.cast_one, hpow, fin_mul_fin,
    fin_add_fin, hti, fin_div_fin_of_ne _ h10]
  apply clamp_fin_of_mem
  · apply div_nonneg _ (by norm_num)
    exact_mod_cast hn0
  · rw [div_le_one (by norm_num)]
    have : ⌊v * 10 + 0.5⌋ ≤ 10 := by omega
    exact_mod_cast this

/-- The result of `xyz_to_rgb_deep` channel by channel: the clamp of the setter, around the
rounding, around `clamp_float`, around the clamp of the constructor called by
`linear_srgb_deep_to_rgb_deep`. -/
theorem xyz_to_rgb_deep_eq {α : Type} [LinearOrderedField α] [FloorRing α] (e : env α)
    (c : color_base α) :
    ∃ x0 x1 x2 : float α,
      xyz_to_rgb_deep e c = .ok
        { cls := .rgb_deepcolor
          m_component_vector :=
            [clamp (round_float_to_n_decimals e
                (clamp_float (clamp x0 (fin 1) (fin 0)) (fin 0) (fin 1)) (of_int 1))
                (fin 1) (fin 0),
              clamp (round_float_to_n_decimals e
                (clamp_float (clamp x1 (fin 1) (fin 0)) (fin 0) (fin 1)) (of_int 1))
                (fin 1) (fin 0),
              clamp (round_float_to_n_decimals e
                (clamp_float (clamp x2 (fin 1) (fin 0)) (fin 0) (fin 1)) (of_int 1))
                (fin 1) (fin 0)]
          m_rgb_color_space := e.default_color_space, m_alpha := e.default_alpha
          m_max := fin 1, m_min := fin 0, m_type := .RGB_DEEP } :=
  ⟨_, _, _, rfl⟩

end rounding_facts

section matrix_facts
open float color_base color_converter

/-- The source function `rgb_deep_to_xyz` is `rgb_deep_to_xyz_with` at `rgb_to_xyz_matrix`. -/
theorem rgb_deep_to_xyz_eq_with {α : Type} [LinearOrderedField α] (e : env α)
    (color : color_base α) :
    rgb_deep_to_xyz e color = rgb_deep_to_xyz_with rgb_to_xyz_matrix e color := by
  simp [rgb_deep_to_xyz, rgb_deep_to_xyz_with, rgb_to_xyz_matrix]

/-- The source function `xyz_to_rgb_deep` is `xyz_to_rgb_deep_with` at `xyz_to_rgb_matrix`. -/
theorem xyz_to_rgb_deep_eq_with {α : Type} [LinearOrderedField α] [FloorRing α] (e : env α)
    (color : color_base α) :
    xyz_to_rgb_deep e color = xyz_to_rgb_deep_with xyz_to_rgb_matrix e color := by
  simp [xyz_to_rgb_deep, xyz_to_rgb_deep_with, xyz_to_rgb_matrix]

end matrix_facts

section grey_and_bytes
open float color_base color_converter

/-- The `grey_deepcolor` constructor in closed form. -/
theorem grey_deepcolor_ctor_eq {α : Type} [LinearOrderedField α] (v a : float α)
    (cs : Option ℕ) :
    grey_deepcolor.ctor v a cs = .ok
      { cls := .grey_deepcolor
        m_component_vector := [clamp v (fin 1) (fin 0)]
        m_rgb_color_space := cs, m_alpha := a, m_max := fin 1, m_min := fin 0
        m_type := .GREY_DEEP } := rfl

/-- An 8-bit code `n` divided by 255, multiplied by 255, rounded and cast to `unsigned char`
is `n` again. -/
theorem uchar_round_trip {α : Type} [LinearOrderedField α] [FloorRing α] (n : ℤ)
    (h0 : 0 ≤ n) (h1 : n ≤ 255) :
    (fin ((to_uchar (roundf (fin ((n : α) / 255) * fin ((255 : ℤ) : α))) : ℤ) : α) : float α)
      = fin (n : α) := by
  have hr0 : (0 : α) ≤ (n : α) / 255 := div_nonneg (by exact_mod_cast h0) (by norm_num)
  have hr1 : (n : α) / 255 ≤ 1 := by
    rw [div_le_one (by norm_num)]
    exact_mod_cast h1
  have hfl : ⌊(n : α) / 255 * 255 + 1 / 2⌋ = n := by
    rw [div_mul_cancel₀ _ (by norm_num : (255 : α) ≠ 0), Int.floor_eq_iff]
    constructor <;> norm_num
  have h := (to_uchar_roundf ((n : α) / 255) hr0 hr1).1
  simp only [of_int_eq] at h
  rw [h, hfl]

end grey_and_bytes

section hue_facts
open float color_base color_converter

/-- The function `rgb_deep_to_hsv` hands `rgb_deep_to_hsv_hue` to the `hsv` constructor. -/
theorem rgb_deep_to_hsv_eq_hue {α : Type} [LinearOrderedField α] [FloorRing α] (e : env α)
    (color : color_base α) :
    ∃ s v : float α,
      rgb_deep_to_hsv e color
        = hsv.ctor (of_int (rgb_deep_to_hsv_hue color)) s v e.default_alpha
            e.default_color_space := by
  unfold rgb_deep_to_hsv rgb_deep_to_hsv_hue
  simp only []
  split_ifs
  · exact ⟨fin 0, _, by rw [of_int_eq, Int.cast_zero]⟩
  · exact ⟨_, _, rfl⟩
  · exact ⟨_, _, rfl⟩
  · exact ⟨_, _, rfl⟩

/-- The cast to `int` of a negative finite value whose ceiling fits in an `int`. -/
theorem to_int_of_ceil {α : Type} [LinearOrderedField α] [FloorRing α] (a : α) (n : ℤ)
    (h0 : a < 0) (hc : ⌈a⌉ = n) (h1 : INT_MIN ≤ n) (h2 : n ≤ INT_MAX) :
    to_int (fin a) = n := by
  simp [to_int, not_le.mpr h0, hc, h1, h2]

/-- The cast to `int` on the interval from -1 to 1: it is -1 at -1, 1 at 1 and 0 in between. -/
theorem to_int_unit {α : Type} [LinearOrderedField α] [FloorRing α] (q : α)
    (h1 : -1 ≤ q) (h2 : q ≤ 1) :
    (q = -1 ∧ to_int (fin q) = -1) ∨ (-1 < q ∧ q < 1 ∧ to_int (fin q) = 0)
      ∨ (q = 1 ∧ to_int (fin q) = 1) := by
  rcases lt_or_le q 0 with hneg | hpos
  · rcases eq_or_lt_of_le h1 with heq | hlt
    · left
      refine ⟨heq.symm, to_int_of_ceil q (-1) hneg ?_ (by decide) (by decide)⟩
      rw [Int.ceil_eq_iff]
      constructor
      · push_cast; linarith
      · push_cast; linarith
    · right; left
      refine ⟨hlt, by linarith, to_int_of_ceil q 0 hneg ?_ (by decide) (by decide)⟩
      rw [Int.ceil_eq_iff]
      constructor
      · push_cast; linarith
      · push_cast; linarith
  · rcases eq_or_lt_of_le h2 with heq | hlt
    · right; right
      refine ⟨heq, to_int_of_floor q 1 hpos ?_ (by decide) (by decide)⟩
      rw [Int.floor_eq_iff]
      constructor
      · push_cast; linarith
      · push_cast; linarith
    · right; left
      refine ⟨by linarith, hlt, to_int_of_floor q 0 hpos ?_ (by decide) (by decide)⟩
      rw [Int.floor_eq_iff]
      constructor
      · push_cast; linarith
      · push_cast; linarith

/-- The cast to `int` of a value between two small non-negative integers lies between them. -/
theorem to_int_between {α : Type} [LinearOrderedField α] [FloorRing α] (x : α) (lo hi : ℤ)
    (hlo : 0 ≤ lo) (hhi : hi ≤ 6) (h1 : (lo : α) ≤ x) (h2 : x < (hi : α) + 1) :
    lo ≤ to_int (fin x) ∧ to_int (fin x) ≤ hi := by
  have hx0 : (0 : α) ≤ x := le_trans (by exact_mod_cast hlo) h1
  have ha : lo ≤ ⌊x⌋ := Int.le_floor.mpr h1
  have hb : ⌊x⌋ ≤ hi := by
    have : ⌊x⌋ < hi + 1 := Int.floor_lt.mpr (by push_cast; exact h2)
    omega
  rw [to_int_of_floor x ⌊x⌋ hx0 rfl (by simp only [INT_MIN]; omega)
    (by simp only [INT_MAX]; omega)]
  exact ⟨ha, hb⟩

/-- The values of `rgb_deep_to_hsv_hue` on an RGB_deep object with finite components, branch
by branch. -/
theorem rgb_deep_to_hsv_hue_cases {α : Type} [LinearOrderedField α] [FloorRing α]
    (a : float α) (cs : Option ℕ) (r g b : α) :
    let hue := rgb_deep_to_hsv_hue
      ({ cls := .rgb_deepcolor, m_component_vector := [fin r, fin g, fin b]
         m_rgb_color_space := cs, m_alpha := a, m_max := fin 1, m_min := fin 0
         m_type := .RGB_DEEP } : color_base α)
    (hue = -60 ∨ hue = 0 ∨ hue = 60 ∨ hue = 120 ∨ hue = 180 ∨ hue = 240)
      ∧ (hue = -60 ↔ (max (max r g) b ≠ min (min r g) b ∧ r = max (max r g) b
          ∧ b - g = max (max r g) b - min (min r g) b)) := by
  intro hue
  have hrM : r ≤ max (max r g) b := le_trans (le_max_left r g) (le_max_left _ b)
  have hgM : g ≤ max (max r g) b := le_trans (le_max_right r g) (le_max_left _ b)
  have hbM : b ≤ max (max r g) b := le_max_right _ b
  have hrm : min (min r g) b ≤ r := le_trans (min_le_left _ b) (min_le_left r g)
  have hgm : min (min r g) b ≤ g := le_trans (min_le_left _ b) (min_le_right r g)
  have hbm : min (min r g) b ≤ b := min_le_right _ b
  have hMcases : max (max r g) b = r ∨ max (max r g) b = g ∨ max (max r g) b = b := by
    rcases max_choice (max r g) b with h | h
    · rcases max_choice r g with h2 | h2
      · left; rw [h, h2]
      · right; left; rw [h, h2]
    · right; right; exact h
  have hhue : hue = if max (max r g) b = min (min r g) b then 0
      else if max (max r g) b = r then
        60 * (to_int (fin ((g - b) / (max (max r g) b - min (min r g) b)) : float α)).tmod 6
      else if max (max r g) b = g then
        60 * to_int (fin ((b - r) / (max (max r g) b - min (min r g) b) + 2) : float α)
      else 60 * to_int (fin ((r - g) / (max (max r g) b - min (min r g) b) + 4) : float α) := by
    by_cases hd : max (max r g) b = min (min r g) b
    · simp [hue, rgb_deep_to_hsv_hue, rgb_deepcolor.red, rgb_deepcolor.green,
        rgb_deepcolor.blue, at_index, hd]
    · have hne : max (max r g) b - min (min r g) b ≠ 0 := sub_ne_zero.mpr hd
      simp [hue, rgb_deep_to_hsv_hue, rgb_deepcolor.red, rgb_deepcolor.green,
        rgb_deepcolor.blue, at_index, hd, fin_div_fin_of_ne _ hne]
  generalize max (max r g) b = M at *
  generalize min (min r g) b = m at *
  rw [hhue]
  by_cases hd : M = m
  · simp [hd]
  · have hpos : 0 < M - m := by
      have : m ≤ M := le_trans hrm hrM
      exact sub_pos.mpr (lt_of_le_of_ne this (Ne.symm hd))
    simp only [hd, if_false]
    by_cases hr : M = r
    · simp only [hr, if_true]
      subst hr
      have q1 : -1 ≤ (g - b) / (M - m) := by
        rw [le_div_iff₀ hpos]; linarith
      have q2 : (g - b) / (M - m) ≤ 1 := by
        rw [div_le_iff₀ hpos]; linarith
      have hq : ∀ t : α, (g - b) / (M - m) = t ↔ g - b = t * (M - m) :=
        fun t => div_eq_iff (ne_of_gt hpos)
      rcases to_int_unit _ q1 q2 with ⟨he, ht⟩ | ⟨hl, hu, ht⟩ | ⟨he, ht⟩
      · rw [ht]
        have hbg : b - g = M - m := by
          have := (hq (-1)).mp he
          linarith
        refine ⟨Or.inl rfl, ?_⟩
        constructor
        · intro _
          exact ⟨hd, trivial, hbg⟩
        · intro _
          rfl
      · rw [ht]
        refine ⟨Or.inr (Or.inl rfl), ?_⟩
        constructor
        · intro h
          exact absurd h (by decide)
        · rintro ⟨_, _, hbg⟩
          exfalso
          have : (g - b) / (M - m) = -1 := (hq (-1)).mpr (by linarith)
          linarith
      · rw [ht]
        refine ⟨Or.inr (Or.inr (Or.inl rfl)), ?_⟩
        constructor
        · intro h
          exact absurd h (by decide)
        · rintro ⟨_, _, hbg⟩
          exfalso
          have := (hq 1).mp he
          linarith
    · simp only [hr, if_false]
      have hrlt : r < M := lt_of_le_of_ne hrM (Ne.symm hr)
      have hno : ¬ (M ≠ m ∧ r = M ∧ b - g = M - m) := fun h => hr h.2.1.symm
      by_cases hg : M = g
      · simp only [hg, if_true]
        subst hg
        have x1 : ((1 : ℤ) : α) ≤ (b - r) / (M - m) + 2 := by
          have : -1 ≤ (b - r) / (M - m) := by
            rw [le_div_iff₀ hpos]; linarith
          push_cast; linarith
        have x2 : (b - r) / (M - m) + 2 < ((3 : ℤ) : α) + 1 := by
          have : (b - r) / (M - m) ≤ 1 := by
            rw [div_le_iff₀ hpos]; linarith
          push_cast; linarith
        obtain ⟨n1, n2⟩ := to_int_between _ 1 3 (by decide) (by decide) x1 x2
        constructor
        · omega
        · constructor
          · intro h; omega
          · intro h; exact absurd h hno
      · simp only [hg, if_false]
        have hb : M = b := by
          rcases hMcases with h | h | h
          · exact absurd h hr
          · exact absurd h hg
          · exact h
        subst hb
        have hglt : g < M := lt_of_le_of_ne hgM (Ne.symm hg)
        have x1 : ((3 : ℤ) : α) ≤ (r - g) / (M - m) + 4 := by
          have : -1 ≤ (r - g) / (M - m) := by
            rw [le_div_iff₀ hpos]; linarith
          push_cast; linarith
        have x2 : (r - g) / (M - m) + 4 < ((4 : ℤ) : α) + 1 := by
          have : (r - g) / (M - m) < 1 := by
            rw [div_lt_iff₀ hpos]; linarith
          push_cast; linarith
        obtain ⟨n1, n2⟩ := to_int_between _ 3 4 (by decide) (by decide) x1 x2
        constructor
        · omega
        · constructor
          · intro h; omega
          · intro h; exact absurd h hno

end hue_facts

section companding_facts
open float color_base color_converter

/-- The function `rgb_deep_to_linear_srgb_deep` applies its loop body to the three channels. -/
theorem rgb_deep_to_linear_srgb_deep_eq_channel {α : Type} [LinearOrderedField α] (e : env α)
    (color : color_base α) :
    rgb_deep_to_linear_srgb_deep e color
      = rgb_deepcolor.ctor (rgb_deep_to_linear_srgb_deep_channel e (rgb_deepcolor.red color))
          (rgb_deep_to_linear_srgb_deep_channel e (rgb_deepcolor.green color))
          (rgb_deep_to_linear_srgb_deep_channel e (rgb_deepcolor.blue color))
          color.alpha e.default_color_space := rfl

/-- The function `linear_srgb_deep_to_rgb_deep` applies its loop body to the three channels. -/
theorem linear_srgb_deep_to_rgb_deep_eq_channel {α : Type} [LinearOrderedField α] (e : env α)
    (color : color_base α) :
    linear_srgb_deep_to_rgb_deep e color
      = rgb_deepcolor.ctor (linear_srgb_deep_to_rgb_deep_channel e (rgb_deepcolor.red color))
          (linear_srgb_deep_to_rgb_deep_channel e (rgb_deepcolor.green color))
          (linear_srgb_deep_to_rgb_deep_channel e (rgb_deepcolor.blue color))
          color.alpha e.default_color_space := rfl

/-- Linearising 0 gives 0. -/
theorem linearise_zero {α : Type} [LinearOrderedField α] (e : env α) :
    rgb_deep_to_linear_srgb_deep_channel e (fin 0) = fin 0 := by
  simp [rgb_deep_to_linear_srgb_deep_channel, fin_div_fin]
  norm_num

/-- Linearising 1 gives `powf(1, 2.4)`, which is 1. -/
theorem linearise_one {α : Type} [LinearOrderedField α] (e : env α)
    (hone : ∀ b : α, e.powf (fin 1) (fin b) = fin 1) :
    rgb_deep_to_linear_srgb_deep_channel e (fin 1) = fin 1 := by
  have h1 : ¬ ((1 : α) ≤ 0.04045) := by norm_num
  have h2 : ((1 : α) + 0.055) / 1.055 = 1 := by norm_num
  simp [rgb_deep_to_linear_srgb_deep_channel, fin_div_fin, h1]
  norm_num [hone]

/-- Above the threshold the encoding is `powf(c * 1.055, 1/2.4) - 0.055`. -/
theorem delinearise_power {α : Type} [LinearOrderedField α] (e : env α) (c v : α)
    (hc : 0.0031308 < c) (hv : e.powf (fin (c * 1.055)) (fin (1 / 2.4)) = fin v) :
    linear_srgb_deep_to_rgb_deep_channel e (fin c) = fin (v - 0.055) := by
  have h1 : ¬ (c ≤ 0.0031308) := not_le.mpr hc
  have h2 : (fin 1 / fin 2.4 : float α) = fin (1 / 2.4) :=
    fin_div_fin_of_ne _ (by norm_num)
  simp only [linear_srgb_deep_to_rgb_deep_channel, le_fin, h1, decide_False, N_ROOT,
    fin_mul_fin, h2, hv, fin_sub_fin]
  rfl

/-- Encoding 0 gives 0. -/
theorem delinearise_zero {α : Type} [LinearOrderedField α] (e : env α) :
    linear_srgb_deep_to_rgb_deep_channel e (fin 0) = fin 0 := by
  simp [linear_srgb_deep_to_rgb_deep_channel]
  norm_num

/-- The real power function: `1 ^ b = 1`. -/
theorem real_powf_one (b : ℝ) : (env_of Real.rpow).powf (fin 1) (fin b) = fin 1 := by
  simp [env_of]

/-- The real power function: `x ^ p` lies strictly between 1 and `x` for `x > 1` and `0 < p < 1`. -/
theorem real_powf_above (x p : ℝ) (hx : 1 < x) (hp0 : 0 < p) (hp1 : p < 1) :
    ∃ v : ℝ, (env_of Real.rpow).powf (fin x) (fin p) = fin v ∧ 1 < v ∧ v < x := by
  refine ⟨x ^ p, rfl, Real.one_lt_rpow hx hp0, ?_⟩
  have := Real.rpow_lt_rpow_of_exponent_lt hx hp1
  rwa [Real.rpow_one] at this

/-- The real power function: `x ^ p` lies between `x` and 1 for `0 < x ≤ 1` and `0 < p ≤ 1`. -/
theorem real_powf_below (x p : ℝ) (hx0 : 0 < x) (hx1 : x ≤ 1) (hp0 : 0 < p) (hp1 : p ≤ 1) :
    ∃ v : ℝ, (env_of Real.rpow).powf (fin x) (fin p) = fin v ∧ x ≤ v ∧ v ≤ 1 := by
  refine ⟨x ^ p, rfl, ?_, Real.rpow_le_one hx0.le hx1 hp0.le⟩
  have := Real.rpow_le_rpow_of_exponent_ge hx0 hx1 hp1
  rwa [Real.rpow_one] at this

/-- The real power function: `10 ^ 1 = 10`. -/
theorem real_powf_ten : (env_of Real.rpow).powf (fin 10) (fin 1) = fin 10 := by
  simp [env_of]

end companding_facts

section xyz_round_trip_facts
open float color_base color_converter

/-- The result of `xyz_to_rgb_deep` on an XYZ object, channel by channel. -/
theorem xyz_to_rgb_deep_closed {α : Type} [LinearOrderedField α] [FloorRing α] (e : env α)
    (X Y Z a mx mn : float α) (cs : Option ℕ) :
    xyz_to_rgb_deep e
        { cls := .xyz, m_component_vector := [X, Y, Z], m_rgb_color_space := cs
          m_alpha := a, m_max := mx, m_min := mn, m_type := .XYZ }
      = .ok
        { cls := .rgb_deepcolor
          m_component_vector :=
            [clamp (round_float_to_n_decimals e
                (clamp_float (clamp (linear_srgb_deep_to_rgb_deep_channel e
                  (clamp (X / fin 100 * fin 3.2404542 + Y / fin 100 * fin (-1.5371385)
                    + Z / fin 100 * fin 0.4985314) (fin 1) (fin 0))) (fin 1) (fin 0))
                  (fin 0) (fin 1)) (of_int 1)) (fin 1) (fin 0),
              clamp (round_float_to_n_decimals e
                (clamp_float (clamp (linear_srgb_deep_to_rgb_deep_channel e
                  (clamp (X / fin 100 * fin (-0.9692660) + Y / fin 100 * fin 1.8760108
                    + Z / fin 100 * fin 0.0415560) (fin 1) (fin 0))) (fin 1) (fin 0))
                  (fin 0) (fin 1)) (of_int 1)) (fin 1) (fin 0),
              clamp (round_float_to_n_decimals e
                (clamp_float (clamp (linear_srgb_deep_to_rgb_deep_channel e
                  (clamp (X / fin 100 * fin 0.0556434 + Y / fin 100 * fin (-0.2040259)
                    + Z / fin 100 * fin 1.0572252) (fin 1) (fin 0))) (fin 1) (fin 0))
                  (fin 0) (fin 1)) (of_int 1)) (fin 1) (fin 0)]
          m_rgb_color_space := e.default_color_space, m_alpha := e.default_alpha
          m_max := fin 1, m_min := fin 0, m_type := .RGB_DEEP } := rfl

/-- Rounding a value `v` of 0..1 to one decimal gives `n / 10` when `n ≤ 10 v + 0.5 < n + 1`. -/
theorem round_tenth {α : Type} [LinearOrderedField α] [FloorRing α] (e : env α)
    (hten : e.powf (fin 10) (fin 1) = fin 10) (v : α) (n : ℤ) (h0 : 0 ≤ v) (h1 : v ≤ 1)
    (hn0 : 0 ≤ n) (hn1 : n ≤ 10) (hlo : (n : α) ≤ v * 10 + 0.5)
    (hhi : v * 10 + 0.5 < (n : α) + 1) :
    clamp (round_float_to_n_decimals e (clamp_float (clamp (fin v) (fin 1) (fin 0))
        (fin 0) (fin 1)) (of_int 1)) (fin 1) (fin 0) = fin ((n : α) / 10) := by
  have hfl : ⌊v * 10 + 0.5⌋ = n := by
    rw [Int.floor_eq_iff]
    exact ⟨hlo, hhi⟩
  have hcf : clamp_float (fin v) (fin 0) (fin 1) = fin v := by
    simp [clamp_float, max_eq_left h0, min_eq_left h1]
  have hti : to_int (fin (v * 10 + 0.5)) = n :=
    to_int_of_floor _ _ (by positivity) hfl (by simp only [INT_MIN]; omega)
      (by simp only [INT_MAX]; omega)
  have h10 : (10 : α) ≠ 0 := by norm_num
  rw [clamp_fin_of_mem h0 h1, hcf]
  simp only [round_float_to_n_decimals, of_int_eq, Int.cast_one, hten, fin_mul_fin,
    fin_add_fin, hti, fin_div_fin_of_ne _ h10]
  apply clamp_fin_of_mem
  · apply div_nonneg _ (by norm_num)
    exact_mod_cast hn0
  · rw [div_le_one (by norm_num)]
    exact_mod_cast hn1

/-- The function `rgb_deep_to_xyz` on pure blue: the third column of its matrix, times 100. -/
theorem rgb_deep_to_xyz_blue {α : Type} [LinearOrderedField α] (e : env α)
    (hone : ∀ b : α, e.powf (fin 1) (fin b) = fin 1) (a : float α) (cs : Option ℕ) :
    (rgb_deepcolor.ctor (fin 0) (fin 0) (fin 1) a cs >>= rgb_deep_to_xyz e)
      = .ok
        { cls := .xyz, m_component_vector := [fin 18.04375, fin 7.2175, fin 95.03041]
          m_rgb_color_space := e.default_color_space, m_alpha := e.default_alpha
          m_max := pinf, m_min := ninf, m_type := .XYZ } := by
  have c0 : clamp (fin (0 : α)) (fin 1) (fin 0) = fin 0 :=
    clamp_fin_of_mem (by norm_num) (by norm_num)
  have c1 : clamp (fin (1 : α)) (fin 1) (fin 0) = fin 1 :=
    clamp_fin_of_mem (by norm_num) (by norm_num)
  rw [rgb_deepcolor_ctor_eq, c0, c1]
  simp only [ok_bind, rgb_deep_to_xyz, rgb_deep_to_linear_srgb_deep_eq_channel,
    rgb_deepcolor.red, rgb_deepcolor.green, rgb_deepcolor.blue, at_index,
    List.getD_cons_zero, List.getD_cons_succ, linearise_zero, linearise_one e hone,
    rgb_deepcolor_ctor_eq, c0, c1, bind, Except.bind, fin_mul_fin, fin_add_fin, xyz_ctor_eq,
    clamp_unbounded]
  norm_num

end xyz_round_trip_facts

section lab_inverse_facts
open float color_base color_converter

/-- The two modes of `lab_to_xyz_helper` undo `xyz_to_lab_helper` on a non-negative ratio `t`:
the plain mode applied to `f = xyz_to_lab_helper t`, and the Y mode applied to
`L = 116 f - 16`, both return `t`. -/
theorem lab_helpers_inverse {α : Type} [LinearOrderedField α] (e : env α)
    (hcbrt : ∀ x : α, 0 < x → ∃ r : α, 0 < r ∧ r ^ 3 = x ∧ e.powf (fin x) (fin (1 / 3)) = fin r)
    (hcube : ∀ x : α, e.powf (fin x) (fin 3) = fin (x ^ 3)) (t : α) (ht : 0 ≤ t) :
    ∃ f : α, xyz_to_lab_helper e (fin t) = fin f
      ∧ lab_to_xyz_helper e (fin f) false = fin t
      ∧ lab_to_xyz_helper e (fin (116 * f - 16)) true = fin t := by
  have h27 : (27 : α) ≠ 0 := by norm_num
  have h24389 : (24389 : α) ≠ 0 := by norm_num
  have h116 : (116 : α) ≠ 0 := by norm_num
  have hk : (24389 : α) / 27 ≠ 0 := by norm_num
  have hek : (216 : α) / 24389 * (24389 / 27) = 8 := by norm_num
  rcases lt_or_le ((216 : α) / 24389) t with hgt | hle
  · obtain ⟨r, hr0, hr3, hr⟩ := xyz_to_lab_helper_cube_root e hcbrt t hgt
    have hrlo : (6 : α) / 29 < r := by
      apply lt_of_cube_lt hr0.le
      rw [hr3]
      calc ((6 : α) / 29) ^ 3 = 216 / 24389 := by norm_num
        _ < t := hgt
    refine ⟨r, hr, ?_, ?_⟩
    · simp only [lab_to_xyz_helper, hcube, hr3, fin_div_fin_of_ne _ h24389, gt_fin, hgt,
        decide_True, if_true, Bool.false_eq_true, if_false]
    · have h8 : (8 : α) < 116 * r - 16 := by
        have : (116 : α) * (6 / 29) = 24 := by norm_num
        nlinarith
      have hback : (116 * r - 16 + 16) / 116 = r := by field_simp
      simp only [lab_to_xyz_helper, fin_div_fin_of_ne _ h24389, fin_div_fin_of_ne _ h27,
        fin_mul_fin, hek, gt_fin, h8, decide_True, if_true, fin_add_fin,
        fin_div_fin_of_ne _ h116, hback, hcube, hr3]
  · have hf : xyz_to_lab_helper e (fin t) = fin ((24389 / 27 * t + 16) / 116) := by
      simp only [xyz_to_lab_helper, fin_div_fin_of_ne _ h24389, fin_div_fin_of_ne _ h27,
        gt_fin, not_lt.mpr hle, decide_False, fin_mul_fin, fin_add_fin,
        fin_div_fin_of_ne _ h116]
      rfl
    have hf0 : (0 : α) ≤ (24389 / 27 * t + 16) / 116 := by positivity
    have hf1 : (24389 / 27 * t + 16) / 116 ≤ (6 : α) / 29 := by
      rw [div_le_iff₀ (by norm_num)]
      have : (24389 : α) / 27 * t ≤ 24389 / 27 * (216 / 24389) :=
        mul_le_mul_of_nonneg_left hle (by norm_num)
      have h2 : (24389 : α) / 27 * (216 / 24389) = 8 := by norm_num
      have h3 : (6 : α) / 29 * 116 = 24 := by norm_num
      linarith
    have hf3 : ¬ ((216 : α) / 24389 < ((24389 / 27 * t + 16) / 116) ^ 3) := by
      rw [not_lt]
      calc ((24389 / 27 * t + 16) / 116) ^ 3 ≤ ((6 : α) / 29) ^ 3 :=
            pow_le_pow_left₀ hf0 hf1 3
        _ = 216 / 24389 := by norm_num
    have hl : 116 * ((24389 / 27 * t + 16) / 116) - 16 = 24389 / 27 * t := by
      field_simp
      ring
    have hl8 : ¬ ((8 : α) < 24389 / 27 * t) := by
      rw [not_lt]
      have : (24389 : α) / 27 * t ≤ 24389 / 27 * (216 / 24389) :=
        mul_le_mul_of_nonneg_left hle (by norm_num)
      have h2 : (24389 : α) / 27 * (216 / 24389) = 8 := by norm_num
      linarith
    have hdiv : 24389 / 27 * t / (24389 / 27) = t := by field_simp
    refine ⟨_, hf, ?_, ?_⟩
    · simp only [lab_to_xyz_helper, hcube, fin_div_fin_of_ne _ h24389,
        fin_div_fin_of_ne _ h27, gt_fin, hf3, decide_False, Bool.false_eq_true, if_false,
        fin_mul_fin, fin_sub_fin, hl, fin_div_fin_of_ne _ hk, hdiv]
    · simp only [lab_to_xyz_helper, fin_div_fin_of_ne _ h24389, fin_div_fin_of_ne _ h27,
        fin_mul_fin, hek, hl, gt_fin, hl8, decide_False, if_true, Bool.false_eq_true,
        if_false, fin_div_fin_of_ne _ hk, hdiv]

/-- The real power function: `x ^ 3` with the exponent 3 as a real number. -/
theorem real_powf_cube (x : ℝ) : (env_of Real.rpow).powf (fin x) (fin 3) = fin (x ^ 3) := by
  have h : Real.rpow x 3 = x ^ 3 := by
    have := Real.rpow_natCast x 3
    simpa using this
  simp only [env_of, h]

/-- With the real power function `xyz_to_lab_helper` is 1 at the ratio `x / x`. -/
theorem real_helper_white (x : ℝ) (hx : 0 < x) :
    xyz_to_lab_helper (env_of Real.rpow) (fin x / fin x) = fin 1 := by
  have h3 : (216 : ℝ) / 24389 < 1 := by norm_num
  rw [fin_div_fin_of_ne _ (ne_of_gt hx), div_self (ne_of_gt hx)]
  simp [xyz_to_lab_helper, N_ROOT, env_of, fin_div_fin, h3]

/-- At the reference white the Lab values are L = 100, a = 0, b = 0, inside the ranges of
the `lab` constructor. -/
theorem lab_white_unclamped (x y z : ℝ) (hx : 0 < x) (hy : 0 < y) (hz : 0 < z) :
    clamp (fin 116 * xyz_to_lab_helper (env_of Real.rpow) (fin y / fin y) - fin 16)
        (fin 100) (fin 0)
      = fin 116 * xyz_to_lab_helper (env_of Real.rpow) (fin y / fin y) - fin 16
    ∧ clamp (fin 500 * (xyz_to_lab_helper (env_of Real.rpow) (fin x / fin x)
          - xyz_to_lab_helper (env_of Real.rpow) (fin y / fin y))) (fin 128) (fin (-128))
      = fin 500 * (xyz_to_lab_helper (env_of Real.rpow) (fin x / fin x)
          - xyz_to_lab_helper (env_of Real.rpow) (fin y / fin y))
    ∧ clamp (fin 200 * (xyz_to_lab_helper (env_of Real.rpow) (fin y / fin y)
          - xyz_to_lab_helper (env_of Real.rpow) (fin z / fin z))) (fin 128) (fin (-128))
      = fin 200 * (xyz_to_lab_helper (env_of Real.rpow) (fin y / fin y)
          - xyz_to_lab_helper (env_of Real.rpow) (fin z / fin z)) := by
  rw [real_helper_white x hx, real_helper_white y hy, real_helper_white z hz]
  simp only [fin_mul_fin, fin_sub_fin]
  refine ⟨clamp_fin_of_mem ?_ ?_, clamp_fin_of_mem ?_ ?_, clamp_fin_of_mem ?_ ?_⟩ <;> norm_num

end lab_inverse_facts

section clamp_pins
open float color_base color_converter

/-- A value that lies within the bounds is its own clamp. -/
theorem clamp_of_in_range {α : Type} [LinearOrderedField α] (x mx mn : float α)
    (h1 : float.le mn x = true) (h2 : float.le x mx = true) : clamp x mx mn = x := by
  cases x <;> cases mx <;> cases mn <;>
    simp_all [clamp, fminf, fmaxf, float.le, float.lt, float.eq]
  · have hb := not_lt.mpr (le_of_lt_or_eq h2)
    simp [hb]
  · have hb := not_lt.mpr (le_of_lt_or_eq h2)
    have ha := not_lt.mpr (le_of_lt_or_eq h1)
    simp [hb, ha]
  · intro h
    exact absurd h (not_lt.mpr (le_of_lt_or_eq h1))

/-- The clamp of a value that is not NaN, the bounds being ordered: the lower bound below it,
the upper bound above it, the value itself in between. -/
theorem clamp_cases {α : Type} [LinearOrderedField α] (x mx mn : float α)
    (hb : float.le mn mx = true) (hx : x ≠ nan) :
    clamp x mx mn
      = if float.lt x mn = true then mn else if float.lt mx x = true then mx else x := by
  cases x <;> cases mx <;> cases mn <;>
    simp_all [clamp, fminf, fmaxf, float.le, float.lt, float.eq]
  · rename_i a b
    by_cases h : b < a <;> simp [h]
  · rename_i a b c
    have hcb : c ≤ b := le_of_lt_or_eq hb
    by_cases h1 : b < a
    · have h2 : ¬ a < c := not_lt.mpr (le_trans hcb (le_of_lt h1))
      simp only [h1, h2, if_true, if_false]
      by_cases h3 : b < c
      · exact absurd h3 (not_lt.mpr hcb)
      · simp [h3]
    · simp only [h1, if_false]
      by_cases h2 : a < c <;> simp [h2]
  · rename_i a b
    intro h
    exact absurd h (not_lt.mpr (le_of_lt_or_eq hb))

/-- The clamp of NaN, the bounds being ordered, is the upper bound: `fminf(NaN, max)` is
`max`. -/
theorem clamp_nan_ordered {α : Type} [LinearOrderedField α] (mx mn : float α)
    (hb : float.le mn mx = true) : clamp nan mx mn = mx := by
  cases mx <;> cases mn <;> simp_all [clamp, fminf, fmaxf, float.le, float.lt, float.eq]
  rename_i a b
  intro h
  exact absurd h (not_lt.mpr (le_of_lt_or_eq hb))

/-- The product `0 * inf` is NaN. -/
theorem zero_mul_pinf {α : Type} [LinearOrderedField α] : (fin 0 * pinf : float α) = nan := by
  show float.mul (fin 0) pinf = nan
  simp [float.mul, scale_inf]

/-- The CMYK colour (0, 0, 0, 0) with alpha +inf after `alpha_multiply`: every component is NaN. -/
theorem nan_cmyk_colour {α : Type} [LinearOrderedField α] :
    alpha_multiply
        ({ cls := .cmyk
           m_component_vector :=
             [clamp (fin 0) (fin 1) (fin 0), clamp (fin 0) (fin 1) (fin 0),
               clamp (fin 0) (fin 1) (fin 0), clamp (fin 0) (fin 1) (fin 0)]
           m_rgb_color_space := none, m_alpha := pinf, m_max := fin 1, m_min := fin 0
           m_type := .CMYK } : color_base α)
      = { cls := .cmyk, m_component_vector := [nan, nan, nan, nan]
          m_rgb_color_space := none, m_alpha := pinf, m_max := fin 1, m_min := fin 0
          m_type := .CMYK } := by
  simp [alpha_multiply, zero_mul_pinf]

end clamp_pins

section binary32_facts
open float color_base color_converter

/-- A value within less than 1/2 of an integer rounds to it. -/
theorem round_ties_even_near {α : Type} [LinearOrderedField α] [FloorRing α] (t : α) (n : ℤ)
    (h1 : (n : α) - 1 / 2 < t) (h2 : t < (n : α) + 1 / 2) : round_ties_even t = n := by
  unfold round_ties_even
  rcases lt_or_le t (n : α) with hlt | hge
  · have hf : ⌊t⌋ = n - 1 := by
      rw [Int.floor_eq_iff]
      push_cast
      constructor <;> linarith
    have hc : ¬ (t - ((n - 1 : ℤ) : α) < 1 / 2) := by
      push_cast
      intro h
      linarith
    have hd : (1 : α) / 2 < t - ((n - 1 : ℤ) : α) := by
      push_cast
      linarith
    rw [hf, if_neg hc, if_pos hd]
    omega
  · have hf : ⌊t⌋ = n := by
      rw [Int.floor_eq_iff]
      constructor <;> linarith
    have hc : t - (n : α) < 1 / 2 := by linarith
    rw [hf, if_pos hc]

/-- A value halfway above an even integer rounds down to it. -/
theorem round_ties_even_half {α : Type} [LinearOrderedField α] [FloorRing α] (t : α) (f : ℤ)
    (h : t = (f : α) + 1 / 2) (heven : f % 2 = 0) : round_ties_even t = f := by
  unfold round_ties_even
  have hf : ⌊t⌋ = f := by
    rw [Int.floor_eq_iff, h]
    constructor <;> norm_num
  have hfrac : t - (f : α) = 1 / 2 := by rw [h]; ring
  rw [hf, hfrac, if_neg (lt_irrefl _), if_neg (lt_irrefl _), if_pos heven]

/-- The binary32 rounding of a positive number from its binade and the rounding of its
significand. -/
theorem to_binary32_eq {α : Type} [LinearOrderedField α] [FloorRing α] (a : α) (e n : ℤ)
    (ha : 0 < a) (h1 : (2 : α) ^ e ≤ a) (h2 : a < (2 : α) ^ (e + 1)) (he : -126 ≤ e)
    (hn : round_ties_even (a / (2 : α) ^ (e - 23)) = n) (hn0 : 0 ≤ n)
    (hfin : (n : α) * (2 : α) ^ (e - 23) < (2 : α) ^ (128 : ℤ)) :
    to_binary32 a = fin ((n : α) * (2 : α) ^ (e - 23)) := by
  have hlog : Int.log 2 |a| = e := by
    rw [abs_of_pos ha]
    have hb : 1 < 2 := by norm_num
    have ha1 : e ≤ Int.log 2 a := by
      rw [← Int.zpow_le_iff_le_log hb ha]
      exact_mod_cast h1
    have ha2 : Int.log 2 a < e + 1 := by
      rw [← Int.lt_zpow_iff_log_lt hb ha]
      exact_mod_cast h2
    omega
  have hr0 : (0 : α) ≤ (n : α) * (2 : α) ^ (e - 23) :=
    mul_nonneg (by exact_mod_cast hn0) (zpow_nonneg (by norm_num) _)
  simp only [to_binary32, ne_of_gt ha, if_false, hlog, max_eq_left he, hn, abs_of_nonneg hr0,
    not_le.mpr hfin]

/-- The rounding of a finite result. -/
theorem round32_fin {α : Type} [LinearOrderedField α] [FloorRing α] (a : α) :
    round32 (fin a) = to_binary32 a := rfl

/-- The rounding of NaN. -/
theorem round32_nan {α : Type} [LinearOrderedField α] [FloorRing α] :
    round32 (nan : float α) = nan := rfl

/-- Zero is a binary32 number. -/
theorem to_binary32_zero {α : Type} [LinearOrderedField α] [FloorRing α] :
    to_binary32 (0 : α) = fin 0 := by
  simp [to_binary32]

/-- With no rounding `rgb_deep_to_cmyk_rounded` is `rgb_deep_to_cmyk`. -/
theorem rgb_deep_to_cmyk_rounded_id {α : Type} [LinearOrderedField α] (e : env α)
    (color : color_base α) :
    rgb_deep_to_cmyk_rounded id e color = rgb_deep_to_cmyk e color := rfl

/-- With no rounding `rgb_deep_to_grey_deep_rounded` is `rgb_deep_to_grey_deep`. -/
theorem rgb_deep_to_grey_deep_rounded_id {α : Type} [LinearOrderedField α] (e : env α)
    (color : color_base α) :
    rgb_deep_to_grey_deep_rounded id e color = rgb_deep_to_grey_deep e color := rfl

/-- With no rounding `rgb_deep_to_hsv_hue_rounded` is `rgb_deep_to_hsv_hue`. -/
theorem rgb_deep_to_hsv_hue_rounded_id {α : Type} [LinearOrderedField α] [FloorRing α]
    (color : color_base α) :
    rgb_deep_to_hsv_hue_rounded id color = rgb_deep_to_hsv_hue color := rfl

/-- One is a binary32 number. -/
theorem to_binary32_one {α : Type} [LinearOrderedField α] [FloorRing α] :
    to_binary32 (1 : α) = fin 1 := by
  have h := to_binary32_eq (1 : α) 0 8388608 (by norm_num) (by norm_num) (by norm_num)
    (by norm_num) (round_ties_even_near _ _ (by norm_num) (by norm_num)) (by norm_num)
    (by norm_num)
  rw [h]
  norm_num

/-- In binary32 `1 - 2^-26` rounds to 1: the spacing below 1 is `2^-24`. -/
theorem to_binary32_below_one {α : Type} [LinearOrderedField α] [FloorRing α] :
    to_binary32 (1 - 1 / 2 ^ 26 : α) = fin 1 := by
  have h := to_binary32_eq (1 - 1 / 2 ^ 26 : α) (-1) 16777216 (by norm_num) (by norm_num)
    (by norm_num) (by norm_num) (round_ties_even_near _ _ (by norm_num) (by norm_num))
    (by norm_num) (by norm_num)
  rw [h]
  norm_num

/-- In binary32 `g + g` is exact for `g = 0.9f = 15099494 / 2^24`. -/
theorem to_binary32_grey_twice {α : Type} [LinearOrderedField α] [FloorRing α] :
    to_binary32 (15099494 / 2 ^ 24 + 15099494 / 2 ^ 24 : α) = fin (15099494 / 2 ^ 23) := by
  have h := to_binary32_eq (15099494 / 2 ^ 24 + 15099494 / 2 ^ 24 : α) 0 15099494
    (by norm_num) (by norm_num) (by norm_num) (by norm_num)
    (round_ties_even_near _ _ (by norm_num) (by norm_num)) (by norm_num) (by norm_num)
  rw [h]
  norm_num

/-- In binary32 `(g + g) + g` for `g = 0.9f` is a halfway case and rounds to the even
`11324620 / 2^22`. -/
theorem to_binary32_grey_thrice {α : Type} [LinearOrderedField α] [FloorRing α] :
    to_binary32 (15099494 / 2 ^ 23 + 15099494 / 2 ^ 24 : α) = fin (11324620 / 2 ^ 22) := by
  have h := to_binary32_eq (15099494 / 2 ^ 23 + 15099494 / 2 ^ 24 : α) 1 11324620
    (by norm_num) (by norm_num) (by norm_num) (by norm_num)
    (round_ties_even_half _ _ (by norm_num) (by decide)) (by norm_num) (by norm_num)
  rw [h]
  norm_num

/-- In binary32 the third of `11324620 / 2^22` rounds to `15099493 / 2^24`, one place below
`0.9f`. -/
theorem to_binary32_grey_third {α : Type} [LinearOrderedField α] [FloorRing α] :
    to_binary32 (11324620 / 2 ^ 22 / 3 : α) = fin (15099493 / 2 ^ 24) := by
  have h := to_binary32_eq (11324620 / 2 ^ 22 / 3 : α) (-1) 15099493
    (by norm_num) (by norm_num) (by norm_num) (by norm_num)
    (round_ties_even_near _ _ (by norm_num) (by norm_num)) (by norm_num) (by norm_num)
  rw [h]
  norm_num

/-- In binary32 `1 - 10066331 / 2^25` is a halfway case and rounds to the even
`11744050 / 2^24`. -/
theorem to_binary32_below_seven_tenths {α : Type} [LinearOrderedField α] [FloorRing α] :
    to_binary32 (1 - 10066331 / 2 ^ 25 : α) = fin (11744050 / 2 ^ 24) := by
  have h := to_binary32_eq (1 - 10066331 / 2 ^ 25 : α) (-1) 11744050
    (by norm_num) (by norm_num) (by norm_num) (by norm_num)
    (round_ties_even_half _ _ (by norm_num) (by decide)) (by norm_num) (by norm_num)
  rw [h]
  norm_num

/-- In binary32 `1 - 11744050 / 2^24` is exact. -/
theorem to_binary32_three_tenths {α : Type} [LinearOrderedField α] [FloorRing α] :
    to_binary32 (1 - 11744050 / 2 ^ 24 : α) = fin (5033166 / 2 ^ 24) := by
  have h := to_binary32_eq (1 - 11744050 / 2 ^ 24 : α) (-2) 10066332
    (by norm_num) (by norm_num) (by norm_num) (by norm_num)
    (round_ties_even_near _ _ (by norm_num) (by norm_num)) (by norm_num) (by norm_num)
  rw [h]
  norm_num

/-- The number `1 - 2^-24 = 16777215 / 2^24` is a binary32 number. -/
theorem to_binary32_red {α : Type} [LinearOrderedField α] [FloorRing α] :
    to_binary32 (16777215 / 2 ^ 24 : α) = fin (16777215 / 2 ^ 24) := by
  have h := to_binary32_eq (16777215 / 2 ^ 24 : α) (-1) 16777215
    (by norm_num) (by norm_num) (by norm_num) (by norm_num)
    (round_ties_even_near _ _ (by norm_num) (by norm_num)) (by norm_num) (by norm_num)
  rw [h]
  norm_num

/-- In binary32 `(1 - 2^-24) + 4` rounds to 5: the spacing between 4 and 8 is `2^-21`. -/
theorem to_binary32_below_five {α : Type} [LinearOrderedField α] [FloorRing α] :
    to_binary32 (16777215 / 2 ^ 24 + 4 : α) = fin 5 := by
  have h := to_binary32_eq (16777215 / 2 ^ 24 + 4 : α) 2 10485760
    (by norm_num) (by norm_num) (by norm_num) (by norm_num)
    (round_ties_even_near _ _ (by norm_num) (by norm_num)) (by norm_num) (by norm_num)
  rw [h]
  norm_num

end binary32_facts

/-! ## The claims -/

section claims

open float color_base color_converter

/-- C1 (the code at the input of the claim): `rgb_deep_to_cmyk` applied to black, RGB_deep (0,0,0),
computes `k = 1` and `c = m = y = 0/0`, which is NaN; the CMYK constructor clamps NaN with
`fmaxf(fminf(NaN, 1), 0) = 1`, so the result is cyan = magenta = yellow = black = 1, a
finite value on every channel but not the colour (0,0,0,1): the code has no special case
for `k == 1`. -/
theorem rgb_deep_to_cmyk_black_eval {α : Type} [LinearOrderedField α] (e : env α)
    (a : float α) (cs : Option ℕ) :
    (rgb_deepcolor.ctor (fin 0) (fin 0) (fin 0) a cs >>= rgb_deep_to_cmyk e)
      = .ok
        { cls := .cmyk
          m_component_vector := [fin 1, fin 1, fin 1, fin 1]
          m_rgb_color_space := e.default_color_space, m_alpha := e.default_alpha
          m_max := fin 1, m_min := fin 0, m_type := .CMYK } := by
  rw [rgb_deepcolor_ctor_eq]
  simp [rgb_deep_to_cmyk, cmyk_ctor_eq, rgb_deepcolor.red, rgb_deepcolor.green,
    rgb_deepcolor.blue, at_index]

/-- C2: for every `v` in [0,1], `rgb_deep_to_hsv` applied to the achromatic colour
RGB_deep (v,v,v) returns the HSV colour with hue 0, saturation 0 and value `v`. -/
theorem rgb_deep_to_hsv_achromatic {α : Type} [LinearOrderedField α] [FloorRing α]
    (e : env α) (a : float α) (cs : Option ℕ) (v : α) (h0 : 0 ≤ v) (h1 : v ≤ 1) :
    (rgb_deepcolor.ctor (fin v) (fin v) (fin v) a cs >>= rgb_deep_to_hsv e)
      = .ok
        { cls := .hsv
          m_component_vector := [fin 0, fin 0, fin v]
          m_rgb_color_space := e.default_color_space, m_alpha := e.default_alpha
          m_max := fin 1, m_min := fin 0, m_type := .HSV } := by
  rw [rgb_deepcolor_ctor_eq]
  simp [rgb_deep_to_hsv, hsv_ctor_eq, rgb_deepcolor.red, rgb_deepcolor.green,
    rgb_deepcolor.blue, at_index, min_eq_left h1, max_eq_left h0]

/-- C2 at the grey (1/2, 1/2, 1/2) with alpha 1. -/
theorem rgb_deep_to_hsv_achromatic_witness :
    (0 : ℝ) ≤ 1 / 2 ∧ (1 / 2 : ℝ) ≤ 1
      ∧ (rgb_deepcolor.ctor (fin (1 / 2 : ℝ)) (fin (1 / 2)) (fin (1 / 2)) (fin 1) none
          >>= rgb_deep_to_hsv (env_of Real.rpow))
        = .ok
          { cls := .hsv
            m_component_vector := [fin 0, fin 0, fin (1 / 2)]
            m_rgb_color_space := none, m_alpha := fin 1
            m_max := fin 1, m_min := fin 0, m_type := .HSV } :=
  ⟨by norm_num, by norm_num,
    rgb_deep_to_hsv_achromatic (env_of Real.rpow) (fin 1) none (1 / 2) (by norm_num)
      (by norm_num)⟩

/-- C3: for every hue `h` in [0,360] and every `v` in [0,1], `hsv_to_rgb_deep` applied to
HSV (h, 0, v) returns RGB_deep (v,v,v), whatever the hue. -/
theorem hsv_to_rgb_deep_zero_saturation {α : Type} [LinearOrderedField α] [FloorRing α]
    (e : env α) (a : float α) (cs : Option ℕ) (h v : α)
    (hh0 : 0 ≤ h) (hh1 : h ≤ 360) (hv0 : 0 ≤ v) (hv1 : v ≤ 1) :
    (hsv.ctor (fin h) (fin 0) (fin v) a cs >>= hsv_to_rgb_deep e)
      = .ok
        { cls := .rgb_deepcolor
          m_component_vector := [fin v, fin v, fin v]
          m_rgb_color_space := e.default_color_space, m_alpha := e.default_alpha
          m_max := fin 1, m_min := fin 0, m_type := .RGB_DEEP } := by
  rw [hsv_ctor_eq]
  simp [hsv_to_rgb_deep, rgb_deepcolor_ctor_eq, hsv.hue, hsv.saturation, hsv.value, at_index,
    min_eq_left hv1, max_eq_left hv0, min_eq_left hh1, max_eq_left hh0]

/-- C3 at hue 200, value 3/4. -/
theorem hsv_to_rgb_deep_zero_saturation_witness :
    (0 : ℝ) ≤ 200 ∧ (200 : ℝ) ≤ 360 ∧ (0 : ℝ) ≤ 3 / 4 ∧ (3 / 4 : ℝ) ≤ 1
      ∧ (hsv.ctor (fin (200 : ℝ)) (fin 0) (fin (3 / 4)) (fin 1) none
          >>= hsv_to_rgb_deep (env_of Real.rpow))
        = .ok
          { cls := .rgb_deepcolor
            m_component_vector := [fin (3 / 4), fin (3 / 4), fin (3 / 4)]
            m_rgb_color_space := none, m_alpha := fin 1
            m_max := fin 1, m_min := fin 0, m_type := .RGB_DEEP } :=
  ⟨by norm_num, by norm_num, by norm_num, by norm_num,
    hsv_to_rgb_deep_zero_saturation (env_of Real.rpow) (fin 1) none 200 (3 / 4) (by norm_num)
      (by norm_num) (by norm_num) (by norm_num)⟩

/-- C4: for every reference white with positive X, Y, Z, `xyz_to_lab` applied to the XYZ
colour equal to the reference white, with that reference, returns L = 100, a = 0, b = 0.
The C library `powf` enters through `powf(1, y) = 1`. -/
theorem xyz_to_lab_reference_white {α : Type} [LinearOrderedField α] (e : env α)
    (hpow : ∀ b : α, e.powf (fin 1) (fin b) = fin 1)
    (a : float α) (cs : Option ℕ) (X Y Z : α) (hX : 0 < X) (hY : 0 < Y) (hZ : 0 < Z) :
    (xyz.ctor (fin X) (fin Y) (fin Z) a cs >>= fun c => xyz_to_lab e c ⟨fin X, fin Y, fin Z⟩)
      = .ok
        { cls := .lab
          m_component_vector := [fin 100, fin 0, fin 0]
          m_rgb_color_space := e.default_color_space, m_alpha := e.default_alpha
          m_max := fin 128, m_min := fin (-128), m_type := .LAB } := by
  rw [xyz_ctor_eq]
  have h3 : (216 : α) / 24389 < 1 := by norm_num
  simp [xyz_to_lab, xyz_to_lab_helper, N_ROOT, lab_ctor_eq, xyz.x, xyz.y, xyz.z, at_index,
    fin_div_fin_of_ne, ne_of_gt hX, ne_of_gt hY, ne_of_gt hZ, hpow, h3]
  norm_num

/-- C4 at the D65 2-degree white, with the real power function as `powf`. -/
theorem xyz_to_lab_reference_white_witness :
    (∀ b : ℝ, (env_of Real.rpow).powf (fin 1) (fin b) = fin 1)
      ∧ (0 : ℝ) < 95.04 ∧ (0 : ℝ) < 100 ∧ (0 : ℝ) < 108.88
      ∧ (xyz.ctor (fin (95.04 : ℝ)) (fin 100) (fin 108.88) (fin 1) none
          >>= fun c => xyz_to_lab (env_of Real.rpow) c ⟨fin 95.04, fin 100, fin 108.88⟩)
        = .ok
          { cls := .lab
            m_component_vector := [fin 100, fin 0, fin 0]
            m_rgb_color_space := none, m_alpha := fin 1
            m_max := fin 128, m_min := fin (-128), m_type := .LAB } :=
  ⟨fun b => by simp [env_of], by norm_num, by norm_num, by norm_num,
    xyz_to_lab_reference_white (env_of Real.rpow) (fun b => by simp [env_of]) (fin 1) none
      95.04 100 108.88 (by norm_num) (by norm_num) (by norm_num)⟩

/-- C5: for every reference white with positive X, Y, Z, `xyz_to_lab` applied to
XYZ (0,0,0) returns L = 0, a = 0, b = 0: every channel takes the linear branch of the
helper, which gives 16/116. -/
theorem xyz_to_lab_zero {α : Type} [LinearOrderedField α] (e : env α)
    (a : float α) (cs : Option ℕ) (X Y Z : α) (hX : 0 < X) (hY : 0 < Y) (hZ : 0 < Z) :
    (xyz.ctor (fin 0) (fin 0) (fin 0) a cs >>= fun c => xyz_to_lab e c ⟨fin X, fin Y, fin Z⟩)
      = .ok
        { cls := .lab
          m_component_vector := [fin 0, fin 0, fin 0]
          m_rgb_color_space := e.default_color_space, m_alpha := e.default_alpha
          m_max := fin 128, m_min := fin (-128), m_type := .LAB }
      ∧ xyz_to_lab_helper e (fin 0 / fin Y) = fin (16 / 116) := by
  have h3 : ¬ ((216 : α) / 24389 < 0) := by norm_num
  constructor
  · rw [xyz_ctor_eq]
    simp [xyz_to_lab, xyz_to_lab_helper, N_ROOT, lab_ctor_eq, xyz.x, xyz.y, xyz.z, at_index,
      fin_div_fin_of_ne, ne_of_gt hX, ne_of_gt hY, ne_of_gt hZ, h3]
    norm_num
  · simp [xyz_to_lab_helper, fin_div_fin_of_ne, ne_of_gt hY, h3]

/-- C5 at the D65 2-degree white. -/
theorem xyz_to_lab_zero_witness :
    (0 : ℝ) < 95.04 ∧ (0 : ℝ) < 100 ∧ (0 : ℝ) < 108.88
      ∧ ((xyz.ctor (fin (0 : ℝ)) (fin 0) (fin 0) (fin 1) none
          >>= fun c => xyz_to_lab (env_of Real.rpow) c ⟨fin 95.04, fin 100, fin 108.88⟩)
        = .ok
          { cls := .lab
            m_component_vector := [fin 0, fin 0, fin 0]
            m_rgb_color_space := none, m_alpha := fin 1
            m_max := fin 128, m_min := fin (-128), m_type := .LAB }
        ∧ xyz_to_lab_helper (env_of Real.rpow) (fin 0 / fin (100 : ℝ)) = fin (16 / 116)) :=
  ⟨by norm_num, by norm_num, by norm_num,
    xyz_to_lab_zero (env_of Real.rpow) (fin 1) none 95.04 100 108.88 (by norm_num)
      (by norm_num) (by norm_num)⟩

/-- C6, counterexample: the sum of two CMYK colours is a colour value of kind CMYK (the operator
`+` gives the result the tag of its operands), but an object of the base class; for it
`convertTo(s, CMYK, w)` returns the null pointer, not `s`. -/
theorem convertTo_sum_counterexample :
    ∃ s : color_base ℝ,
      op_add
          ({ cls := .cmyk, m_component_vector := [fin 0.1, fin 0.2, fin 0.3, fin 0.4]
             m_rgb_color_space := none, m_alpha := fin 1, m_max := fin 1, m_min := fin 0
             m_type := .CMYK } : color_base ℝ)
          ({ cls := .cmyk, m_component_vector := [fin 0.1, fin 0.2, fin 0.3, fin 0.4]
             m_rgb_color_space := none, m_alpha := fin 1, m_max := fin 1, m_min := fin 0
             m_type := .CMYK } : color_base ℝ) = .ok s
      ∧ s.get_color_type = .CMYK
      ∧ s.get_component_vector = [fin 0.2, fin 0.4, fin 0.6, fin 0.8]
      ∧ convertTo (env_of Real.rpow) s .CMYK reference_white_presets.D65_2Degree = .ok none
      ∧ convertTo (env_of Real.rpow) s .CMYK reference_white_presets.D65_2Degree
          ≠ .ok (some s) := by
  have hconv : convertTo (env_of Real.rpow)
      ({ cls := .color_base, m_component_vector := [fin 0.2, fin 0.4, fin 0.6, fin 0.8]
         m_rgb_color_space := none, m_alpha := fin 1, m_max := fin 1, m_min := fin 0
         m_type := .CMYK } : color_base ℝ) .CMYK reference_white_presets.D65_2Degree
      = .ok none := by
    simp [convertTo, get_color_type, dynamic_cast, from_cmyk]
  refine ⟨{ cls := .color_base, m_component_vector := [fin 0.2, fin 0.4, fin 0.6, fin 0.8],
            m_rgb_color_space := none, m_alpha := fin 1, m_max := fin 1, m_min := fin 0,
            m_type := .CMYK }, ?_, rfl, rfl, hconv, ?_⟩
  · simp [op_add, color_base.ctor, get_color_type, color_base.alpha, get_rgb_color_space,
      get_component_max, get_component_min]
    norm_num
  · rw [hconv]
    intro h
    cases h

/-- C6, amended: for each of the nine kinds K, every colour object of the class of K that
carries the tag K (what the constructors of that representation build) and every reference
white `w`, `convertTo(c, K, w)` returns `c` itself: same kind, same components, same alpha. -/
theorem convertTo_same_kind {α : Type} [LinearOrderedField α] [FloorRing α] (e : env α)
    (c : color_base α) (K : color_type) (w : reference_white α) (hK : K ≠ .UNDEFINED)
    (ht : c.get_color_type = K) (hc : c.cls = class_of K) :
    convertTo e c K w = .ok (some c) := by
  cases K <;>
    first
    | exact absurd rfl hK
    | simp [convertTo, ht, dynamic_cast, hc, class_of, from_rgb_true, from_rgb_deep,
        from_grey_true, from_grey_deep, from_cmyk, from_hsv, from_hsl, from_xyz, from_lab]

/-- C6 amended, at a CMYK colour and the D65 2-degree white. -/
theorem convertTo_same_kind_witness :
    color_type.CMYK ≠ color_type.UNDEFINED
      ∧ convertTo (env_of Real.rpow)
          { cls := .cmyk, m_component_vector := [fin 0, fin 1, fin 1, fin 0]
            m_rgb_color_space := none, m_alpha := fin 1, m_max := fin 1, m_min := fin 0
            m_type := .CMYK }
          .CMYK reference_white_presets.D65_2Degree
        = .ok (some
          { cls := .cmyk, m_component_vector := [fin 0, fin 1, fin 1, fin 0]
            m_rgb_color_space := none, m_alpha := fin 1, m_max := fin 1, m_min := fin 0
            m_type := .CMYK }) :=
  ⟨by decide, convertTo_same_kind (env_of Real.rpow) _ .CMYK _ (by decide) rfl rfl⟩

/-- C7: for every RGB_deep colour whose red, green and blue are in [0,1],
`rgb_deep_to_rgb_true` followed by `rgb_true_to_rgb_deep` gives an RGB_deep colour whose
red, green and blue each differ from the original by at most 1/255. -/
theorem rgb_deep_rgb_true_round_trip {α : Type} [LinearOrderedField α] [FloorRing α]
    (e : env α) (a : float α) (cs : Option ℕ) (r g b : α)
    (hr0 : 0 ≤ r) (hr1 : r ≤ 1) (hg0 : 0 ≤ g) (hg1 : g ≤ 1) (hb0 : 0 ≤ b) (hb1 : b ≤ 1) :
    ∃ (c : color_base α) (r2 g2 b2 : α),
      (rgb_deepcolor.ctor (fin r) (fin g) (fin b) a cs >>= rgb_deep_to_rgb_true e
        >>= rgb_true_to_rgb_deep e) = .ok c
      ∧ c.get_color_type = .RGB_DEEP
      ∧ c.get_component_vector = [fin r2, fin g2, fin b2]
      ∧ |r2 - r| ≤ 1 / 255 ∧ |g2 - g| ≤ 1 / 255 ∧ |b2 - b| ≤ 1 / 255 := by
  obtain ⟨er, hr2, hr3⟩ := to_uchar_roundf r hr0 hr1
  obtain ⟨eg, hg2, hg3⟩ := to_uchar_roundf g hg0 hg1
  obtain ⟨eb, hb2, hb3⟩ := to_uchar_roundf b hb0 hb1
  have cast0 : ∀ n : ℤ, 0 ≤ n → (0 : α) ≤ (n : α) := fun n h => by exact_mod_cast h
  have cast1 : ∀ n : ℤ, n ≤ 255 → (n : α) ≤ 255 := fun n h => by exact_mod_cast h
  have div1 : ∀ n : ℤ, n ≤ 255 → (n : α) / 255 ≤ 1 := fun n h => by
    rw [div_le_one (by norm_num)]; exact cast1 n h
  have div0 : ∀ n : ℤ, 0 ≤ n → (0 : α) ≤ (n : α) / 255 := fun n h =>
    div_nonneg (cast0 n h) (by norm_num)
  have h255 : (255 : α) ≠ 0 := by norm_num
  refine ⟨{ cls := .rgb_deepcolor,
            m_component_vector :=
              [fin ((⌊r * 255 + 1 / 2⌋ : ℤ) / 255), fin ((⌊g * 255 + 1 / 2⌋ : ℤ) / 255),
                fin ((⌊b * 255 + 1 / 2⌋ : ℤ) / 255)],
            m_rgb_color_space := e.default_color_space,
            m_alpha := of_int (to_uchar (roundf (a * of_int 255))) / fin 255,
            m_max := fin 1, m_min := fin 0, m_type := .RGB_DEEP },
    (⌊r * 255 + 1 / 2⌋ : ℤ) / 255, (⌊g * 255 + 1 / 2⌋ : ℤ) / 255,
    (⌊b * 255 + 1 / 2⌋ : ℤ) / 255, ?_, rfl, rfl, quantise_error r, quantise_error g,
    quantise_error b⟩
  rw [rgb_deepcolor_ctor_eq, clamp_fin_of_mem hr0 hr1, clamp_fin_of_mem hg0 hg1,
    clamp_fin_of_mem hb0 hb1]
  simp only [ok_bind, rgb_deep_to_rgb_true, rgb_deepcolor.red, rgb_deepcolor.green,
    rgb_deepcolor.blue, at_index, List.getD_cons_zero, List.getD_cons_succ, er, eg, eb]
  rw [rgb_truecolor_ctor_eq]
  simp only [ok_bind, rgb_true_to_rgb_deep, rgb_truecolor.red, rgb_truecolor.green,
    rgb_truecolor.blue, at_index, List.getD_cons_zero, List.getD_cons_succ, of_int_eq]
  rw [clamp_fin_of_mem (cast0 _ hr2) (cast1 _ hr3), clamp_fin_of_mem (cast0 _ hg2) (cast1 _ hg3),
    clamp_fin_of_mem (cast0 _ hb2) (cast1 _ hb3)]
  rw [fin_div_fin_of_ne _ h255, fin_div_fin_of_ne _ h255, fin_div_fin_of_ne _ h255]
  rw [rgb_deepcolor_ctor_eq, clamp_fin_of_mem (div0 _ hr2) (div1 _ hr3),
    clamp_fin_of_mem (div0 _ hg2) (div1 _ hg3), clamp_fin_of_mem (div0 _ hb2) (div1 _ hb3)]
  rfl

/-- C7 at the colour (0.3, 0.5, 0.9) with alpha 1. -/
theorem rgb_deep_rgb_true_round_trip_witness :
    ((0 : ℝ) ≤ 0.3 ∧ (0.3 : ℝ) ≤ 1 ∧ (0 : ℝ) ≤ 0.5 ∧ (0.5 : ℝ) ≤ 1 ∧ (0 : ℝ) ≤ 0.9
        ∧ (0.9 : ℝ) ≤ 1)
      ∧ ∃ (c : color_base ℝ) (r2 g2 b2 : ℝ),
        (rgb_deepcolor.ctor (fin 0.3) (fin 0.5) (fin 0.9) (fin 1) none
          >>= rgb_deep_to_rgb_true (env_of Real.rpow)
          >>= rgb_true_to_rgb_deep (env_of Real.rpow)) = .ok c
        ∧ c.get_color_type = .RGB_DEEP
        ∧ c.get_component_vector = [fin r2, fin g2, fin b2]
        ∧ |r2 - 0.3| ≤ 1 / 255 ∧ |g2 - 0.5| ≤ 1 / 255 ∧ |b2 - 0.9| ≤ 1 / 255 :=
  ⟨by norm_num,
    rgb_deep_rgb_true_round_trip (env_of Real.rpow) (fin 1) none 0.3 0.5 0.9 (by norm_num)
      (by norm_num) (by norm_num) (by norm_num) (by norm_num) (by norm_num)⟩

/-- C8: `rgb_true_to_cmyk` applied to the 8-bit pure red (red 255, green 0, blue 0,
alpha 255) returns CMYK with cyan 0, magenta 1, yellow 1, black 0. -/
theorem rgb_true_to_cmyk_red {α : Type} [LinearOrderedField α] (e : env α)
    (cs : Option ℕ) :
    (rgb_truecolor.ctor (fin 255) (fin 0) (fin 0) (fin 255) cs >>= rgb_true_to_cmyk e)
      = .ok
        { cls := .cmyk
          m_component_vector := [fin 0, fin 1, fin 1, fin 0]
          m_rgb_color_space := e.default_color_space, m_alpha := e.default_alpha
          m_max := fin 1, m_min := fin 0, m_type := .CMYK } := by
  rw [rgb_truecolor_ctor_eq]
  simp [rgb_true_to_cmyk, rgb_true_to_rgb_deep, rgb_deepcolor_ctor_eq, rgb_deep_to_cmyk,
    cmyk_ctor_eq, rgb_truecolor.red, rgb_truecolor.green, rgb_truecolor.blue,
    rgb_truecolor.alpha, rgb_deepcolor.red, rgb_deepcolor.green,
    rgb_deepcolor.blue, at_index, fin_div_fin_of_ne]

/-- C9: `rgb_true_to_hsv` applied to the 8-bit pure red (255, 0, 0, alpha 255) returns HSV
with hue 0, saturation 1, value 1. -/
theorem rgb_true_to_hsv_red {α : Type} [LinearOrderedField α] [FloorRing α] (e : env α)
    (cs : Option ℕ) :
    (rgb_truecolor.ctor (fin 255) (fin 0) (fin 0) (fin 255) cs >>= rgb_true_to_hsv e)
      = .ok
        { cls := .hsv
          m_component_vector := [fin 0, fin 1, fin 1]
          m_rgb_color_space := e.default_color_space, m_alpha := e.default_alpha
          m_max := fin 1, m_min := fin 0, m_type := .HSV } := by
  rw [rgb_truecolor_ctor_eq]
  simp [rgb_true_to_hsv, rgb_true_to_rgb_deep, rgb_deepcolor_ctor_eq, rgb_deep_to_hsv,
    hsv_ctor_eq, rgb_truecolor.red, rgb_truecolor.green, rgb_truecolor.blue,
    rgb_truecolor.alpha, rgb_deepcolor.red, rgb_deepcolor.green,
    rgb_deepcolor.blue, at_index, fin_div_fin_of_ne, to_int, INT_MIN, INT_MAX]

/-- C10: `rgb_true_to_xyz` applied to the 8-bit pure red (255, 0, 0, alpha 255) returns the
XYZ colour (41.24564, 21.26729, 1.93339), whose X, Y, Z are within 0.01 of 41.24, 21.26 and
1.93. The C library `powf` enters through `powf(1, y) = 1`. -/
theorem rgb_true_to_xyz_red {α : Type} [LinearOrderedField α] (e : env α)
    (hpow : ∀ b : α, e.powf (fin 1) (fin b) = fin 1) (cs : Option ℕ) :
    ∃ (c : color_base α) (x y z : α),
      (rgb_truecolor.ctor (fin 255) (fin 0) (fin 0) (fin 255) cs >>= rgb_true_to_xyz e)
        = .ok c
      ∧ c.get_color_type = .XYZ
      ∧ c.get_component_vector = [fin x, fin y, fin z]
      ∧ x = 41.24564 ∧ y = 21.26729 ∧ z = 1.93339
      ∧ |x - 41.24| < 0.01 ∧ |y - 21.26| < 0.01 ∧ |z - 1.93| < 0.01 := by
  refine ⟨{ cls := .xyz, m_component_vector := [fin 41.24564, fin 21.26729, fin 1.93339],
            m_rgb_color_space := e.default_color_space, m_alpha := e.default_alpha,
            m_max := pinf, m_min := ninf, m_type := .XYZ },
    41.24564, 21.26729, 1.93339, ?_, rfl, rfl, rfl, rfl, rfl, ?_, ?_, ?_⟩
  · rw [rgb_truecolor_ctor_eq]
    have h1 : ¬ ((1 : α) ≤ 0.04045) := by norm_num
    have h2 : ((1 : α) + 0.055) / 1.055 = 1 := by norm_num
    have h3 : (0 : α) ≤ 0.04045 := by norm_num
    simp [rgb_true_to_xyz, rgb_true_to_rgb_deep, rgb_deepcolor_ctor_eq, rgb_deep_to_xyz,
      rgb_deep_to_linear_srgb_deep, xyz_ctor_eq,
      rgb_truecolor.red, rgb_truecolor.green, rgb_truecolor.blue,
      rgb_truecolor.alpha, rgb_deepcolor.red, rgb_deepcolor.green,
      rgb_deepcolor.blue, at_index, fin_div_fin, h1, h2, h3, hpow, color_base.alpha]
    norm_num [hpow]
  · rw [abs_lt]; constructor <;> norm_num
  · rw [abs_lt]; constructor <;> norm_num
  · rw [abs_lt]; constructor <;> norm_num

/-- C10 with the real power function as `powf`. -/
theorem rgb_true_to_xyz_red_witness :
    (∀ b : ℝ, (env_of Real.rpow).powf (fin 1) (fin b) = fin 1)
      ∧ ∃ (c : color_base ℝ) (x y z : ℝ),
        (rgb_truecolor.ctor (fin 255) (fin 0) (fin 0) (fin 255) none
          >>= rgb_true_to_xyz (env_of Real.rpow)) = .ok c
        ∧ c.get_color_type = .XYZ
        ∧ c.get_component_vector = [fin x, fin y, fin z]
        ∧ x = 41.24564 ∧ y = 21.26729 ∧ z = 1.93339
        ∧ |x - 41.24| < 0.01 ∧ |y - 21.26| < 0.01 ∧ |z - 1.93| < 0.01 :=
  ⟨fun b => by simp [env_of],
    rgb_true_to_xyz_red (env_of Real.rpow) (fun b => by simp [env_of]) none⟩

/-- C11: `xyz_to_lab` applied to XYZ (41.24, 21.26, 1.93) with the D65 2-degree reference
white (95.04, 100, 108.88) returns a Lab colour whose L, a and b are within 0.1 of 53.24,
80.09 and 67.20. The C library enters through `powf(x, 1/3)` being the cube root of a
positive `x`. -/
theorem xyz_to_lab_red {α : Type} [LinearOrderedField α] (e : env α)
    (hcbrt : ∀ x : α, 0 < x → ∃ r : α, 0 < r ∧ r ^ 3 = x ∧ e.powf (fin x) (fin (1 / 3)) = fin r)
    (a : float α) (cs : Option ℕ) :
    ∃ (c : color_base α) (L A B : α),
      (xyz.ctor (fin 41.24) (fin 21.26) (fin 1.93) a cs
        >>= fun c => xyz_to_lab e c reference_white_presets.D65_2Degree) = .ok c
      ∧ c.get_color_type = .LAB
      ∧ c.get_component_vector = [fin L, fin A, fin B]
      ∧ |L - 53.24| < 0.1 ∧ |A - 80.09| < 0.1 ∧ |B - 67.20| < 0.1 := by
  obtain ⟨ry, hy0, hy3, hy⟩ := xyz_to_lab_helper_cube_root e hcbrt (21.26 / 100) (by norm_num)
  obtain ⟨rx, hx0, hx3, hx⟩ := xyz_to_lab_helper_cube_root e hcbrt (41.24 / 95.04) (by norm_num)
  obtain ⟨rz, hz0, hz3, hz⟩ := xyz_to_lab_helper_cube_root e hcbrt (1.93 / 108.88) (by norm_num)
  have hy1 : (0.5968 : α) < ry := lt_of_cube_lt hy0.le (by rw [hy3]; norm_num)
  have hy2 : ry < 0.5969 := lt_of_cube_lt (by norm_num) (by rw [hy3]; norm_num)
  have hx1 : (0.7570 : α) < rx := lt_of_cube_lt hx0.le (by rw [hx3]; norm_num)
  have hx2 : rx < 0.7571 := lt_of_cube_lt (by norm_num) (by rw [hx3]; norm_num)
  have hz1 : (0.2607 : α) < rz := lt_of_cube_lt hz0.le (by rw [hz3]; norm_num)
  have hz2 : rz < 0.2608 := lt_of_cube_lt (by norm_num) (by rw [hz3]; norm_num)
  refine ⟨{ cls := .lab, m_component_vector :=
              [fin (116 * ry - 16), fin (500 * (rx - ry)), fin (200 * (ry - rz))],
            m_rgb_color_space := e.default_color_space, m_alpha := e.default_alpha,
            m_max := fin 128, m_min := fin (-128), m_type := .LAB },
    116 * ry - 16, 500 * (rx - ry), 200 * (ry - rz), ?_, rfl, rfl, ?_, ?_, ?_⟩
  · rw [xyz_ctor_eq]
    have e1 : (fin (21.26 : α) / fin 100 : float α) = fin (21.26 / 100) :=
      fin_div_fin_of_ne _ (by norm_num)
    have e2 : (fin (41.24 : α) / fin 95.04 : float α) = fin (41.24 / 95.04) :=
      fin_div_fin_of_ne _ (by norm_num)
    have e3 : (fin (1.93 : α) / fin 108.88 : float α) = fin (1.93 / 108.88) :=
      fin_div_fin_of_ne _ (by norm_num)
    simp only [ok_bind, xyz_to_lab, xyz.x, xyz.y, xyz.z, at_index, List.getD_cons_zero,
      List.getD_cons_succ, clamp_unbounded, reference_white_presets.D65_2Degree, e1, e2, e3,
      hy, hx, hz, fin_mul_fin, fin_sub_fin, lab_ctor_eq]
    rw [clamp_fin_of_mem (by linarith) (by linarith), clamp_fin_of_mem (by linarith) (by linarith),
      clamp_fin_of_mem (by linarith) (by linarith)]
  · rw [abs_lt]; constructor <;> linarith
  · rw [abs_lt]; constructor <;> linarith
  · rw [abs_lt]; constructor <;> linarith

/-- C11 with the real power function as `powf`. -/
theorem xyz_to_lab_red_witness :
    (∀ x : ℝ, 0 < x →
        ∃ r : ℝ, 0 < r ∧ r ^ 3 = x ∧ (env_of Real.rpow).powf (fin x) (fin (1 / 3)) = fin r)
      ∧ ∃ (c : color_base ℝ) (L A B : ℝ),
        (xyz.ctor (fin 41.24) (fin 21.26) (fin 1.93) (fin 1) none
          >>= fun c => xyz_to_lab (env_of Real.rpow) c reference_white_presets.D65_2Degree)
          = .ok c
        ∧ c.get_color_type = .LAB
        ∧ c.get_component_vector = [fin L, fin A, fin B]
        ∧ |L - 53.24| < 0.1 ∧ |A - 80.09| < 0.1 ∧ |B - 67.20| < 0.1 :=
  ⟨real_cube_root, xyz_to_lab_red (env_of Real.rpow) real_cube_root (fin 1) none⟩

/-- C12: for all real arguments cyan, magenta, yellow, black, the CMYK constructor stores
each component clamped into [0,1], that is `max (min x 1) 0`; and after any sequence of
later calls of the channel setters and of `set_component`, with any arguments, every
component is within `[component_min, component_max]`, which stay 0 and 1. -/
theorem cmyk_components_stay_clamped {α : Type} [LinearOrderedField α] (c m y k : α)
    (a : float α) (cs : Option ℕ) :
    ∃ obj : color_base α,
      cmyk.ctor (fin c) (fin m) (fin y) (fin k) a cs = .ok obj
      ∧ obj.get_component_vector
          = [fin (max (min c 1) 0), fin (max (min m 1) 0), fin (max (min y 1) 0),
              fin (max (min k 1) 0)]
      ∧ ∀ calls : List (cmyk.mutation α),
          (cmyk.apply_mutations obj calls).components_in_range = true
          ∧ (cmyk.apply_mutations obj calls).get_component_max = fin 1
          ∧ (cmyk.apply_mutations obj calls).get_component_min = fin 0 := by
  refine ⟨_, cmyk_ctor_eq _ _ _ _ _ _, by simp [get_component_vector], ?_⟩
  intro calls
  have hb : float.le (fin (0 : α)) (fin 1) = true := by simp
  exact apply_mutations_in_range calls _ hb (by simp [components_in_range])

/-- C13, counterexample: a base-class object built with `component_max = 0` and
`component_min = 1` (one component, -1) added to itself gives the component
`fmaxf(fminf(-2, 0), 1) = 1`, which is above the `component_max` 0 of the sum: a component
of the sum is out of range. -/
theorem op_add_reversed_bounds_counterexample :
    ∃ s : color_base ℚ,
      (color_base.ctor (fin 1) none 1 (fin 0) (fin 1)).op_add
          (color_base.ctor (fin 1) none 1 (fin 0) (fin 1)) = .ok s
      ∧ (color_base.ctor (fin 1) none 1 (fin 0) (fin 1) : color_base ℚ).get_color_type
          = (color_base.ctor (fin 1) none 1 (fin 0) (fin 1) : color_base ℚ).get_color_type
      ∧ s.get_component_vector = [fin 1]
      ∧ s.get_component_max = fin 0 ∧ s.get_component_min = fin 1
      ∧ float.le (fin 1) s.get_component_max = false
      ∧ s.components_in_range = false := by
  refine ⟨{ cls := .color_base, m_component_vector := [fin 1], m_rgb_color_space := none,
            m_alpha := fin 1, m_max := fin 0, m_min := fin 1, m_type := .UNDEFINED },
    ?_, rfl, rfl, rfl, rfl, ?_, ?_⟩
  · simp [op_add, color_base.ctor, get_color_type, color_base.alpha, get_rgb_color_space,
      get_component_max, get_component_min]
    norm_num
  · simp [get_component_max]
  · simp [components_in_range]

/-- C13, amended: for two colour values `a` and `b` of the same kind and the same component
count, the bounds of `a` being ordered (`component_min <= component_max`), `a + b` succeeds
and has the kind, alpha and bounds of `a`; for every index its i-th component is
`a_i + b_i` clamped with the bounds of `a`: for numbers that is
`max (min (a_i + b_i) component_max) component_min`; it is `a_i + b_i` itself when that lies
within the bounds, `component_min` when `a_i + b_i` is below it, `component_max` when
`a_i + b_i` is above it or is NaN; and no component of the sum is out of range. -/
theorem op_add_clamped {α : Type} [LinearOrderedField α] (a b : color_base α)
    (hk : a.get_color_type = b.get_color_type)
    (hn : a.get_component_vector.length = b.get_component_vector.length)
    (hb : float.le a.get_component_min a.get_component_max = true) :
    ∃ s : color_base α,
      a.op_add b = .ok s
      ∧ s.get_color_type = a.get_color_type
      ∧ s.alpha = a.alpha
      ∧ s.get_component_max = a.get_component_max
      ∧ s.get_component_min = a.get_component_min
      ∧ s.get_component_vector.length = a.get_component_vector.length
      ∧ (∀ i : ℕ, i < a.get_component_vector.length →
          s.at_index i
              = clamp (a.at_index i + b.at_index i) a.get_component_max a.get_component_min
            ∧ (∀ x y hi lo : α, a.at_index i = fin x → b.at_index i = fin y →
                a.get_component_max = fin hi → a.get_component_min = fin lo →
                s.at_index i = fin (max (min (x + y) hi) lo))
            ∧ (float.le a.get_component_min (a.at_index i + b.at_index i) = true →
                float.le (a.at_index i + b.at_index i) a.get_component_max = true →
                s.at_index i = a.at_index i + b.at_index i)
            ∧ (a.at_index i + b.at_index i ≠ nan →
                s.at_index i
                  = if float.lt (a.at_index i + b.at_index i) a.get_component_min = true
                      then a.get_component_min
                    else if float.lt a.get_component_max (a.at_index i + b.at_index i) = true
                      then a.get_component_max
                    else a.at_index i + b.at_index i)
            ∧ (a.at_index i + b.at_index i = nan → s.at_index i = a.get_component_max)
            ∧ float.le a.get_component_min (s.at_index i) = true
            ∧ float.le (s.at_index i) a.get_component_max = true)
      ∧ s.components_in_range = true := by
  simp only [get_color_type, get_component_vector] at hk hn
  refine ⟨{ cls := .color_base,
            m_component_vector :=
              List.zipWith (fun x y => clamp (x + y) a.m_max a.m_min) a.m_component_vector
                b.m_component_vector,
            m_rgb_color_space := a.m_rgb_color_space, m_alpha := a.m_alpha,
            m_max := a.m_max, m_min := a.m_min, m_type := a.m_type },
    ?_, rfl, rfl, rfl, rfl, ?_, ?_, ?_⟩
  · simp only [op_add, get_color_type, get_component_vector, hk, hn, and_self, if_true]
    rfl
  · simp [get_component_vector, hn]
  · intro i hi
    simp only [get_component_vector] at hi
    have hs := getD_zipWith (fun x y => clamp (x + y) a.m_max a.m_min) a.m_component_vector
      b.m_component_vector i nan nan nan hi (hn ▸ hi)
    have hs2 : at_index
        ({ cls := .color_base,
           m_component_vector :=
             List.zipWith (fun x y => clamp (x + y) a.m_max a.m_min) a.m_component_vector
               b.m_component_vector,
           m_rgb_color_space := a.m_rgb_color_space, m_alpha := a.m_alpha,
           m_max := a.m_max, m_min := a.m_min, m_type := a.m_type } : color_base α) i
        = clamp (a.at_index i + b.at_index i) a.get_component_max a.get_component_min := hs
    refine ⟨hs2, ?_, ?_, ?_, ?_, ?_, ?_⟩
    · intro x y hi2 lo hx hy hmx hmn
      rw [hs2, hx, hy, hmx, hmn, fin_add_fin, clamp_fin]
    · intro h1 h2
      rw [hs2]
      exact clamp_of_in_range _ _ _ h1 h2
    · intro hv
      rw [hs2]
      exact clamp_cases _ _ _ hb hv
    · intro hv
      rw [hs2, hv]
      exact clamp_nan_ordered _ _ hb
    · rw [hs2]
      exact (clamp_in_range _ _ _ hb).1
    · rw [hs2]
      exact (clamp_in_range _ _ _ hb).2
  · simp only [components_in_range, List.all_eq_true, Bool.and_eq_true]
    intro x hx
    obtain ⟨p, q, rfl⟩ := exists_of_mem_zipWith _ _ _ x hx
    exact clamp_in_range _ _ _ hb

/-- C13 amended, at the CMYK colours (0.7, 0.2, 0, 1) and (0.6, 0.1, 0, 0.5): the sum is
(1, 0.3, 0, 1). -/
theorem op_add_clamped_witness :
    ((({ cls := .cmyk, m_component_vector := [fin 0.7, fin 0.2, fin 0, fin 1]
         m_rgb_color_space := none, m_alpha := fin 1, m_max := fin 1, m_min := fin 0
         m_type := .CMYK } : color_base ℚ).get_color_type
        = ({ cls := .cmyk, m_component_vector := [fin 0.6, fin 0.1, fin 0, fin 0.5]
             m_rgb_color_space := none, m_alpha := fin 1, m_max := fin 1, m_min := fin 0
             m_type := .CMYK } : color_base ℚ).get_color_type)
      ∧ ([fin 0.7, fin 0.2, fin 0, fin 1] : List (float ℚ)).length
          = ([fin 0.6, fin 0.1, fin 0, fin 0.5] : List (float ℚ)).length
      ∧ float.le (fin (0 : ℚ)) (fin 1) = true)
      ∧ ∃ s : color_base ℚ,
        op_add
            ({ cls := .cmyk, m_component_vector := [fin 0.7, fin 0.2, fin 0, fin 1]
               m_rgb_color_space := none, m_alpha := fin 1, m_max := fin 1, m_min := fin 0
               m_type := .CMYK } : color_base ℚ)
            ({ cls := .cmyk, m_component_vector := [fin 0.6, fin 0.1, fin 0, fin 0.5]
               m_rgb_color_space := none, m_alpha := fin 1, m_max := fin 1, m_min := fin 0
               m_type := .CMYK } : color_base ℚ) = .ok s
          ∧ s.get_color_type = .CMYK ∧ s.alpha = fin 1
          ∧ s.get_component_max = fin 1 ∧ s.get_component_min = fin 0
          ∧ s.get_component_vector.length = 4
          ∧ s.at_index 0 = fin 1 ∧ s.at_index 1 = fin 0.3 ∧ s.at_index 2 = fin 0
          ∧ s.at_index 3 = fin 1
          ∧ s.components_in_range = true := by
  obtain ⟨s, h1, h2, h3, h4, h5, h6, h7, h8⟩ :=
    op_add_clamped
      ({ cls := .cmyk, m_component_vector := [fin 0.7, fin 0.2, fin 0, fin 1]
         m_rgb_color_space := none, m_alpha := fin 1, m_max := fin 1, m_min := fin 0
         m_type := .CMYK } : color_base ℚ)
      ({ cls := .cmyk, m_component_vector := [fin 0.6, fin 0.1, fin 0, fin 0.5]
         m_rgb_color_space := none, m_alpha := fin 1, m_max := fin 1, m_min := fin 0
         m_type := .CMYK } : color_base ℚ) rfl rfl (by simp [get_component_min, get_component_max])
  have p0 := (h7 0 (by simp [get_component_vector])).2.1 0.7 0.6 1 0 rfl rfl rfl rfl
  have p1 := (h7 1 (by simp [get_component_vector])).2.1 0.2 0.1 1 0 rfl rfl rfl rfl
  have p2 := (h7 2 (by simp [get_component_vector])).2.1 0 0 1 0 rfl rfl rfl rfl
  have p3 := (h7 3 (by simp [get_component_vector])).2.1 1 0.5 1 0 rfl rfl rfl rfl
  refine ⟨⟨rfl, rfl, by simp⟩, s, h1, h2, h3, h4, h5, h6, ?_, ?_, ?_, ?_, h8⟩
  · rw [p0]; norm_num
  · rw [p1]; norm_num
  · rw [p2]; norm_num
  · rw [p3]; norm_num

/-- C14 (the code at a failing input): the CMYK colour (0.8, 0.5, 0.2, 0.1) with alpha 0.5
has its components within [0,1] and its alpha in (0,1]; `alpha_divide` divides each
component by alpha and does not clamp, so the components become (1.6, 1, 0.4, 0.2) and
cyan exceeds `component_max = 1`. -/
theorem alpha_divide_overflow {α : Type} [LinearOrderedField α] (cs : Option ℕ) :
    ∃ obj : color_base α,
      cmyk.ctor (fin 0.8) (fin 0.5) (fin 0.2) (fin 0.1) (fin 0.5) cs = .ok obj
      ∧ obj.components_in_range = true
      ∧ obj.alpha = fin 0.5
      ∧ obj.alpha_divide.get_component_vector = [fin 1.6, fin 1, fin 0.4, fin 0.2]
      ∧ obj.alpha_divide.get_component_max = fin 1
      ∧ obj.alpha_divide.components_in_range = false := by
  refine ⟨_, cmyk_ctor_eq _ _ _ _ _ _, ?_, rfl, ?_, ?_, ?_⟩
  · norm_num [components_in_range]
  · norm_num [alpha_divide, get_component_vector, fin_div_fin]
  · norm_num [alpha_divide, get_component_max]
  · norm_num [alpha_divide, components_in_range, fin_div_fin]

/-- C15: for every colour value whose alpha is exactly 0, `alpha_divide` returns at once:
the components, the alpha and the kind are unchanged, and nothing is divided. -/
theorem alpha_divide_zero_alpha {α : Type} [LinearOrderedField α] (s : color_base α)
    (h : s.alpha = fin 0) :
    s.alpha_divide = s
      ∧ s.alpha_divide.get_component_vector = s.get_component_vector
      ∧ s.alpha_divide.alpha = s.alpha
      ∧ s.alpha_divide.get_color_type = s.get_color_type := by
  have hs : s.alpha_divide = s := by
    simp only [color_base.alpha] at h
    simp [alpha_divide, h]
  rw [hs]
  exact ⟨rfl, rfl, rfl, rfl⟩

/-- C15 at a CMYK colour with alpha 0. -/
theorem alpha_divide_zero_alpha_witness :
    ({ cls := .cmyk, m_component_vector := [fin 0.7, fin 0.2, fin 0, fin 1]
       m_rgb_color_space := none, m_alpha := fin 0, m_max := fin 1, m_min := fin 0
       m_type := .CMYK } : color_base ℚ).alpha = fin 0
      ∧ alpha_divide
          ({ cls := .cmyk, m_component_vector := [fin 0.7, fin 0.2, fin 0, fin 1]
             m_rgb_color_space := none, m_alpha := fin 0, m_max := fin 1, m_min := fin 0
             m_type := .CMYK } : color_base ℚ)
        = ({ cls := .cmyk, m_component_vector := [fin 0.7, fin 0.2, fin 0, fin 1]
             m_rgb_color_space := none, m_alpha := fin 0, m_max := fin 1, m_min := fin 0
             m_type := .CMYK } : color_base ℚ) :=
  ⟨rfl,
    (alpha_divide_zero_alpha
      ({ cls := .cmyk, m_component_vector := [fin 0.7, fin 0.2, fin 0, fin 1]
         m_rgb_color_space := none, m_alpha := fin 0, m_max := fin 1, m_min := fin 0
         m_type := .CMYK } : color_base ℚ) rfl).1⟩

/-- C16 (the code at a failing input): the constructor `cmyk(cyan, magenta, yellow, black,
alpha, color_space)` hands alpha to the base constructor, which stores it as given; built
with alpha 2 the colour has alpha 2, above `m_a_max = 1`, while the setter `alpha(2)`
stores 1. -/
theorem cmyk_ctor_alpha_unclamped {α : Type} [LinearOrderedField α] (c m y k a : float α)
    (cs : Option ℕ) :
    ∃ obj : color_base α,
      cmyk.ctor c m y k a cs = .ok obj ∧ obj.alpha = a
      ∧ (∃ obj2 : color_base α,
          cmyk.ctor (fin 0) (fin 0) (fin 0) (fin 0) (fin 2) cs = .ok obj2
          ∧ obj2.alpha = fin 2 ∧ float.le obj2.alpha m_a_max = false
          ∧ (obj2.alpha_set (fin 2)).alpha = fin 1) := by
  refine ⟨_, cmyk_ctor_eq _ _ _ _ _ _, rfl, _, cmyk_ctor_eq _ _ _ _ _ _, rfl, ?_, ?_⟩
  · norm_num [color_base.alpha, m_a_max]
  · norm_num [color_base.alpha, alpha_set, m_a_max, m_a_min]

/-- C17: `a == b` is true exactly when `a` and `b` have the same kind, the same number of
components and pointwise-equal components (under the C comparison of floats, which for
components that are not NaN is equality of the component vectors); for values of different
kinds it is false; the operator is a total function and raises no error. -/
theorem op_eq_iff {α : Type} [LinearOrderedField α] (a b : color_base α) :
    (op_eq a b = true
        ↔ a.get_color_type = b.get_color_type
          ∧ a.get_component_vector.length = b.get_component_vector.length
          ∧ ∀ i : ℕ, i < a.get_component_vector.length →
              float.eq (a.at_index i) (b.at_index i) = true)
      ∧ (a.get_color_type ≠ b.get_color_type → op_eq a b = false)
      ∧ ((∀ x ∈ a.get_component_vector, x ≠ nan) →
          (op_eq a b = true
            ↔ a.get_color_type = b.get_color_type
              ∧ a.get_component_vector = b.get_component_vector)) :=
  op_eq_spec a b

/-- C18, counterexample: the CMYK colour (0, 0, 0, 0) constructed with alpha +inf has, after
`alpha_multiply`, four NaN components (`0 * inf`); compared with itself it is not equal:
`n == n` is false and `n != n` is true. -/
theorem op_eq_nan_counterexample :
    ∃ c : color_base ℚ,
      cmyk.ctor (fin 0) (fin 0) (fin 0) (fin 0) pinf none = .ok c
      ∧ c.alpha_multiply.get_color_type = .CMYK
      ∧ c.alpha_multiply.get_component_vector = [nan, nan, nan, nan]
      ∧ op_eq c.alpha_multiply c.alpha_multiply = false
      ∧ op_ne c.alpha_multiply c.alpha_multiply = true := by
  refine ⟨_, cmyk_ctor_eq _ _ _ _ _ _, ?_, ?_, ?_, ?_⟩ <;> rw [nan_cmyk_colour] <;>
    simp [get_color_type, get_component_vector, op_eq, op_ne, components_equal, float.ne,
      float.eq]

/-- C18, amended: `a != b` holds exactly when `a == b` does not; two colours of the same kind
that differ in at least one component are unequal; and a colour whose components are numbers
(none is NaN) compared with itself is equal. -/
theorem op_ne_iff {α : Type} [LinearOrderedField α] (a b : color_base α) :
    (op_ne a b = true ↔ ¬ (op_eq a b = true))
      ∧ (a.get_color_type = b.get_color_type →
          (∃ i : ℕ, i < a.get_component_vector.length ∧ i < b.get_component_vector.length
            ∧ a.at_index i ≠ b.at_index i) →
          op_ne a b = true ∧ op_eq a b = false)
      ∧ ((∀ x ∈ a.get_component_vector, x ≠ nan) → op_eq a a = true ∧ op_ne a a = false) := by
  refine ⟨by simp [op_ne], ?_, ?_⟩
  · rintro hk ⟨i, hia, hib, hne⟩
    have hfalse : op_eq a b = false := by
      by_contra hc
      have hc2 : op_eq a b = true := by simpa using hc
      obtain ⟨-, -, hall⟩ := (op_eq_spec a b).1.mp hc2
      exact hne (eq_of_float_eq (hall i hia))
    exact ⟨by simp [op_ne, hfalse], hfalse⟩
  · intro hnan
    have heq : op_eq a a = true := ((op_eq_spec a a).2.2 hnan).mpr ⟨rfl, rfl⟩
    exact ⟨heq, by simp [op_ne, heq]⟩

/-- C19, counterexample: the CMYK colour (0, 0, 0, 0) constructed with alpha +inf has, after
`alpha_multiply`, four NaN components; its copy has the same four NaN components and is not
equal to it under `==`. -/
theorem cmyk_copy_nan_counterexample :
    ∃ c : color_base ℚ,
      cmyk.ctor (fin 0) (fin 0) (fin 0) (fin 0) pinf none = .ok c
      ∧ c.alpha_multiply.get_color_type = .CMYK
      ∧ c.alpha_multiply.get_component_vector = [nan, nan, nan, nan]
      ∧ (cmyk.copy c.alpha_multiply).get_component_vector = [nan, nan, nan, nan]
      ∧ op_eq (cmyk.copy c.alpha_multiply) c.alpha_multiply = false := by
  refine ⟨_, cmyk_ctor_eq _ _ _ _ _ _, ?_, ?_, ?_, ?_⟩ <;> rw [nan_cmyk_colour] <;>
    simp [get_color_type, get_component_vector, op_eq, cmyk.copy, color_base.ctor, alpha_set,
      components_equal, float.ne, float.eq]

/-- C19, amended: for every CMYK colour `c` the copy constructor yields a colour with the same
kind, the same components and the same component bounds; when no component of `c` is NaN
(as for every colour built by the constructor and changed by any sequence of setter calls)
the copy is equal to `c` under `==`; and two CMYK colours constructed from the same
arguments are equal. -/
theorem cmyk_copy_equal {α : Type} [LinearOrderedField α] (c : color_base α) :
    ((cmyk.copy c).get_color_type = c.get_color_type
        ∧ (cmyk.copy c).get_component_vector = c.get_component_vector
        ∧ (cmyk.copy c).get_component_max = c.get_component_max
        ∧ (cmyk.copy c).get_component_min = c.get_component_min)
      ∧ ((∀ x ∈ c.get_component_vector, x ≠ nan) →
          op_eq (cmyk.copy c) c = true ∧ op_ne (cmyk.copy c) c = false)
      ∧ (∀ (cy m y k a : float α) (cs : Option ℕ) (calls : List (cmyk.mutation α)),
          ∃ obj : color_base α,
            cmyk.ctor cy m y k a cs = .ok obj
            ∧ (∀ x ∈ (cmyk.apply_mutations obj calls).get_component_vector, x ≠ nan)
            ∧ op_eq (cmyk.copy (cmyk.apply_mutations obj calls))
                (cmyk.apply_mutations obj calls) = true
            ∧ ∀ obj2 : color_base α, cmyk.ctor cy m y k a cs = .ok obj2 →
                op_eq obj obj2 = true ∧ op_ne obj obj2 = false) := by
  have hcopy : ∀ d : color_base α, (∀ x ∈ d.get_component_vector, x ≠ nan) →
      op_eq (cmyk.copy d) d = true := by
    intro d hd
    have hd2 : ∀ x ∈ (cmyk.copy d).get_component_vector, x ≠ nan := hd
    exact ((op_eq_spec _ _).2.2 hd2).mpr ⟨rfl, rfl⟩
  refine ⟨⟨rfl, rfl, rfl, rfl⟩, ?_, ?_⟩
  · intro hnan
    have h := hcopy c hnan
    exact ⟨h, by simp [op_ne, h]⟩
  · intro cy m y k a cs calls
    obtain ⟨obj, hobj, hmax, hmin, hrange⟩ := cmyk_ctor_in_range cy m y k a cs
    have hb : float.le obj.m_min obj.m_max = true := by rw [hmax, hmin]; simp
    have hnan0 := ne_nan_of_in_range hrange
    have hnan := ne_nan_of_in_range (apply_mutations_in_range calls obj hb hrange).1
    refine ⟨obj, hobj, hnan, hcopy _ hnan, ?_⟩
    intro obj2 h2
    rw [hobj] at h2
    injection h2 with h2
    subst h2
    have heq : op_eq obj obj = true := ((op_eq_spec obj obj).2.2 hnan0).mpr ⟨rfl, rfl⟩
    exact ⟨heq, by simp [op_ne, heq]⟩

/-- C20: constructing a CMYK colour from a base colour value succeeds if and only if the kind
of the base value is CMYK and it has exactly 4 components; the result then has the
components, alpha and bounds of the base value; otherwise the constructor throws
`invalid_argument` and there is no value. -/
theorem cmyk_of_base_iff {α : Type} [LinearOrderedField α] (other : color_base α) :
    ((∃ obj : color_base α, cmyk.of_base other = .ok obj)
        ↔ other.get_color_type = .CMYK ∧ other.get_component_vector.length = 4)
      ∧ (other.get_color_type = .CMYK ∧ other.get_component_vector.length = 4 →
          ∃ obj : color_base α, cmyk.of_base other = .ok obj
            ∧ obj.get_color_type = .CMYK
            ∧ obj.get_component_vector = other.get_component_vector
            ∧ obj.alpha = other.alpha
            ∧ obj.get_component_max = other.get_component_max
            ∧ obj.get_component_min = other.get_component_min)
      ∧ (¬ (other.get_color_type = .CMYK ∧ other.get_component_vector.length = 4) →
          cmyk.of_base other = .error .invalid_argument) := by
  by_cases h : other.get_color_type = .CMYK ∧ other.get_component_vector.length = 4
  · have hok : cmyk.of_base other = .ok
        { cls := .cmyk, m_component_vector := other.m_component_vector,
          m_rgb_color_space := other.m_rgb_color_space, m_alpha := other.m_alpha,
          m_max := other.m_max, m_min := other.m_min, m_type := .CMYK } := by
      simp only [cmyk.of_base, h, and_self, if_true]
      rfl
    exact ⟨⟨fun _ => h, fun _ => ⟨_, hok⟩⟩, fun _ => ⟨_, hok, rfl, rfl, rfl, rfl, rfl⟩,
      fun hn => absurd h hn⟩
  · have herr : cmyk.of_base other = .error .invalid_argument := by
      simp only [cmyk.of_base, h, if_false]
    refine ⟨⟨?_, fun hc => absurd hc h⟩, fun hc => absurd hc h, fun _ => herr⟩
    rintro ⟨obj, hobj⟩
    rw [herr] at hobj
    cases hobj

/-- C21: for every colour value and every integer index `i`, `get_component(i)` and
`set_component(v, i)` throw `out_of_range` exactly when `i < 0` or `i >= n` (n the number of
components); otherwise `get_component(i)` returns the component at `i`, and
`set_component(v, i)` stores at `i` the value `v` clamped into [component_min, component_max]:
for numbers that is `max (min v component_max) component_min`; it is `v` itself when `v` lies
within the bounds; and, the bounds being ordered, it lies within the bounds, it is
`component_min` when `v` is below it and `component_max` when `v` is above it or is NaN; every
other component, the bounds, the alpha and the kind stay as they were. -/
theorem component_access {α : Type} [LinearOrderedField α] (s : color_base α) (v : float α)
    (i : ℤ) :
    ((s.get_component i = .error .out_of_range
          ↔ (i < 0 ∨ i ≥ (s.get_component_vector.length : ℤ)))
        ∧ (s.set_component v i = .error .out_of_range
          ↔ (i < 0 ∨ i ≥ (s.get_component_vector.length : ℤ))))
      ∧ (¬ (i < 0 ∨ i ≥ (s.get_component_vector.length : ℤ)) →
          (∃ x : float α, s.get_component_vector[i.toNat]? = some x
              ∧ s.get_component i = .ok x)
          ∧ ∃ (t : color_base α) (stored : float α), s.set_component v i = .ok t
              ∧ t.get_component_vector[i.toNat]? = some stored
              ∧ stored = clamp v s.get_component_max s.get_component_min
              ∧ (∀ x hi lo : α, v = fin x → s.get_component_max = fin hi →
                  s.get_component_min = fin lo → stored = fin (max (min x hi) lo))
              ∧ (float.le s.get_component_min s.get_component_max = true →
                  float.le s.get_component_min stored = true
                    ∧ float.le stored s.get_component_max = true)
              ∧ (float.le s.get_component_min v = true →
                  float.le v s.get_component_max = true → stored = v)
              ∧ (float.le s.get_component_min s.get_component_max = true →
                  (v ≠ nan →
                    stored = if float.lt v s.get_component_min = true then s.get_component_min
                      else if float.lt s.get_component_max v = true then s.get_component_max
                      else v)
                  ∧ (v = nan → stored = s.get_component_max))
              ∧ (∀ j : ℕ, j ≠ i.toNat →
                  t.get_component_vector[j]? = s.get_component_vector[j]?)
              ∧ t.get_component_vector.length = s.get_component_vector.length
              ∧ t.get_component_max = s.get_component_max
              ∧ t.get_component_min = s.get_component_min
              ∧ t.alpha = s.alpha ∧ t.get_color_type = s.get_color_type) := by
  simp only [get_component_vector, get_component_max, get_component_min, get_color_type,
    color_base.alpha]
  by_cases h : i < 0 ∨ i ≥ (s.m_component_vector.length : ℤ)
  · simp [get_component, set_component, h]
  · have hi : i.toNat < s.m_component_vector.length := by omega
    refine ⟨by simp [get_component, set_component, h], fun _ => ⟨?_, ?_⟩⟩
    · refine ⟨s.m_component_vector[i.toNat], by simp [hi], ?_⟩
      simp [get_component, h, at_index, List.getElem?_eq_getElem hi]
    · refine ⟨{ s with
          m_component_vector :=
            s.m_component_vector.set i.toNat (clamp v s.m_max s.m_min) },
        clamp v s.m_max s.m_min,
        by simp only [set_component, h, if_false], ?_, rfl, ?_, ?_, ?_, ?_, ?_, ?_, rfl, rfl,
        rfl, rfl⟩
      · simp [hi]
      · intro x hi2 lo hv hmx hmn
        rw [hv, hmx, hmn, clamp_fin]
      · intro hb
        exact clamp_in_range _ _ _ hb
      · intro h1 h2
        exact clamp_of_in_range _ _ _ h1 h2
      · intro hb
        refine ⟨fun hv => clamp_cases _ _ _ hb hv, fun hv => ?_⟩
        rw [hv]
        exact clamp_nan_ordered _ _ hb
      · intro j hj
        simp [List.getElem?_set, Ne.symm hj]
      · simp

/-- C22, counterexample: `convertTo` on a base-class object of kind UNDEFINED (target CMYK), and
on a CMYK colour with target kind UNDEFINED, returns the null pointer; no error is raised. -/
theorem convertTo_undefined_counterexample :
    (convertTo (env_of Real.rpow) (color_base.ctor (fin 1) none 3 (fin 1) (fin 0)) .CMYK
        reference_white_presets.D65_2Degree = .ok none
      ∧ ¬ ∃ err : exception,
          convertTo (env_of Real.rpow) (color_base.ctor (fin 1) none 3 (fin 1) (fin 0)) .CMYK
            reference_white_presets.D65_2Degree = .error err)
    ∧ (convertTo (env_of Real.rpow)
          { cls := .cmyk, m_component_vector := [fin 0, fin 1, fin 1, fin 0]
            m_rgb_color_space := none, m_alpha := fin 1, m_max := fin 1, m_min := fin 0
            m_type := .CMYK }
          .UNDEFINED reference_white_presets.D65_2Degree = .ok none
      ∧ ¬ ∃ err : exception,
          convertTo (env_of Real.rpow)
            { cls := .cmyk, m_component_vector := [fin 0, fin 1, fin 1, fin 0]
              m_rgb_color_space := none, m_alpha := fin 1, m_max := fin 1, m_min := fin 0
              m_type := .CMYK }
            .UNDEFINED reference_white_presets.D65_2Degree = .error err) := by
  refine ⟨⟨rfl, ?_⟩, ⟨rfl, ?_⟩⟩
  · rintro ⟨err, h⟩
    cases h
  · rintro ⟨err, h⟩
    cases h

/-- C22, amended: `convertTo` called with a source colour whose kind is UNDEFINED, or with target
kind UNDEFINED, returns the null pointer: no colour value is produced and no error is raised. -/
theorem convertTo_unsupported_null {α : Type} [LinearOrderedField α] [FloorRing α]
    (e : env α) (c : color_base α) (K : color_type) (w : reference_white α)
    (h : c.get_color_type = .UNDEFINED ∨ K = .UNDEFINED) :
    convertTo e c K w = .ok none := by
  rcases h with h | h
  · simp [convertTo, h]
  · subst h
    simp only [convertTo]
    cases c.get_color_type <;> rfl

/-- C22 amended, at a base-class object of kind UNDEFINED with target CMYK. -/
theorem convertTo_unsupported_null_witness :
    ((color_base.ctor (fin 1) none 3 (fin 1) (fin 0) : color_base ℝ).get_color_type
        = .UNDEFINED ∨ color_type.CMYK = color_type.UNDEFINED)
      ∧ convertTo (env_of Real.rpow) (color_base.ctor (fin 1) none 3 (fin 1) (fin 0)) .CMYK
          reference_white_presets.D65_2Degree = .ok none :=
  ⟨Or.inl rfl,
    convertTo_unsupported_null (env_of Real.rpow) _ .CMYK _ (Or.inl rfl)⟩

/-- C23: what the code does. For every XYZ object and every reference white `w`,
`convertTo(c, LAB, w)` is `xyz_to_lab(c, D65 2 degree)`: `from_xyz` drops `w`. At XYZ
(0.5, 0.5, 0.5) with the equal-energy white E, `xyz_to_lab(c, E)` has a = b = 0 while
`convertTo(c, LAB, E)` has a = 130355/128304 and b = 31117/48996. -/
theorem convertTo_xyz_lab_default_reference {α : Type} [LinearOrderedField α]
    [FloorRing α] (e : env α) (a : float α) (cs : Option ℕ) :
    (∀ (c : color_base α) (w : reference_white α), c.get_color_type = .XYZ → c.cls = .xyz →
        convertTo e c .LAB w = (xyz_to_lab e c default_reference).map some)
      ∧ ∃ c : color_base α,
        xyz.ctor (fin 0.5) (fin 0.5) (fin 0.5) a cs = .ok c
        ∧ xyz_to_lab e c reference_white_presets.E_2Degree
            = .ok
              { cls := .lab
                m_component_vector := [fin (24389 / 5400), fin 0, fin 0]
                m_rgb_color_space := e.default_color_space, m_alpha := e.default_alpha
                m_max := fin 128, m_min := fin (-128), m_type := .LAB }
        ∧ convertTo e c .LAB reference_white_presets.E_2Degree
            = .ok (some
              { cls := .lab
                m_component_vector :=
                  [fin (24389 / 5400), fin (130355 / 128304), fin (31117 / 48996)]
                m_rgb_color_space := e.default_color_space, m_alpha := e.default_alpha
                m_max := fin 128, m_min := fin (-128), m_type := .LAB }) := by
  have hgen : ∀ (c : color_base α) (w : reference_white α), c.get_color_type = .XYZ →
      c.cls = .xyz → convertTo e c .LAB w = (xyz_to_lab e c default_reference).map some := by
    intro c w ht hc
    simp [convertTo, ht, dynamic_cast, hc, from_xyz, call]
  refine ⟨hgen, _, xyz_ctor_eq _ _ _ _ _, ?_, ?_⟩
  · simp only [clamp_unbounded]
    exact xyz_to_lab_half_E e a cs
  · simp only [clamp_unbounded]
    exact convertTo_half_E e a cs

/-- C24: what the code does. At the XYZ colour (0.5, 0.5, 0.5) with the equal-energy white E the
two dispatch families differ: `to_lab(c, E)` is Lab (24389/5400, 0, 0), `convertTo(c, LAB, E)`
is Lab (24389/5400, 130355/128304, 31117/48996). -/
theorem convertTo_to_lab_differ {α : Type} [LinearOrderedField α] [FloorRing α]
    (e : env α) (a : float α) (cs : Option ℕ) :
    ∃ c : color_base α,
      xyz.ctor (fin 0.5) (fin 0.5) (fin 0.5) a cs = .ok c
      ∧ to_lab e c reference_white_presets.E_2Degree
          = .ok (some
            { cls := .lab
              m_component_vector := [fin (24389 / 5400), fin 0, fin 0]
              m_rgb_color_space := e.default_color_space, m_alpha := e.default_alpha
              m_max := fin 128, m_min := fin (-128), m_type := .LAB })
      ∧ convertTo e c .LAB reference_white_presets.E_2Degree
          = .ok (some
            { cls := .lab
              m_component_vector :=
                [fin (24389 / 5400), fin (130355 / 128304), fin (31117 / 48996)]
              m_rgb_color_space := e.default_color_space, m_alpha := e.default_alpha
              m_max := fin 128, m_min := fin (-128), m_type := .LAB })
      ∧ convertTo e c .LAB reference_white_presets.E_2Degree
          ≠ to_lab e c reference_white_presets.E_2Degree := by
  have h1 := to_lab_half_E e a cs
  have h2 := convertTo_half_E e a cs
  refine ⟨_, xyz_ctor_eq _ _ _ _ _, ?_, ?_, ?_⟩
  · simp only [clamp_unbounded]; exact h1
  · simp only [clamp_unbounded]; exact h2
  · simp only [clamp_unbounded]
    rw [h1, h2]
    intro h
    injection h with h
    injection h with h
    injection h with _ h
    simp at h

/-- C25, counterexample: in binary32 arithmetic the colour (2^-26, 0, 0), which has components in
[0,1] and max > 0, gives k = 1 - 2^-26 rounded to 1, then 0/0 on every channel, and the CMYK
constructor stores (1, 1, 1, 1): black is not 1 - max and cyan is not (1-r-k)/(1-k) = 0. And
the colour (10066331 / 2^25, 0, 0), about 0.3, gives (0, 1, 1, k) with
k = 11744050 / 2^24, the rounding of 1 - max = 23488101 / 2^25. -/
theorem rgb_deep_to_cmyk_binary32_counterexample :
    (((0 : ℝ) ≤ 1 / 2 ^ 26 ∧ (1 / 2 ^ 26 : ℝ) ≤ 1 ∧ (0 : ℝ) < max (max (1 / 2 ^ 26) 0) 0)
      ∧ (rgb_deepcolor.ctor (fin (1 / 2 ^ 26)) (fin 0) (fin 0) (fin 1) none
          >>= rgb_deep_to_cmyk_rounded round32 (env_of Real.rpow))
        = .ok
          { cls := .cmyk, m_component_vector := [fin 1, fin 1, fin 1, fin 1]
            m_rgb_color_space := none, m_alpha := fin 1, m_max := fin 1, m_min := fin 0
            m_type := .CMYK }
      ∧ (1 : ℝ) - max (max (1 / 2 ^ 26) 0) 0 ≠ 1
      ∧ ((1 : ℝ) - 1 / 2 ^ 26 - (1 - max (max (1 / 2 ^ 26) 0) 0))
          / (1 - (1 - max (max (1 / 2 ^ 26) 0) 0)) ≠ 1)
    ∧ (((0 : ℝ) ≤ 10066331 / 2 ^ 25 ∧ (10066331 / 2 ^ 25 : ℝ) ≤ 1
          ∧ (0 : ℝ) < max (max (10066331 / 2 ^ 25) 0) 0)
      ∧ (rgb_deepcolor.ctor (fin (10066331 / 2 ^ 25)) (fin 0) (fin 0) (fin 1) none
          >>= rgb_deep_to_cmyk_rounded round32 (env_of Real.rpow))
        = .ok
          { cls := .cmyk
            m_component_vector := [fin 0, fin 1, fin 1, fin (11744050 / 2 ^ 24)]
            m_rgb_color_space := none, m_alpha := fin 1, m_max := fin 1, m_min := fin 0
            m_type := .CMYK }
      ∧ (1 : ℝ) - max (max (10066331 / 2 ^ 25) 0) 0 ≠ 11744050 / 2 ^ 24) := by
  have hmax : max (max (1 / 2 ^ 26 : ℝ) 0) 0 = 1 / 2 ^ 26 := by norm_num
  have hmax2 : max (max (10066331 / 2 ^ 25 : ℝ) 0) 0 = 10066331 / 2 ^ 25 := by norm_num
  refine ⟨⟨by norm_num, ?_, by norm_num, by norm_num⟩, ⟨by norm_num, ?_, by norm_num⟩⟩
  · rw [rgb_deepcolor_ctor_eq,
      clamp_fin_of_mem (by norm_num : (0 : ℝ) ≤ 1 / 2 ^ 26) (by norm_num),
      clamp_fin_of_mem (le_refl (0 : ℝ)) (by norm_num)]
    simp only [ok_bind, rgb_deep_to_cmyk_rounded, rgb_deepcolor.red, rgb_deepcolor.green,
      rgb_deepcolor.blue, at_index, List.getD_cons_zero, List.getD_cons_succ, of_int_eq,
      Int.cast_one, fmaxf_fin, hmax, fin_sub_fin, round32_fin, to_binary32_below_one, sub_self,
      sub_zero, to_binary32_zero, to_binary32_one, zero_div_zero, round32_nan, cmyk_ctor_eq,
      env_of]
    simp [clamp]
  · have hd : (5033166 / 2 ^ 24 : ℝ) ≠ 0 := by norm_num
    rw [rgb_deepcolor_ctor_eq,
      clamp_fin_of_mem (by norm_num : (0 : ℝ) ≤ 10066331 / 2 ^ 25) (by norm_num),
      clamp_fin_of_mem (le_refl (0 : ℝ)) (by norm_num)]
    simp only [ok_bind, rgb_deep_to_cmyk_rounded, rgb_deepcolor.red, rgb_deepcolor.green,
      rgb_deepcolor.blue, at_index, List.getD_cons_zero, List.getD_cons_succ, of_int_eq,
      Int.cast_one, fmaxf_fin, hmax2, fin_sub_fin, round32_fin, to_binary32_below_seven_tenths,
      to_binary32_three_tenths, sub_self, sub_zero, to_binary32_zero, to_binary32_one,
      fin_div_fin_of_ne _ hd, zero_div, div_self hd, cmyk_ctor_eq, env_of]
    rw [clamp_fin_of_mem (le_refl (0 : ℝ)) (by norm_num),
      clamp_fin_of_mem (by norm_num : (0 : ℝ) ≤ 1) (le_refl (1 : ℝ)),
      clamp_fin_of_mem (by norm_num : (0 : ℝ) ≤ 11744050 / 2 ^ 24) (by norm_num)]

/-- C25, amended: over exact arithmetic (no rounding of the intermediate results), for every
RGB_deep colour (r, g, b) with components in [0,1] and max(r,g,b) > 0, `rgb_deep_to_cmyk`
returns black k = 1 - max(r,g,b), cyan (1-r-k)/(1-k), magenta
(1-g-k)/(1-k), yellow (1-b-k)/(1-k); each lies in [0,1], so the clamp of the constructor
stores it as it is. -/
theorem rgb_deep_to_cmyk_formula {α : Type} [LinearOrderedField α] (e : env α)
    (a : float α) (cs : Option ℕ) (r g b : α)
    (hr0 : 0 ≤ r) (hr1 : r ≤ 1) (hg0 : 0 ≤ g) (hg1 : g ≤ 1) (hb0 : 0 ≤ b) (hb1 : b ≤ 1)
    (hmax : 0 < max (max r g) b) :
    ∃ k c m y : α,
      k = 1 - max (max r g) b
      ∧ c = (1 - r - k) / (1 - k) ∧ m = (1 - g - k) / (1 - k) ∧ y = (1 - b - k) / (1 - k)
      ∧ (rgb_deepcolor.ctor (fin r) (fin g) (fin b) a cs >>= rgb_deep_to_cmyk e)
        = .ok
          { cls := .cmyk
            m_component_vector := [fin c, fin m, fin y, fin k]
            m_rgb_color_space := e.default_color_space, m_alpha := e.default_alpha
            m_max := fin 1, m_min := fin 0, m_type := .CMYK }
      ∧ (0 ≤ c ∧ c ≤ 1) ∧ (0 ≤ m ∧ m ≤ 1) ∧ (0 ≤ y ∧ y ≤ 1) ∧ (0 ≤ k ∧ k ≤ 1) := by
  have hM1 : max (max r g) b ≤ 1 := max_le (max_le hr1 hg1) hb1
  have hrM : r ≤ max (max r g) b := le_trans (le_max_left r g) (le_max_left _ b)
  have hgM : g ≤ max (max r g) b := le_trans (le_max_right r g) (le_max_left _ b)
  have hbM : b ≤ max (max r g) b := le_max_right _ b
  generalize hM : max (max r g) b = M at hmax hM1 hrM hgM hbM
  have hk : (1 : α) - (1 - M) = M := by ring
  have hne : (1 : α) - (1 - M) ≠ 0 := by rw [hk]; exact ne_of_gt hmax
  have frac : ∀ t : α, 0 ≤ t → t ≤ M →
      0 ≤ (1 - t - (1 - M)) / (1 - (1 - M)) ∧ (1 - t - (1 - M)) / (1 - (1 - M)) ≤ 1 := by
    intro t _ htM
    rw [hk]
    constructor
    · apply div_nonneg _ hmax.le
      linarith
    · rw [div_le_one hmax]
      linarith
  refine ⟨1 - M, _, _, _, rfl, rfl, rfl, rfl, ?_, frac r hr0 hrM, frac g hg0 hgM,
    frac b hb0 hbM, by constructor <;> linarith⟩
  rw [rgb_deepcolor_ctor_eq, clamp_fin_of_mem hr0 hr1, clamp_fin_of_mem hg0 hg1,
    clamp_fin_of_mem hb0 hb1]
  simp only [ok_bind, rgb_deep_to_cmyk, rgb_deepcolor.red, rgb_deepcolor.green,
    rgb_deepcolor.blue, at_index, List.getD_cons_zero, List.getD_cons_succ, of_int_eq,
    Int.cast_one, fmaxf_fin, fin_sub_fin, hM, fin_div_fin_of_ne _ hne, cmyk_ctor_eq]
  rw [clamp_fin_of_mem (frac r hr0 hrM).1 (frac r hr0 hrM).2,
    clamp_fin_of_mem (frac g hg0 hgM).1 (frac g hg0 hgM).2,
    clamp_fin_of_mem (frac b hb0 hbM).1 (frac b hb0 hbM).2,
    clamp_fin_of_mem (by linarith : (0 : α) ≤ 1 - M) (by linarith)]

/-- C25 amended, at the colour (1, 0.5, 0). -/
theorem rgb_deep_to_cmyk_formula_witness :
    ((0 : ℝ) ≤ 1 ∧ (1 : ℝ) ≤ 1 ∧ (0 : ℝ) ≤ 0.5 ∧ (0.5 : ℝ) ≤ 1 ∧ (0 : ℝ) ≤ 0 ∧ (0 : ℝ) ≤ 1
        ∧ (0 : ℝ) < max (max 1 0.5) 0)
      ∧ ∃ k c m y : ℝ,
        k = 1 - max (max 1 0.5) 0
        ∧ c = (1 - 1 - k) / (1 - k) ∧ m = (1 - 0.5 - k) / (1 - k) ∧ y = (1 - 0 - k) / (1 - k)
        ∧ (rgb_deepcolor.ctor (fin 1) (fin 0.5) (fin 0) (fin 1) none
            >>= rgb_deep_to_cmyk (env_of Real.rpow))
          = .ok
            { cls := .cmyk
              m_component_vector := [fin c, fin m, fin y, fin k]
              m_rgb_color_space := none, m_alpha := fin 1
              m_max := fin 1, m_min := fin 0, m_type := .CMYK }
        ∧ (0 ≤ c ∧ c ≤ 1) ∧ (0 ≤ m ∧ m ≤ 1) ∧ (0 ≤ y ∧ y ≤ 1) ∧ (0 ≤ k ∧ k ≤ 1) :=
  ⟨by norm_num,
    rgb_deep_to_cmyk_formula (env_of Real.rpow) (fin 1) none 1 0.5 0 (by norm_num)
      (by norm_num) (by norm_num) (by norm_num) (by norm_num) (by norm_num) (by norm_num)⟩

/-- C26: for every CMYK colour (c, m, y, k) with components in [0,1], `cmyk_to_rgb_deep` returns
red (1-c)(1-k), green (1-m)(1-k), blue (1-y)(1-k), each within [0,1]. -/
theorem cmyk_to_rgb_deep_formula {α : Type} [LinearOrderedField α] (e : env α)
    (a : float α) (cs : Option ℕ) (c m y k : α)
    (hc0 : 0 ≤ c) (hc1 : c ≤ 1) (hm0 : 0 ≤ m) (hm1 : m ≤ 1) (hy0 : 0 ≤ y) (hy1 : y ≤ 1)
    (hk0 : 0 ≤ k) (hk1 : k ≤ 1) :
    (cmyk.ctor (fin c) (fin m) (fin y) (fin k) a cs >>= cmyk_to_rgb_deep e)
        = .ok
          { cls := .rgb_deepcolor
            m_component_vector :=
              [fin ((1 - c) * (1 - k)), fin ((1 - m) * (1 - k)), fin ((1 - y) * (1 - k))]
            m_rgb_color_space := e.default_color_space, m_alpha := e.default_alpha
            m_max := fin 1, m_min := fin 0, m_type := .RGB_DEEP }
      ∧ (0 ≤ (1 - c) * (1 - k) ∧ (1 - c) * (1 - k) ≤ 1)
      ∧ (0 ≤ (1 - m) * (1 - k) ∧ (1 - m) * (1 - k) ≤ 1)
      ∧ (0 ≤ (1 - y) * (1 - k) ∧ (1 - y) * (1 - k) ≤ 1) := by
  have prod : ∀ t : α, 0 ≤ t → t ≤ 1 → 0 ≤ (1 - t) * (1 - k) ∧ (1 - t) * (1 - k) ≤ 1 := by
    intro t h0 h1
    constructor
    · exact mul_nonneg (by linarith) (by linarith)
    · calc (1 - t) * (1 - k) ≤ 1 * 1 :=
            mul_le_mul (by linarith) (by linarith) (by linarith) (by norm_num)
        _ = 1 := by ring
  refine ⟨?_, prod c hc0 hc1, prod m hm0 hm1, prod y hy0 hy1⟩
  rw [cmyk_ctor_eq, clamp_fin_of_mem hc0 hc1, clamp_fin_of_mem hm0 hm1,
    clamp_fin_of_mem hy0 hy1, clamp_fin_of_mem hk0 hk1]
  simp only [ok_bind, cmyk_to_rgb_deep, cmyk.cyan, cmyk.magenta, cmyk.yellow, cmyk.black,
    at_index, List.getD_cons_zero, List.getD_cons_succ, of_int_eq, Int.cast_one, fin_sub_fin,
    fin_mul_fin, rgb_deepcolor_ctor_eq]
  rw [clamp_fin_of_mem (prod c hc0 hc1).1 (prod c hc0 hc1).2,
    clamp_fin_of_mem (prod m hm0 hm1).1 (prod m hm0 hm1).2,
    clamp_fin_of_mem (prod y hy0 hy1).1 (prod y hy0 hy1).2]

/-- C26 at the colour (0.2, 0.4, 0.6, 0.5). -/
theorem cmyk_to_rgb_deep_formula_witness :
    ((0 : ℝ) ≤ 0.2 ∧ (0.2 : ℝ) ≤ 1 ∧ (0 : ℝ) ≤ 0.4 ∧ (0.4 : ℝ) ≤ 1 ∧ (0 : ℝ) ≤ 0.6
        ∧ (0.6 : ℝ) ≤ 1 ∧ (0 : ℝ) ≤ 0.5 ∧ (0.5 : ℝ) ≤ 1)
      ∧ (cmyk.ctor (fin 0.2) (fin 0.4) (fin 0.6) (fin 0.5) (fin 1) none
            >>= cmyk_to_rgb_deep (env_of Real.rpow))
          = .ok
            { cls := .rgb_deepcolor
              m_component_vector :=
                [fin ((1 - 0.2) * (1 - 0.5)), fin ((1 - 0.4) * (1 - 0.5)),
                  fin ((1 - 0.6) * (1 - 0.5))]
              m_rgb_color_space := none, m_alpha := fin 1
              m_max := fin 1, m_min := fin 0, m_type := .RGB_DEEP }
        ∧ ((0 : ℝ) ≤ (1 - 0.2) * (1 - 0.5) ∧ ((1 : ℝ) - 0.2) * (1 - 0.5) ≤ 1)
        ∧ ((0 : ℝ) ≤ (1 - 0.4) * (1 - 0.5) ∧ ((1 : ℝ) - 0.4) * (1 - 0.5) ≤ 1)
        ∧ ((0 : ℝ) ≤ (1 - 0.6) * (1 - 0.5) ∧ ((1 : ℝ) - 0.6) * (1 - 0.5) ≤ 1) :=
  ⟨by norm_num,
    cmyk_to_rgb_deep_formula (env_of Real.rpow) (fin 1) none 0.2 0.4 0.6 0.5 (by norm_num)
      (by norm_num) (by norm_num) (by norm_num) (by norm_num) (by norm_num) (by norm_num)
      (by norm_num)⟩

/-- C27: what the code does. `hsv_to_rgb_deep` applied to HSV (30, 1, 1) returns RGB_deep
(1, 0, 0), not (1, 0.5, 0): the hue is divided by 60 and cast to `int` before the sector
term is taken, so x = chroma * (1 - |0 % 2 - 1|) = 0. -/
theorem hsv_to_rgb_deep_orange {α : Type} [LinearOrderedField α] [FloorRing α] (e : env α)
    (a : float α) (cs : Option ℕ) :
    (hsv.ctor (fin 30) (fin 1) (fin 1) a cs >>= hsv_to_rgb_deep e)
      = .ok
        { cls := .rgb_deepcolor
          m_component_vector := [fin 1, fin 0, fin 0]
          m_rgb_color_space := e.default_color_space, m_alpha := e.default_alpha
          m_max := fin 1, m_min := fin 0, m_type := .RGB_DEEP } := by
  have hfloor : ⌊(30 : α) / 60⌋ = 0 := by
    rw [Int.floor_eq_iff]; constructor <;> norm_num
  have ht : to_int (fin (30 : α) / fin 60) = 0 := by
    rw [fin_div_fin_of_ne _ (by norm_num : (60 : α) ≠ 0)]
    exact to_int_of_floor _ 0 (by norm_num) hfloor (by decide) (by decide)
  rw [hsv_ctor_eq, clamp_fin_of_mem (by norm_num : (0 : α) ≤ 30) (by norm_num),
    clamp_fin_of_mem (by norm_num : (0 : α) ≤ 1) (by norm_num)]
  simp only [ok_bind, hsv_to_rgb_deep, hsv.hue, hsv.saturation, hsv.value, at_index,
    List.getD_cons_zero, List.getD_cons_succ, ht]
  simp [rgb_deepcolor_ctor_eq]

/-- C28: what the code does. HSV (120, 0.5, 0.5) goes by `hsv_to_hsl` to HSL (120, 1/3, 0.375),
and `hsl_to_hsv` takes that to HSV (120, 1, 0.75), not back to (120, 0.5, 0.5): in
`hsl_to_hsv` the product `saturation * (l_temp <= 1)` is the condition of the `?:`. -/
theorem hsv_hsl_round_trip_half {α : Type} [LinearOrderedField α] (e : env α)
    (a : float α) (cs : Option ℕ) :
    (hsv.ctor (fin 120) (fin 0.5) (fin 0.5) a cs >>= hsv_to_hsl e)
        = .ok
          { cls := .hsl
            m_component_vector := [fin 120, fin (1 / 3), fin 0.375]
            m_rgb_color_space := e.default_color_space, m_alpha := e.default_alpha
            m_max := fin 1, m_min := fin 0, m_type := .HSL }
      ∧ (hsv.ctor (fin 120) (fin 0.5) (fin 0.5) a cs >>= hsv_to_hsl e >>= hsl_to_hsv e)
        = .ok
          { cls := .hsv
            m_component_vector := [fin 120, fin 1, fin 0.75]
            m_rgb_color_space := e.default_color_space, m_alpha := e.default_alpha
            m_max := fin 1, m_min := fin 0, m_type := .HSV } := by
  have h1 : (hsv.ctor (fin 120) (fin 0.5) (fin 0.5) a cs >>= hsv_to_hsl e)
        = .ok
          { cls := .hsl
            m_component_vector := [fin 120, fin (1 / 3), fin 0.375]
            m_rgb_color_space := e.default_color_space, m_alpha := e.default_alpha
            m_max := fin 1, m_min := fin 0, m_type := .HSL } := by
    rw [hsv_ctor_eq]
    simp [hsv_to_hsl, hsv.hue, hsv.saturation, hsv.value, at_index, fin_div_fin]
    norm_num [fin_div_fin, hsl_ctor_eq]
  refine ⟨h1, ?_⟩
  rw [h1]
  simp [hsl_to_hsv, hsl.hue, hsl.saturation, hsl.lightness, at_index, fin_div_fin, ne_fin]
  norm_num [fin_div_fin, ne_fin, hsv_ctor_eq]

/-- C29: for every XYZ colour, `xyz_to_rgb_deep` returns an RGB_deep colour whose red, green
and blue components are each `n / 10` for an integer `n` from 0 to 10, hence lie in [0,1] and
are multiples of 0.1. The C library fact used is `powf(10, 1) = 10`. -/
theorem xyz_to_rgb_deep_tenths {α : Type} [LinearOrderedField α] [FloorRing α] (e : env α)
    (hpow : e.powf (fin 10) (fin 1) = fin 10) (c : color_base α) :
    ∃ (res : color_base α) (nr ng nb : ℤ),
      xyz_to_rgb_deep e c = .ok res
      ∧ res.get_color_type = .RGB_DEEP
      ∧ res.get_component_vector = [fin ((nr : α) / 10), fin ((ng : α) / 10), fin ((nb : α) / 10)]
      ∧ (0 ≤ nr ∧ nr ≤ 10) ∧ (0 ≤ ng ∧ ng ≤ 10) ∧ (0 ≤ nb ∧ nb ≤ 10) := by
  obtain ⟨x0, x1, x2, h⟩ := xyz_to_rgb_deep_eq e c
  obtain ⟨v0, e0, a0, b0⟩ := clamp_unit x0
  obtain ⟨v1, e1, a1, b1⟩ := clamp_unit x1
  obtain ⟨v2, e2, a2, b2⟩ := clamp_unit x2
  obtain ⟨n0, p0, q0, r0⟩ := round_unit e hpow v0 a0 b0
  obtain ⟨n1, p1, q1, r1⟩ := round_unit e hpow v1 a1 b1
  obtain ⟨n2, p2, q2, r2⟩ := round_unit e hpow v2 a2 b2
  rw [e0, e1, e2, r0, r1, r2] at h
  exact ⟨_, n0, n1, n2, h, rfl, rfl, ⟨p0, q0⟩, ⟨p1, q1⟩, ⟨p2, q2⟩⟩

/-- C29 at the XYZ colour (50, 50, 50), with the real power function as `powf`. -/
theorem xyz_to_rgb_deep_tenths_witness :
    (env_of Real.rpow).powf (fin 10) (fin 1) = fin 10
      ∧ ∃ (res : color_base ℝ) (nr ng nb : ℤ),
        xyz_to_rgb_deep (env_of Real.rpow)
            { cls := .xyz, m_component_vector := [fin 50, fin 50, fin 50]
              m_rgb_color_space := none, m_alpha := fin 1, m_max := pinf, m_min := ninf
              m_type := .XYZ } = .ok res
        ∧ res.get_color_type = .RGB_DEEP
        ∧ res.get_component_vector
            = [fin ((nr : ℝ) / 10), fin ((ng : ℝ) / 10), fin ((nb : ℝ) / 10)]
        ∧ (0 ≤ nr ∧ nr ≤ 10) ∧ (0 ≤ ng ∧ ng ≤ 10) ∧ (0 ≤ nb ∧ nb ≤ 10) :=
  ⟨by simp [env_of],
    xyz_to_rgb_deep_tenths (env_of Real.rpow) (by simp [env_of]) _⟩

/-- C30: what the code does. `xyz_to_rgb_deep` and `rgb_deep_to_xyz` are the same functions
written over the matrices `xyz_to_rgb_matrix` and `rgb_to_xyz_matrix` of their hard-coded
coefficients, and the product of the two matrices is not the identity to within 0.0001: its
entry in row 1, column 1 is 1.01927692743469 and its entry in row 1, column 3 is
0.94751291687374, where the identity has 1 and 0. -/
theorem matrix_product_not_identity {α : Type} [LinearOrderedField α] [FloorRing α]
    (e : env α) (color : color_base α) :
    xyz_to_rgb_deep e color = xyz_to_rgb_deep_with xyz_to_rgb_matrix e color
      ∧ rgb_deep_to_xyz e color = rgb_deep_to_xyz_with rgb_to_xyz_matrix e color
      ∧ ((xyz_to_rgb_matrix * rgb_to_xyz_matrix : Matrix (Fin 3) (Fin 3) α) 0 0
          = 1.01927692743469)
      ∧ ((xyz_to_rgb_matrix * rgb_to_xyz_matrix : Matrix (Fin 3) (Fin 3) α) 0 2
          = 0.94751291687374)
      ∧ ¬ (|(xyz_to_rgb_matrix * rgb_to_xyz_matrix : Matrix (Fin 3) (Fin 3) α) 0 2 - 0|
            ≤ 0.0001) := by
  refine ⟨xyz_to_rgb_deep_eq_with e color, rgb_deep_to_xyz_eq_with e color, ?_, ?_, ?_⟩
  · simp [Matrix.mul_apply, Fin.sum_univ_three, xyz_to_rgb_matrix, rgb_to_xyz_matrix]
    norm_num
  · simp [Matrix.mul_apply, Fin.sum_univ_three, xyz_to_rgb_matrix, rgb_to_xyz_matrix]
    norm_num
  · simp [Matrix.mul_apply, Fin.sum_univ_three, xyz_to_rgb_matrix, rgb_to_xyz_matrix]
    norm_num
    rw [lt_abs]
    left
    norm_num

/-- C31: what the code does. Pure blue, RGB_deep (0, 0, 1), goes by `rgb_deep_to_xyz` to XYZ
(18.04375, 7.2175, 95.03041), and `xyz_to_rgb_deep` takes that to an RGB_deep colour with
red 0.9 and green 0, not back to red 0: the first row of the matrix of `xyz_to_rgb_deep`
gives the linear red 0.9475, which encodes to a value between 0.9446 and 0.945 and rounds to
0.9. The C library facts used are `powf(1, y) = 1`, `powf(10, 1) = 10`, and that
`powf(x, p)` lies between `x` and 1 for `0 < x ≤ 1` and `0 < p ≤ 1`. -/
theorem rgb_deep_xyz_round_trip_blue {α : Type} [LinearOrderedField α] [FloorRing α] (e : env α)
    (hone : ∀ b : α, e.powf (fin 1) (fin b) = fin 1)
    (hten : e.powf (fin 10) (fin 1) = fin 10)
    (hbelow : ∀ x p : α, 0 < x → x ≤ 1 → 0 < p → p ≤ 1 →
      ∃ v : α, e.powf (fin x) (fin p) = fin v ∧ x ≤ v ∧ v ≤ 1)
    (a : float α) (cs : Option ℕ) :
    ∃ (res : color_base α) (nb : ℤ),
      (rgb_deepcolor.ctor (fin 0) (fin 0) (fin 1) a cs >>= rgb_deep_to_xyz e
          >>= xyz_to_rgb_deep e) = .ok res
      ∧ res.get_color_type = .RGB_DEEP
      ∧ res.get_component_vector = [fin 0.9, fin 0, fin ((nb : α) / 10)]
      ∧ 0 ≤ nb ∧ nb ≤ 10 := by
  have h100 : (100 : α) ≠ 0 := by norm_num
  -- the three linear channels
  have hr : (fin (18.04375 : α) / fin 100 * fin 3.2404542
      + fin 7.2175 / fin 100 * fin (-1.5371385) + fin 95.03041 / fin 100 * fin 0.4985314)
      = fin (47375645843687 / 50000000000000) := by
    simp only [fin_div_fin_of_ne _ h100, fin_mul_fin, fin_add_fin]
    norm_num
  have hg : (fin (18.04375 : α) / fin 100 * fin (-0.9692660)
      + fin 7.2175 / fin 100 * fin 1.8760108 + fin 95.03041 / fin 100 * fin 0.0415560)
      = fin (-86027 / 5000000000000) := by
    simp only [fin_div_fin_of_ne _ h100, fin_mul_fin, fin_add_fin]
    norm_num
  have cr : clamp (fin (47375645843687 / 50000000000000 : α)) (fin 1) (fin 0)
      = fin (47375645843687 / 50000000000000) :=
    clamp_fin_of_mem (by norm_num) (by norm_num)
  have cg : clamp (fin (-86027 / 5000000000000 : α)) (fin 1) (fin 0) = fin 0 := by
    rw [clamp_fin]
    norm_num
  -- red: the power lies between its base and 1
  obtain ⟨v, hv, hv1, hv2⟩ := hbelow (47375645843687 / 50000000000000 * 1.055) (1 / 2.4)
    (by norm_num) (by norm_num) (by norm_num) (by norm_num)
  have hdr := delinearise_power e (47375645843687 / 50000000000000) v (by norm_num) hv
  have hv3 : (0.9996 : α) ≤ v := le_trans (by norm_num) hv1
  have hred := round_tenth e hten (v - 0.055) 9 (by linarith) (by linarith) (by decide)
    (by decide) (by push_cast; linarith) (by push_cast; linarith)
  -- green: zero
  have hgreen := round_tenth e hten 0 0 le_rfl (by norm_num) le_rfl (by decide)
    (by norm_num) (by norm_num)
  -- blue: some tenth
  obtain ⟨w, hw, hw0, hw1⟩ := clamp_unit (linear_srgb_deep_to_rgb_deep_channel e
    (clamp (fin (18.04375 : α) / fin 100 * fin 0.0556434
      + fin 7.2175 / fin 100 * fin (-0.2040259) + fin 95.03041 / fin 100 * fin 1.0572252)
      (fin 1) (fin 0)))
  obtain ⟨nb, hnb0, hnb1, hblue⟩ := round_unit e hten w hw0 hw1
  have hres := xyz_to_rgb_deep_closed e (fin 18.04375) (fin 7.2175) (fin 95.03041)
    e.default_alpha pinf ninf e.default_color_space
  simp only [hr, hg, cr, cg, hdr, delinearise_zero, hred, hgreen, hw, hblue] at hres
  refine ⟨{ cls := .rgb_deepcolor,
            m_component_vector :=
              [fin (((9 : ℤ) : α) / 10), fin (((0 : ℤ) : α) / 10), fin ((nb : α) / 10)],
            m_rgb_color_space := e.default_color_space, m_alpha := e.default_alpha,
            m_max := fin 1, m_min := fin 0, m_type := .RGB_DEEP },
    nb, ?_, ?_, ?_, hnb0, hnb1⟩
  · rw [rgb_deep_to_xyz_blue e hone a cs, ok_bind]
    exact hres
  · rfl
  · simp only [get_component_vector]
    norm_num

/-- C31 with the real power function as `powf`. -/
theorem rgb_deep_xyz_round_trip_blue_witness :
    ((∀ b : ℝ, (env_of Real.rpow).powf (fin 1) (fin b) = fin 1)
        ∧ (env_of Real.rpow).powf (fin 10) (fin 1) = fin 10
        ∧ (∀ x p : ℝ, 0 < x → x ≤ 1 → 0 < p → p ≤ 1 →
          ∃ v : ℝ, (env_of Real.rpow).powf (fin x) (fin p) = fin v ∧ x ≤ v ∧ v ≤ 1))
      ∧ ∃ (res : color_base ℝ) (nb : ℤ),
        (rgb_deepcolor.ctor (fin 0) (fin 0) (fin 1) (fin 1) none
            >>= rgb_deep_to_xyz (env_of Real.rpow)
            >>= xyz_to_rgb_deep (env_of Real.rpow)) = .ok res
        ∧ res.get_color_type = .RGB_DEEP
        ∧ res.get_component_vector = [fin 0.9, fin 0, fin ((nb : ℝ) / 10)]
        ∧ 0 ≤ nb ∧ nb ≤ 10 :=
  ⟨⟨real_powf_one, real_powf_ten, real_powf_below⟩,
    rgb_deep_xyz_round_trip_blue (env_of Real.rpow) real_powf_one real_powf_ten
      real_powf_below (fin 1) none⟩

/-- C32: what the code does. On white, RGB_deep (1, 1, 1), linearising gives 1 on each
channel and `linear_srgb_deep_to_rgb_deep` then gives `powf(1.055, 1/2.4) - 0.055` on each
channel, a value strictly between 0.945 and 1, not 1. The C library facts used are
`powf(1, y) = 1` and that `powf(x, p)` lies strictly between 1 and `x` for `x > 1` and
`0 < p < 1`. -/
theorem linear_srgb_round_trip_white {α : Type} [LinearOrderedField α] (e : env α)
    (hone : ∀ b : α, e.powf (fin 1) (fin b) = fin 1)
    (habove : ∀ x p : α, 1 < x → 0 < p → p < 1 →
      ∃ v : α, e.powf (fin x) (fin p) = fin v ∧ 1 < v ∧ v < x)
    (a : float α) (cs : Option ℕ) :
    ∃ v : α,
      rgb_deep_to_linear_srgb_deep_channel e (fin 1) = fin 1
      ∧ linear_srgb_deep_to_rgb_deep_channel e (fin 1) = fin (v - 0.055)
      ∧ (rgb_deepcolor.ctor (fin 1) (fin 1) (fin 1) a cs >>= rgb_deep_to_linear_srgb_deep e
            >>= linear_srgb_deep_to_rgb_deep e)
          = .ok
            { cls := .rgb_deepcolor
              m_component_vector := [fin (v - 0.055), fin (v - 0.055), fin (v - 0.055)]
              m_rgb_color_space := e.default_color_space, m_alpha := a
              m_max := fin 1, m_min := fin 0, m_type := .RGB_DEEP }
      ∧ 0.945 < v - 0.055 ∧ v - 0.055 < 1 := by
  obtain ⟨v, hv, hv1, hv2⟩ := habove 1.055 (1 / 2.4) (by norm_num) (by norm_num) (by norm_num)
  have hlin := linearise_one e hone
  have hde : linear_srgb_deep_to_rgb_deep_channel e (fin 1) = fin (v - 0.055) :=
    delinearise_power e 1 v (by norm_num) (by rw [one_mul]; exact hv)
  have c1 : clamp (fin (1 : α)) (fin 1) (fin 0) = fin 1 :=
    clamp_fin_of_mem (by norm_num) (by norm_num)
  have cv : clamp (fin (v - 0.055)) (fin 1) (fin 0) = fin (v - 0.055) :=
    clamp_fin_of_mem (by linarith) (by linarith)
  refine ⟨v, hlin, hde, ?_, by linarith, by linarith⟩
  rw [rgb_deepcolor_ctor_eq, c1]
  simp only [ok_bind, rgb_deep_to_linear_srgb_deep_eq_channel, rgb_deepcolor.red,
    rgb_deepcolor.green, rgb_deepcolor.blue, at_index, List.getD_cons_zero,
    List.getD_cons_succ, hlin, color_base.alpha, rgb_deepcolor_ctor_eq, c1,
    linear_srgb_deep_to_rgb_deep_eq_channel, hde, cv]

/-- C32 with the real power function as `powf`. -/
theorem linear_srgb_round_trip_white_witness :
    ((∀ b : ℝ, (env_of Real.rpow).powf (fin 1) (fin b) = fin 1)
        ∧ (∀ x p : ℝ, 1 < x → 0 < p → p < 1 →
          ∃ v : ℝ, (env_of Real.rpow).powf (fin x) (fin p) = fin v ∧ 1 < v ∧ v < x))
      ∧ ∃ v : ℝ,
        rgb_deep_to_linear_srgb_deep_channel (env_of Real.rpow) (fin 1) = fin 1
        ∧ linear_srgb_deep_to_rgb_deep_channel (env_of Real.rpow) (fin 1) = fin (v - 0.055)
        ∧ (rgb_deepcolor.ctor (fin 1) (fin 1) (fin 1) (fin 1) none
              >>= rgb_deep_to_linear_srgb_deep (env_of Real.rpow)
              >>= linear_srgb_deep_to_rgb_deep (env_of Real.rpow))
            = .ok
              { cls := .rgb_deepcolor
                m_component_vector := [fin (v - 0.055), fin (v - 0.055), fin (v - 0.055)]
                m_rgb_color_space := none, m_alpha := fin 1
                m_max := fin 1, m_min := fin 0, m_type := .RGB_DEEP }
        ∧ 0.945 < v - 0.055 ∧ v - 0.055 < 1 :=
  ⟨⟨real_powf_one, real_powf_above⟩,
    linear_srgb_round_trip_white (env_of Real.rpow) real_powf_one real_powf_above (fin 1)
      none⟩

/-- C33: for every XYZ colour with non-negative components and every reference white with
positive X, Y, Z such that the `lab` constructor stores L, a and b as computed (the clamps
leave them as they are), `xyz_to_lab` followed by `lab_to_xyz` with the same reference white
returns the original X, Y and Z (the XYZ type is unbounded, so nothing is clamped there).
The C library enters through `powf(x, 1/3)` being the cube root of a positive `x` and
`powf(x, 3)` being the cube. -/
theorem lab_xyz_round_trip {α : Type} [LinearOrderedField α] (e : env α)
    (hcbrt : ∀ x : α, 0 < x → ∃ r : α, 0 < r ∧ r ^ 3 = x ∧ e.powf (fin x) (fin (1 / 3)) = fin r)
    (hcube : ∀ x : α, e.powf (fin x) (fin 3) = fin (x ^ 3))
    (a : float α) (cs : Option ℕ) (X Y Z wx wy wz : α)
    (hX : 0 ≤ X) (hY : 0 ≤ Y) (hZ : 0 ≤ Z) (hwx : 0 < wx) (hwy : 0 < wy) (hwz : 0 < wz)
    (hl : clamp (fin 116 * xyz_to_lab_helper e (fin Y / fin wy) - fin 16) (fin 100) (fin 0)
      = fin 116 * xyz_to_lab_helper e (fin Y / fin wy) - fin 16)
    (ha : clamp (fin 500 * (xyz_to_lab_helper e (fin X / fin wx)
        - xyz_to_lab_helper e (fin Y / fin wy))) (fin 128) (fin (-128))
      = fin 500 * (xyz_to_lab_helper e (fin X / fin wx)
        - xyz_to_lab_helper e (fin Y / fin wy)))
    (hb : clamp (fin 200 * (xyz_to_lab_helper e (fin Y / fin wy)
        - xyz_to_lab_helper e (fin Z / fin wz))) (fin 128) (fin (-128))
      = fin 200 * (xyz_to_lab_helper e (fin Y / fin wy)
        - xyz_to_lab_helper e (fin Z / fin wz))) :
    (xyz.ctor (fin X) (fin Y) (fin Z) a cs
        >>= (fun c => xyz_to_lab e c ⟨fin wx, fin wy, fin wz⟩)
        >>= (fun c => lab_to_xyz e c ⟨fin wx, fin wy, fin wz⟩))
      = .ok
        { cls := .xyz, m_component_vector := [fin X, fin Y, fin Z]
          m_rgb_color_space := e.default_color_space, m_alpha := e.default_alpha
          m_max := pinf, m_min := ninf, m_type := .XYZ } := by
  have hx0 : wx ≠ 0 := ne_of_gt hwx
  have hy0 : wy ≠ 0 := ne_of_gt hwy
  have hz0 : wz ≠ 0 := ne_of_gt hwz
  obtain ⟨fx, hfx, hbx, _⟩ := lab_helpers_inverse e hcbrt hcube (X / wx) (div_nonneg hX hwx.le)
  obtain ⟨fy, hfy, _, hby⟩ := lab_helpers_inverse e hcbrt hcube (Y / wy) (div_nonneg hY hwy.le)
  obtain ⟨fz, hfz, hbz, _⟩ := lab_helpers_inverse e hcbrt hcube (Z / wz) (div_nonneg hZ hwz.le)
  rw [fin_div_fin_of_ne _ hx0, fin_div_fin_of_ne _ hy0, hfx, hfy] at ha
  rw [fin_div_fin_of_ne _ hy0, hfy] at hl
  rw [fin_div_fin_of_ne _ hy0, fin_div_fin_of_ne _ hz0, hfy, hfz] at hb
  simp only [fin_mul_fin, fin_sub_fin] at hl ha hb
  have e1 : 500 * (fx - fy) / 500 + (116 * fy - 16 + 16) / 116 = fx := by
    field_simp
  have e2 : (116 * fy - 16 + 16) / 116 - 200 * (fy - fz) / 200 = fz := by
    field_simp
  have mx : X / wx * wx = X := div_mul_cancel₀ X hx0
  have my : Y / wy * wy = Y := div_mul_cancel₀ Y hy0
  have mz : Z / wz * wz = Z := div_mul_cancel₀ Z hz0
  rw [xyz_ctor_eq]
  simp only [clamp_unbounded, ok_bind, xyz_to_lab, xyz.x, xyz.y, xyz.z, at_index,
    List.getD_cons_zero, List.getD_cons_succ, fin_div_fin_of_ne _ hx0,
    fin_div_fin_of_ne _ hy0, fin_div_fin_of_ne _ hz0, hfx, hfy, hfz, fin_mul_fin,
    fin_sub_fin, lab_ctor_eq, hl, ha, hb, lab_to_xyz, lab.luminance, lab.a, lab.b,
    fin_add_fin, fin_div_fin_of_ne _ (by norm_num : (116 : α) ≠ 0),
    fin_div_fin_of_ne _ (by norm_num : (500 : α) ≠ 0),
    fin_div_fin_of_ne _ (by norm_num : (200 : α) ≠ 0), e1, e2, hbx, hby, hbz, mx, my, mz,
    xyz_ctor_eq]

/-- C33 at the D65 2-degree white as colour and as reference, with the real power function as
`powf`. -/
theorem lab_xyz_round_trip_witness :
    ((∀ x : ℝ, 0 < x →
          ∃ r : ℝ, 0 < r ∧ r ^ 3 = x ∧ (env_of Real.rpow).powf (fin x) (fin (1 / 3)) = fin r)
        ∧ (∀ x : ℝ, (env_of Real.rpow).powf (fin x) (fin 3) = fin (x ^ 3))
        ∧ (0 : ℝ) ≤ 95.04 ∧ (0 : ℝ) ≤ 100 ∧ (0 : ℝ) ≤ 108.88
        ∧ (0 : ℝ) < 95.04 ∧ (0 : ℝ) < 100 ∧ (0 : ℝ) < 108.88)
      ∧ (xyz.ctor (fin 95.04) (fin 100) (fin 108.88) (fin 1) none
          >>= (fun c => xyz_to_lab (env_of Real.rpow) c ⟨fin 95.04, fin 100, fin 108.88⟩)
          >>= (fun c => lab_to_xyz (env_of Real.rpow) c ⟨fin 95.04, fin 100, fin 108.88⟩))
        = .ok
          { cls := .xyz, m_component_vector := [fin 95.04, fin 100, fin 108.88]
            m_rgb_color_space := none, m_alpha := fin 1
            m_max := pinf, m_min := ninf, m_type := .XYZ } :=
  ⟨⟨real_cube_root, real_powf_cube, by norm_num, by norm_num, by norm_num, by norm_num,
      by norm_num, by norm_num⟩,
    lab_xyz_round_trip (env_of Real.rpow) real_cube_root real_powf_cube (fin 1) none
      95.04 100 108.88 95.04 100 108.88 (by norm_num) (by norm_num) (by norm_num)
      (by norm_num) (by norm_num) (by norm_num)
      (lab_white_unclamped 95.04 100 108.88 (by norm_num) (by norm_num) (by norm_num)).1
      (lab_white_unclamped 95.04 100 108.88 (by norm_num) (by norm_num) (by norm_num)).2.1
      (lab_white_unclamped 95.04 100 108.88 (by norm_num) (by norm_num) (by norm_num)).2.2⟩

/-- C34: the preset D65, 2 degrees, is (95.04, 100, 108.88); the catalogue has 40 presets, and
each of them has Y = 100 and finite, strictly positive X and Z. -/
theorem catalogue_presets {α : Type} [LinearOrderedField α] :
    (reference_white_presets.D65_2Degree : reference_white α)
        = ⟨fin 95.04, fin 100, fin 108.88⟩
      ∧ (reference_white_presets.catalogue : List (reference_white α)).length = 40
      ∧ ∀ w ∈ (reference_white_presets.catalogue : List (reference_white α)),
          w.y = fin 100 ∧ ∃ x z : α, w.x = fin x ∧ w.z = fin z ∧ 0 < x ∧ 0 < z := by
  refine ⟨rfl, rfl, ?_⟩
  intro w hw
  simp only [reference_white_presets.catalogue, List.mem_cons, List.mem_singleton,
    List.not_mem_nil, or_false] at hw
  rcases hw with h | h | h | h | h | h | h | h | h | h | h | h | h | h | h | h | h | h | h | h
    | h | h | h | h | h | h | h | h | h | h | h | h | h | h | h | h | h | h | h | h <;>
  · subst h
    exact ⟨rfl, _, _, rfl, rfl, by norm_num, by norm_num⟩

/-- C35, counterexample: in binary32 arithmetic the grey 0.9f = 15099494 / 2^24 goes to the
RGB_deep colour (g, g, g) and comes back as (g + g + g) / 3 = 15099493 / 2^24, one place
below `g`. -/
theorem grey_deep_round_trip_binary32_counterexample :
    ((0 : ℝ) ≤ 15099494 / 2 ^ 24 ∧ (15099494 / 2 ^ 24 : ℝ) ≤ 1)
      ∧ (grey_deepcolor.ctor (fin (15099494 / 2 ^ 24)) (fin 1) none
          >>= grey_deep_to_rgb_deep (env_of Real.rpow)
          >>= rgb_deep_to_grey_deep_rounded round32 (env_of Real.rpow))
        = .ok
          { cls := .grey_deepcolor, m_component_vector := [fin (15099493 / 2 ^ 24)]
            m_rgb_color_space := none, m_alpha := fin 1, m_max := fin 1, m_min := fin 0
            m_type := .GREY_DEEP }
      ∧ (15099493 / 2 ^ 24 : ℝ) ≠ 15099494 / 2 ^ 24 := by
  have h0 : (0 : ℝ) ≤ 15099494 / 2 ^ 24 := by norm_num
  have h1 : (15099494 / 2 ^ 24 : ℝ) ≤ 1 := by norm_num
  refine ⟨⟨h0, h1⟩, ?_, by norm_num⟩
  rw [grey_deepcolor_ctor_eq, clamp_fin_of_mem h0 h1]
  simp only [ok_bind, grey_deep_to_rgb_deep, rgb_deepcolor.ctor_uniform, grey_deepcolor.grey,
    at_index, List.getD_cons_zero, color_base.alpha, rgb_deepcolor_ctor_eq,
    clamp_fin_of_mem h0 h1, rgb_deep_to_grey_deep_rounded, rgb_deepcolor.red,
    rgb_deepcolor.green, rgb_deepcolor.blue, List.getD_cons_succ, fin_add_fin, round32_fin,
    to_binary32_grey_twice, to_binary32_grey_thrice,
    fin_div_fin_of_ne _ (by norm_num : (3 : ℝ) ≠ 0), to_binary32_grey_third,
    grey_deepcolor_ctor_eq, env_of]
  rw [clamp_fin_of_mem (by norm_num) (by norm_num)]

/-- C35, amended: for every grey_deep colour with grey `g` in [0,1] and any alpha,
`grey_deep_to_rgb_deep` returns red = green = blue = `g` with the same alpha, and
`rgb_deep_to_grey_deep` applied to that result returns the same alpha and, over exact
arithmetic (no rounding of the sum and the quotient), grey `g`. -/
theorem grey_deep_rgb_deep_round_trip {α : Type} [LinearOrderedField α] (e : env α)
    (a : float α) (cs : Option ℕ) (g : α) (h0 : 0 ≤ g) (h1 : g ≤ 1) :
    (grey_deepcolor.ctor (fin g) a cs >>= grey_deep_to_rgb_deep e)
        = .ok
          { cls := .rgb_deepcolor
            m_component_vector := [fin g, fin g, fin g]
            m_rgb_color_space := e.default_color_space, m_alpha := a
            m_max := fin 1, m_min := fin 0, m_type := .RGB_DEEP }
      ∧ (grey_deepcolor.ctor (fin g) a cs >>= grey_deep_to_rgb_deep e
            >>= rgb_deep_to_grey_deep e)
        = .ok
          { cls := .grey_deepcolor
            m_component_vector := [fin g]
            m_rgb_color_space := e.default_color_space, m_alpha := a
            m_max := fin 1, m_min := fin 0, m_type := .GREY_DEEP } := by
  have h3 : (g + g + g) / 3 = g := by field_simp; ring
  have hstep : (grey_deepcolor.ctor (fin g) a cs >>= grey_deep_to_rgb_deep e)
        = .ok
          { cls := .rgb_deepcolor
            m_component_vector := [fin g, fin g, fin g]
            m_rgb_color_space := e.default_color_space, m_alpha := a
            m_max := fin 1, m_min := fin 0, m_type := .RGB_DEEP } := by
    rw [grey_deepcolor_ctor_eq, clamp_fin_of_mem h0 h1]
    simp only [ok_bind, grey_deep_to_rgb_deep, rgb_deepcolor.ctor_uniform, grey_deepcolor.grey,
      at_index, List.getD_cons_zero, color_base.alpha, rgb_deepcolor_ctor_eq,
      clamp_fin_of_mem h0 h1]
  refine ⟨hstep, ?_⟩
  rw [hstep]
  simp only [ok_bind, rgb_deep_to_grey_deep, rgb_deepcolor.red, rgb_deepcolor.green,
    rgb_deepcolor.blue, at_index, List.getD_cons_zero, List.getD_cons_succ, color_base.alpha,
    fin_add_fin, fin_div_fin_of_ne _ (by norm_num : (3 : α) ≠ 0), h3, grey_deepcolor_ctor_eq,
    clamp_fin_of_mem h0 h1]

/-- C35 amended, at grey 0.25 with alpha 0.5. -/
theorem grey_deep_rgb_deep_round_trip_witness :
    ((0 : ℝ) ≤ 0.25 ∧ (0.25 : ℝ) ≤ 1)
      ∧ (grey_deepcolor.ctor (fin 0.25) (fin 0.5) none
            >>= grey_deep_to_rgb_deep (env_of Real.rpow))
          = .ok
            { cls := .rgb_deepcolor
              m_component_vector := [fin 0.25, fin 0.25, fin 0.25]
              m_rgb_color_space := none, m_alpha := fin 0.5
              m_max := fin 1, m_min := fin 0, m_type := .RGB_DEEP }
        ∧ (grey_deepcolor.ctor (fin 0.25) (fin 0.5) none
              >>= grey_deep_to_rgb_deep (env_of Real.rpow)
              >>= rgb_deep_to_grey_deep (env_of Real.rpow))
          = .ok
            { cls := .grey_deepcolor
              m_component_vector := [fin 0.25]
              m_rgb_color_space := none, m_alpha := fin 0.5
              m_max := fin 1, m_min := fin 0, m_type := .GREY_DEEP } :=
  ⟨by norm_num,
    grey_deep_rgb_deep_round_trip (env_of Real.rpow) (fin 0.5) none 0.25 (by norm_num)
      (by norm_num)⟩

/-- C36: what the code does. `rgb_deep_to_hsv` returns hue 0 for red, 60 for yellow, 120 for
green, 180 for cyan and 240 for blue, each with saturation 1 and value 1; for magenta
(1, 0, 1) it computes the hue 60 * (-1 % 6) = -60, which the `hsv` constructor clamps to 0, so
magenta comes out with hue 0, not 300. -/
theorem rgb_deep_to_hsv_primaries {α : Type} [LinearOrderedField α] [FloorRing α]
    (e : env α) (a : float α) (cs : Option ℕ) :
    (rgb_deepcolor.ctor (fin 1) (fin 0) (fin 0) a cs >>= rgb_deep_to_hsv e)
        = .ok
          { cls := .hsv, m_component_vector := [fin 0, fin 1, fin 1]
            m_rgb_color_space := e.default_color_space, m_alpha := e.default_alpha
            m_max := fin 1, m_min := fin 0, m_type := .HSV }
      ∧ (rgb_deepcolor.ctor (fin 1) (fin 1) (fin 0) a cs >>= rgb_deep_to_hsv e)
        = .ok
          { cls := .hsv, m_component_vector := [fin 60, fin 1, fin 1]
            m_rgb_color_space := e.default_color_space, m_alpha := e.default_alpha
            m_max := fin 1, m_min := fin 0, m_type := .HSV }
      ∧ (rgb_deepcolor.ctor (fin 0) (fin 1) (fin 0) a cs >>= rgb_deep_to_hsv e)
        = .ok
          { cls := .hsv, m_component_vector := [fin 120, fin 1, fin 1]
            m_rgb_color_space := e.default_color_space, m_alpha := e.default_alpha
            m_max := fin 1, m_min := fin 0, m_type := .HSV }
      ∧ (rgb_deepcolor.ctor (fin 0) (fin 1) (fin 1) a cs >>= rgb_deep_to_hsv e)
        = .ok
          { cls := .hsv, m_component_vector := [fin 180, fin 1, fin 1]
            m_rgb_color_space := e.default_color_space, m_alpha := e.default_alpha
            m_max := fin 1, m_min := fin 0, m_type := .HSV }
      ∧ (rgb_deepcolor.ctor (fin 0) (fin 0) (fin 1) a cs >>= rgb_deep_to_hsv e)
        = .ok
          { cls := .hsv, m_component_vector := [fin 240, fin 1, fin 1]
            m_rgb_color_space := e.default_color_space, m_alpha := e.default_alpha
            m_max := fin 1, m_min := fin 0, m_type := .HSV }
      ∧ (rgb_deepcolor.ctor (fin 1) (fin 0) (fin 1) a cs >>= rgb_deep_to_hsv e)
        = .ok
          { cls := .hsv, m_component_vector := [fin 0, fin 1, fin 1]
            m_rgb_color_space := e.default_color_space, m_alpha := e.default_alpha
            m_max := fin 1, m_min := fin 0, m_type := .HSV }
      ∧ rgb_deep_to_hsv_hue
          ({ cls := .rgb_deepcolor, m_component_vector := [fin 1, fin 0, fin 1]
             m_rgb_color_space := cs, m_alpha := a, m_max := fin 1, m_min := fin 0
             m_type := .RGB_DEEP } : color_base α) = -60 := by
  have t1 : Int.tmod 1 6 = 1 := rfl
  have t2 : Int.tmod (-1) 6 = -1 := rfl
  refine ⟨?_, ?_, ?_, ?_, ?_, ?_, ?_⟩
  · rw [rgb_deepcolor_ctor_eq]
    simp [rgb_deep_to_hsv, hsv_ctor_eq, rgb_deepcolor.red, rgb_deepcolor.green,
      rgb_deepcolor.blue, at_index, fin_div_fin_of_ne, to_int, INT_MIN, INT_MAX, Int.ceil_neg,
      t1, t2]
    try norm_num [t1, t2]
  · rw [rgb_deepcolor_ctor_eq]
    simp [rgb_deep_to_hsv, hsv_ctor_eq, rgb_deepcolor.red, rgb_deepcolor.green,
      rgb_deepcolor.blue, at_index, fin_div_fin_of_ne, to_int, INT_MIN, INT_MAX, Int.ceil_neg,
      t1, t2]
    try norm_num [t1, t2]
  · rw [rgb_deepcolor_ctor_eq]
    simp [rgb_deep_to_hsv, hsv_ctor_eq, rgb_deepcolor.red, rgb_deepcolor.green,
      rgb_deepcolor.blue, at_index, fin_div_fin_of_ne, to_int, INT_MIN, INT_MAX, Int.ceil_neg,
      t1, t2]
    try norm_num [t1, t2]
  · rw [rgb_deepcolor_ctor_eq]
    simp [rgb_deep_to_hsv, hsv_ctor_eq, rgb_deepcolor.red, rgb_deepcolor.green,
      rgb_deepcolor.blue, at_index, fin_div_fin_of_ne, to_int, INT_MIN, INT_MAX, Int.ceil_neg,
      t1, t2]
    try norm_num [t1, t2]
  · rw [rgb_deepcolor_ctor_eq]
    simp [rgb_deep_to_hsv, hsv_ctor_eq, rgb_deepcolor.red, rgb_deepcolor.green,
      rgb_deepcolor.blue, at_index, fin_div_fin_of_ne, to_int, INT_MIN, INT_MAX, Int.ceil_neg,
      t1, t2]
    try norm_num [t1, t2]
  · rw [rgb_deepcolor_ctor_eq]
    simp [rgb_deep_to_hsv, hsv_ctor_eq, rgb_deepcolor.red, rgb_deepcolor.green,
      rgb_deepcolor.blue, at_index, fin_div_fin_of_ne, to_int, INT_MIN, INT_MAX, Int.ceil_neg,
      t1, t2]
    try norm_num [t1, t2]
  · simp [rgb_deep_to_hsv_hue, rgb_deepcolor.red, rgb_deepcolor.green,
      rgb_deepcolor.blue, at_index, fin_div_fin_of_ne, to_int, INT_MIN, INT_MAX, Int.ceil_neg,
      t1, t2]
    norm_num [t2]

/-- C37: adding two colour values fails with `invalid_argument` exactly when their kinds differ
or their component counts differ, it returns a result exactly when kinds and component counts
match, and on a mismatch no result value is produced. -/
theorem op_add_fails_iff {α : Type} [LinearOrderedField α] (s t : color_base α) :
    (op_add s t = .error .invalid_argument
        ↔ (s.get_color_type ≠ t.get_color_type
            ∨ s.get_component_vector.length ≠ t.get_component_vector.length))
      ∧ ((∃ r : color_base α, op_add s t = .ok r)
        ↔ (s.get_color_type = t.get_color_type
            ∧ s.get_component_vector.length = t.get_component_vector.length))
      ∧ ((s.get_color_type ≠ t.get_color_type
            ∨ s.get_component_vector.length ≠ t.get_component_vector.length) →
          ¬ ∃ r : color_base α, op_add s t = .ok r) := by
  simp only [get_component_vector]
  by_cases h : s.get_color_type = t.get_color_type
      ∧ s.m_component_vector.length = t.m_component_vector.length
  · have hn : ¬ (s.get_color_type ≠ t.get_color_type
        ∨ s.m_component_vector.length ≠ t.m_component_vector.length) := by
      rintro (h1 | h1)
      · exact h1 h.1
      · exact h1 h.2
    simp [op_add, h, hn]
  · have hn : s.get_color_type ≠ t.get_color_type
        ∨ s.m_component_vector.length ≠ t.m_component_vector.length := by
      by_contra hc
      push_neg at hc
      exact h hc
    simp [op_add, h, hn]

/-- C38: for every 8-bit RGB colour whose red, green, blue and alpha are integers in 0..255,
`rgb_true_to_rgb_deep` followed by `rgb_deep_to_rgb_true` returns exactly the original red,
green, blue and alpha. -/
theorem rgb_true_round_trip_exact {α : Type} [LinearOrderedField α] [FloorRing α]
    (e : env α) (cs : Option ℕ) (r g b a : ℤ)
    (hr0 : 0 ≤ r) (hr1 : r ≤ 255) (hg0 : 0 ≤ g) (hg1 : g ≤ 255)
    (hb0 : 0 ≤ b) (hb1 : b ≤ 255) (ha0 : 0 ≤ a) (ha1 : a ≤ 255) :
    (rgb_truecolor.ctor (of_int r) (of_int g) (of_int b) (of_int a) cs
        >>= rgb_true_to_rgb_deep e >>= rgb_deep_to_rgb_true e)
      = .ok
        { cls := .rgb_truecolor
          m_component_vector := [of_int r, of_int g, of_int b]
          m_rgb_color_space := e.default_color_space, m_alpha := of_int a
          m_max := fin 255, m_min := fin 0, m_type := .RGB_TRUE } := by
  have c255 : ∀ n : ℤ, 0 ≤ n → n ≤ 255 →
      clamp (fin (n : α)) (fin 255) (fin 0) = fin (n : α) := by
    intro n h0 h1
    exact clamp_fin_of_mem (by exact_mod_cast h0) (by exact_mod_cast h1)
  have c1 : ∀ n : ℤ, 0 ≤ n → n ≤ 255 →
      clamp (fin ((n : α) / 255)) (fin 1) (fin 0) = fin ((n : α) / 255) := by
    intro n h0 h1
    apply clamp_fin_of_mem
    · exact div_nonneg (by exact_mod_cast h0) (by norm_num)
    · rw [div_le_one (by norm_num)]
      exact_mod_cast h1
  have h255 : (255 : α) ≠ 0 := by norm_num
  rw [rgb_truecolor_ctor_eq]
  simp only [of_int_eq, c255 r hr0 hr1, c255 g hg0 hg1, c255 b hb0 hb1, ok_bind,
    rgb_true_to_rgb_deep, rgb_truecolor.red, rgb_truecolor.green, rgb_truecolor.blue,
    rgb_truecolor.alpha, at_index, List.getD_cons_zero, List.getD_cons_succ,
    fin_div_fin_of_ne _ h255, rgb_deepcolor_ctor_eq, c1 r hr0 hr1, c1 g hg0 hg1,
    c1 b hb0 hb1, rgb_deep_to_rgb_true, rgb_deepcolor.red, rgb_deepcolor.green,
    rgb_deepcolor.blue, color_base.alpha]
  rw [uchar_round_trip r hr0 hr1, uchar_round_trip g hg0 hg1,
    uchar_round_trip b hb0 hb1, uchar_round_trip a ha0 ha1, rgb_truecolor_ctor_eq,
    c255 r hr0 hr1, c255 g hg0 hg1, c255 b hb0 hb1]

/-- C38 at the colour (200, 17, 0) with alpha 255. -/
theorem rgb_true_round_trip_exact_witness :
    ((0 : ℤ) ≤ 200 ∧ (200 : ℤ) ≤ 255 ∧ (0 : ℤ) ≤ 17 ∧ (17 : ℤ) ≤ 255 ∧ (0 : ℤ) ≤ 0
        ∧ (0 : ℤ) ≤ 255 ∧ (0 : ℤ) ≤ 255 ∧ (255 : ℤ) ≤ 255)
      ∧ (rgb_truecolor.ctor (of_int 200) (of_int 17) (of_int 0) (of_int 255) none
          >>= rgb_true_to_rgb_deep (env_of Real.rpow)
          >>= rgb_deep_to_rgb_true (env_of Real.rpow))
        = .ok
          { cls := .rgb_truecolor
            m_component_vector := [of_int 200, of_int 17, of_int 0]
            m_rgb_color_space := none, m_alpha := of_int 255
            m_max := fin 255, m_min := fin 0, m_type := .RGB_TRUE } :=
  ⟨by decide,
    rgb_true_round_trip_exact (env_of Real.rpow) none 200 17 0 255 (by decide) (by decide)
      (by decide) (by decide) (by decide) (by decide) (by decide) (by decide)⟩

/-- C39: for every RGB_deep colour (r, g, b) with components in [0,1] and max(r,g,b) > 0,
`rgb_deep_to_cmyk` followed by `cmyk_to_rgb_deep` returns the original red, green and blue. -/
theorem rgb_deep_cmyk_round_trip {α : Type} [LinearOrderedField α] (e : env α)
    (a : float α) (cs : Option ℕ) (r g b : α)
    (hr0 : 0 ≤ r) (hr1 : r ≤ 1) (hg0 : 0 ≤ g) (hg1 : g ≤ 1) (hb0 : 0 ≤ b) (hb1 : b ≤ 1)
    (hmax : 0 < max (max r g) b) :
    (rgb_deepcolor.ctor (fin r) (fin g) (fin b) a cs >>= rgb_deep_to_cmyk e
        >>= cmyk_to_rgb_deep e)
      = .ok
        { cls := .rgb_deepcolor
          m_component_vector := [fin r, fin g, fin b]
          m_rgb_color_space := e.default_color_space, m_alpha := e.default_alpha
          m_max := fin 1, m_min := fin 0, m_type := .RGB_DEEP } := by
  have hM1 : max (max r g) b ≤ 1 := max_le (max_le hr1 hg1) hb1
  have hrM : r ≤ max (max r g) b := le_trans (le_max_left r g) (le_max_left _ b)
  have hgM : g ≤ max (max r g) b := le_trans (le_max_right r g) (le_max_left _ b)
  have hbM : b ≤ max (max r g) b := le_max_right _ b
  generalize hM : max (max r g) b = M at hmax hM1 hrM hgM hbM
  have hk : (1 : α) - (1 - M) = M := by ring
  have hM0 : M ≠ 0 := ne_of_gt hmax
  have hne : (1 : α) - (1 - M) ≠ 0 := by rw [hk]; exact hM0
  have frac : ∀ t : α, 0 ≤ t → t ≤ M →
      0 ≤ (1 - t - (1 - M)) / (1 - (1 - M)) ∧ (1 - t - (1 - M)) / (1 - (1 - M)) ≤ 1 := by
    intro t _ htM
    rw [hk]
    constructor
    · apply div_nonneg _ hmax.le
      linarith
    · rw [div_le_one hmax]
      linarith
  have back : ∀ t : α, (1 - (1 - t - (1 - M)) / (1 - (1 - M))) * (1 - (1 - M)) = t := by
    intro t
    rw [hk]
    field_simp
  rw [rgb_deepcolor_ctor_eq, clamp_fin_of_mem hr0 hr1, clamp_fin_of_mem hg0 hg1,
    clamp_fin_of_mem hb0 hb1]
  simp only [ok_bind, rgb_deep_to_cmyk, rgb_deepcolor.red, rgb_deepcolor.green,
    rgb_deepcolor.blue, at_index, List.getD_cons_zero, List.getD_cons_succ, of_int_eq,
    Int.cast_one, fmaxf_fin, fin_sub_fin, hM, fin_div_fin_of_ne _ hne, cmyk_ctor_eq]
  rw [clamp_fin_of_mem (frac r hr0 hrM).1 (frac r hr0 hrM).2,
    clamp_fin_of_mem (frac g hg0 hgM).1 (frac g hg0 hgM).2,
    clamp_fin_of_mem (frac b hb0 hbM).1 (frac b hb0 hbM).2,
    clamp_fin_of_mem (by linarith : (0 : α) ≤ 1 - M) (by linarith)]
  simp only [ok_bind, cmyk_to_rgb_deep, cmyk.cyan, cmyk.magenta, cmyk.yellow, cmyk.black,
    at_index, List.getD_cons_zero, List.getD_cons_succ, of_int_eq, Int.cast_one, fin_sub_fin,
    fin_mul_fin, rgb_deepcolor_ctor_eq, back, clamp_fin_of_mem hr0 hr1,
    clamp_fin_of_mem hg0 hg1, clamp_fin_of_mem hb0 hb1]

/-- C39 at the colour (0.2, 0.5, 0.7). -/
theorem rgb_deep_cmyk_round_trip_witness :
    ((0 : ℝ) ≤ 0.2 ∧ (0.2 : ℝ) ≤ 1 ∧ (0 : ℝ) ≤ 0.5 ∧ (0.5 : ℝ) ≤ 1 ∧ (0 : ℝ) ≤ 0.7
        ∧ (0.7 : ℝ) ≤ 1 ∧ (0 : ℝ) < max (max 0.2 0.5) 0.7)
      ∧ (rgb_deepcolor.ctor (fin 0.2) (fin 0.5) (fin 0.7) (fin 1) none
          >>= rgb_deep_to_cmyk (env_of Real.rpow) >>= cmyk_to_rgb_deep (env_of Real.rpow))
        = .ok
          { cls := .rgb_deepcolor
            m_component_vector := [fin 0.2, fin 0.5, fin 0.7]
            m_rgb_color_space := none, m_alpha := fin 1
            m_max := fin 1, m_min := fin 0, m_type := .RGB_DEEP } :=
  ⟨by norm_num,
    rgb_deep_cmyk_round_trip (env_of Real.rpow) (fin 1) none 0.2 0.5 0.7 (by norm_num)
      (by norm_num) (by norm_num) (by norm_num) (by norm_num) (by norm_num) (by norm_num)⟩

/-- C40, counterexample: for the grey (1/2, 1/2, 1/2) the hue handed to the `hsv` constructor
is 0, although red is the max channel and blue - green equals max - min (both are 0); and in
binary32 arithmetic the colour (1 - 2^-24, 0, 1) gets the hue 300, because
`(red - green) / delta + 4` rounds to 5 (in exact arithmetic the hue is 240). -/
theorem rgb_deep_to_hsv_hue_counterexample :
    (∃ c : color_base ℚ,
      rgb_deepcolor.ctor (fin (1 / 2)) (fin (1 / 2)) (fin (1 / 2)) (fin 1) none = .ok c
      ∧ rgb_deep_to_hsv_hue c = 0
      ∧ ((1 / 2 : ℚ) = max (max (1 / 2) (1 / 2)) (1 / 2)
        ∧ (1 / 2 : ℚ) - 1 / 2
            = max (max (1 / 2) (1 / 2)) (1 / 2) - min (min (1 / 2) (1 / 2)) (1 / 2))
      ∧ ¬ (rgb_deep_to_hsv_hue c = -60
          ↔ ((1 / 2 : ℚ) = max (max (1 / 2) (1 / 2)) (1 / 2)
            ∧ (1 / 2 : ℚ) - 1 / 2
                = max (max (1 / 2) (1 / 2)) (1 / 2) - min (min (1 / 2) (1 / 2)) (1 / 2))))
    ∧ ∃ c : color_base ℚ,
      rgb_deepcolor.ctor (fin (16777215 / 2 ^ 24)) (fin 0) (fin 1) (fin 1) none = .ok c
      ∧ rgb_deep_to_hsv_hue_rounded round32 c = 300
      ∧ rgb_deep_to_hsv_hue c = 240 := by
  constructor
  · have hc : (1 / 2 : ℚ) = max (max (1 / 2) (1 / 2)) (1 / 2)
        ∧ (1 / 2 : ℚ) - 1 / 2
            = max (max (1 / 2) (1 / 2)) (1 / 2) - min (min (1 / 2) (1 / 2)) (1 / 2) := by
      simp
    have h0 : rgb_deep_to_hsv_hue
        ({ cls := .rgb_deepcolor
           m_component_vector := [clamp (fin (1 / 2)) (fin 1) (fin 0),
             clamp (fin (1 / 2)) (fin 1) (fin 0), clamp (fin (1 / 2)) (fin 1) (fin 0)]
           m_rgb_color_space := none, m_alpha := fin 1, m_max := fin 1, m_min := fin 0
           m_type := .RGB_DEEP } : color_base ℚ) = 0 := by
      simp [rgb_deep_to_hsv_hue, rgb_deepcolor.red, rgb_deepcolor.green, rgb_deepcolor.blue,
        at_index]
    refine ⟨_, rgb_deepcolor_ctor_eq _ _ _ _ _, h0, hc, ?_⟩
    rw [h0]
    intro h
    exact absurd (h.mpr hc) (by decide)
  · have hr0 : (0 : ℚ) ≤ 16777215 / 2 ^ 24 := by norm_num
    have hr1 : (16777215 / 2 ^ 24 : ℚ) ≤ 1 := by norm_num
    have hmax : max (max (16777215 / 2 ^ 24 : ℚ) 0) 1 = 1 := by norm_num
    have hmin : min (min (16777215 / 2 ^ 24 : ℚ) 0) 1 = 0 := by norm_num
    have h10 : ¬ ((1 : ℚ) = 0) := by norm_num
    have h1r : ¬ ((1 : ℚ) = 16777215 / 2 ^ 24) := by norm_num
    refine ⟨_, rgb_deepcolor_ctor_eq _ _ _ _ _, ?_, ?_⟩
    · rw [clamp_fin_of_mem hr0 hr1, clamp_fin_of_mem (le_refl (0 : ℚ)) (by norm_num),
        clamp_fin_of_mem (by norm_num : (0 : ℚ) ≤ 1) (le_refl 1)]
      simp only [rgb_deep_to_hsv_hue_rounded, rgb_deepcolor.red, rgb_deepcolor.green,
        rgb_deepcolor.blue, at_index, List.getD_cons_zero, List.getD_cons_succ, fmaxf_fin,
        fminf_fin, hmax, hmin, eq_fin, h10, h1r, decide_False, Bool.false_eq_true, if_false,
        fin_sub_fin, sub_zero, round32_fin, to_binary32_one, to_binary32_red,
        fin_div_fin_of_ne _ (by norm_num : (1 : ℚ) ≠ 0), div_one, of_int_eq, fin_add_fin,
        Int.cast_ofNat, to_binary32_below_five]
      rw [to_int_of_floor (5 : ℚ) 5 (by norm_num) (by norm_num) (by decide) (by decide)]
      norm_num
    · rw [clamp_fin_of_mem hr0 hr1, clamp_fin_of_mem (le_refl (0 : ℚ)) (by norm_num),
        clamp_fin_of_mem (by norm_num : (0 : ℚ) ≤ 1) (le_refl 1)]
      simp only [rgb_deep_to_hsv_hue, rgb_deepcolor.red, rgb_deepcolor.green,
        rgb_deepcolor.blue, at_index, List.getD_cons_zero, List.getD_cons_succ, fmaxf_fin,
        fminf_fin, hmax, hmin, eq_fin, h10, h1r, decide_False, Bool.false_eq_true, if_false,
        fin_sub_fin, sub_zero, fin_div_fin_of_ne _ (by norm_num : (1 : ℚ) ≠ 0), div_one,
        of_int_eq, fin_add_fin, Int.cast_ofNat]
      rw [to_int_of_floor (16777215 / 2 ^ 24 + 4 : ℚ) 4 (by norm_num)
        (by rw [Int.floor_eq_iff]; constructor <;> norm_num) (by decide) (by decide)]
      norm_num

/-- C40, amended: over exact arithmetic (no rounding of the intermediate results), for every
RGB_deep colour with components in [0,1], the hue that `rgb_deep_to_hsv` hands to the `hsv`
constructor is one of -60, 0, 60, 120, 180, 240, hence a
multiple of 60 and never 300; it is -60 exactly when max and min differ, red is the max
channel and blue - green equals max - min. -/
theorem rgb_deep_to_hsv_hue_values {α : Type} [LinearOrderedField α] [FloorRing α]
    (e : env α) (a : float α) (cs : Option ℕ) (r g b : α)
    (hr0 : 0 ≤ r) (hr1 : r ≤ 1) (hg0 : 0 ≤ g) (hg1 : g ≤ 1) (hb0 : 0 ≤ b) (hb1 : b ≤ 1) :
    ∃ c : color_base α,
      rgb_deepcolor.ctor (fin r) (fin g) (fin b) a cs = .ok c
      ∧ (∃ s v : float α,
          rgb_deep_to_hsv e c
            = hsv.ctor (of_int (rgb_deep_to_hsv_hue c)) s v e.default_alpha
                e.default_color_space)
      ∧ (rgb_deep_to_hsv_hue c = -60 ∨ rgb_deep_to_hsv_hue c = 0
          ∨ rgb_deep_to_hsv_hue c = 60 ∨ rgb_deep_to_hsv_hue c = 120
          ∨ rgb_deep_to_hsv_hue c = 180 ∨ rgb_deep_to_hsv_hue c = 240)
      ∧ (rgb_deep_to_hsv_hue c = -60
          ↔ (max (max r g) b ≠ min (min r g) b ∧ r = max (max r g) b
            ∧ b - g = max (max r g) b - min (min r g) b))
      ∧ rgb_deep_to_hsv_hue c ≠ 300
      ∧ (60 : ℤ) ∣ rgb_deep_to_hsv_hue c := by
  have h := rgb_deep_to_hsv_hue_cases a cs r g b
  simp only [] at h
  refine ⟨_, rgb_deepcolor_ctor_eq _ _ _ _ _, rgb_deep_to_hsv_eq_hue e _, ?_⟩
  rw [clamp_fin_of_mem hr0 hr1, clamp_fin_of_mem hg0 hg1, clamp_fin_of_mem hb0 hb1]
  refine ⟨h.1, h.2, ?_, ?_⟩
  · rcases h.1 with h1 | h1 | h1 | h1 | h1 | h1 <;> rw [h1] <;> decide
  · rcases h.1 with h1 | h1 | h1 | h1 | h1 | h1 <;> rw [h1] <;> decide

/-- C40 amended, at magenta (1, 0, 1). -/
theorem rgb_deep_to_hsv_hue_values_witness :
    ((0 : ℝ) ≤ 1 ∧ (1 : ℝ) ≤ 1 ∧ (0 : ℝ) ≤ 0 ∧ (0 : ℝ) ≤ 1 ∧ (0 : ℝ) ≤ 1 ∧ (1 : ℝ) ≤ 1)
      ∧ ∃ c : color_base ℝ,
        rgb_deepcolor.ctor (fin 1) (fin 0) (fin 1) (fin 1) none = .ok c
        ∧ (∃ s v : float ℝ,
            rgb_deep_to_hsv (env_of Real.rpow) c
              = hsv.ctor (of_int (rgb_deep_to_hsv_hue c)) s v (env_of Real.rpow).default_alpha
                  (env_of Real.rpow).default_color_space)
        ∧ (rgb_deep_to_hsv_hue c = -60 ∨ rgb_deep_to_hsv_hue c = 0
            ∨ rgb_deep_to_hsv_hue c = 60 ∨ rgb_deep_to_hsv_hue c = 120
            ∨ rgb_deep_to_hsv_hue c = 180 ∨ rgb_deep_to_hsv_hue c = 240)
        ∧ (rgb_deep_to_hsv_hue c = -60
            ↔ (max (max (1 : ℝ) 0) 1 ≠ min (min (1 : ℝ) 0) 1 ∧ (1 : ℝ) = max (max 1 0) 1
              ∧ (1 : ℝ) - 0 = max (max 1 0) 1 - min (min 1 0) 1))
        ∧ rgb_deep_to_hsv_hue c ≠ 300
        ∧ (60 : ℤ) ∣ rgb_deep_to_hsv_hue c :=
  ⟨by norm_num,
    rgb_deep_to_hsv_hue_values (env_of Real.rpow) (fin 1) none 1 0 1 (by norm_num)
      (by norm_num) (by norm_num) (by norm_num) (by norm_num) (by norm_num)⟩

end claims

end ColorMagic
